import Mathlib

/-!
# TicTacToeBE: the room relay of `src/index.js`

A shallow embedding of the WebSocket server of `src/index.js` and the
properties of its room state machine.

Modelling conventions.

* Player and room identifiers are JSON strings.  A connection handle (`ws`)
  is a natural number; two handles are the same object iff the numbers agree.
* The keyed objects `rooms`, `connections`, `readyToPlayAgain` and
  `switchRequests` are lists of their own properties in enumeration order
  (array-index keys ascending, then the other keys in insertion order).
  They are plain objects, so a read under a name that `Object.prototype`
  defines (`constructor`, `toString`, `__proto__`, ...) finds the inherited
  value when there is no own property, and an assignment under `__proto__`
  adds no own property: for `connections` it makes the handle the prototype
  of the object, kept in the field `connectionsProto` of the room.
* The handlers are taken as they run while `Object.prototype` and the
  built-in functions are as at start-up.  What `handleMove` or
  `handleSwitchRequest` writes onto such an inherited object, reached through
  a room identifier that names it, lands outside the registry and is not part
  of the state.
* A connection handle is opaque: the members that `connections` inherits
  from a handle once the handle is its prototype are not modelled, and no
  player identifier is taken to name one of them.
* Numbers are integers held in IEEE doubles: `jsInc` is the addition of 1
  with the rounding of a double.
* A board is an array of arrays of integers, as a client may submit it.
  Reading a row that does not exist gives `undefined`, and indexing
  `undefined` raises a `TypeError`; `none` stands for that exception.
* A handler returns the registry it leaves behind, the transport effects
  (`send`, `close`) in the order it issued them, and whether it raised.
-/

namespace TicTacToeBE

/-! ## Keyed objects -/

/-- The own properties of a JavaScript object, in enumeration order. -/
abbrev JsObj (α : Type) := List (String × α)

/-- The decimal value of a digit character. -/
def digitVal (c : Char) : Option Nat :=
  if 48 ≤ c.toNat ∧ c.toNat ≤ 57 then some (c.toNat - 48) else none

/-- The value of a string of decimal digits, read left to right from `acc`. -/
def digitsVal : List Char → Nat → Option Nat
  | [], acc => some acc
  | c :: cs, acc =>
    match digitVal c with
    | some d => digitsVal cs (acc * 10 + d)
    | none => none

/-- The array index a property key denotes, when it is one: a canonical
decimal numeral (no leading zero) below `2^32 - 1`. -/
def arrayIndex? (k : String) : Option Nat :=
  match k.data with
  | [] => none
  | c :: cs =>
    if c = '0' ∧ cs ≠ [] then none
    else
      match digitsVal (c :: cs) 0 with
      | some n => if n < 4294967295 then some n else none
      | none => none

/-- The names of the properties that a plain object inherits from
`Object.prototype`. -/
def inheritedNames : List String :=
  ["constructor", "__defineGetter__", "__defineSetter__", "hasOwnProperty",
    "__lookupGetter__", "__lookupSetter__", "isPrototypeOf", "propertyIsEnumerable",
    "toString", "valueOf", "__proto__", "toLocaleString"]

/-- Whether `k` names a property inherited from `Object.prototype`. -/
def inheritedName (k : String) : Bool := decide (k ∈ inheritedNames)

/-- The number `n + 1` as the addition of doubles computes it, for an
integer `n` that a double holds: exact from `-2^53` to `2^53 - 1`, rounded to
the nearest double (ties to the even mantissa) beyond. -/
def jsInc (n : Int) : Int :=
  if -9007199254740992 ≤ n ∧ n < 9007199254740992 then n + 1
  else if -18014398509481984 < n ∧ n < 18014398509481984 then
    (if (n / 2) % 2 = 0 then n else n + 2)
  else n

namespace JsObj

variable {α : Type}

/-- The own property `k` of `o`, if there is one. -/
def get : JsObj α → String → Option α
  | [], _ => none
  | (k', v) :: o, k => if k' = k then some v else get o k

/-- Whether `k` is an own property of `o`. -/
def has (o : JsObj α) (k : String) : Bool := (get o k).isSome

/-- The values of `Object.values(o)`. -/
def values (o : JsObj α) : List α := o.map Prod.snd

/-- The keys of `Object.keys(o)`. -/
def keys (o : JsObj α) : List String := o.map Prod.fst

/-- Overwrites the value of an own property, keeping its place. -/
def replace : JsObj α → String → α → JsObj α
  | [], _, _ => []
  | (k', v') :: o, k, v => if k' = k then (k, v) :: o else (k', v') :: replace o k v

/-- Adds a new array-index key `k` (of index `n`) after the smaller indices. -/
def insertIndex : JsObj α → Nat → String → α → JsObj α
  | [], _, k, v => [(k, v)]
  | (k', v') :: o, n, k, v =>
    match arrayIndex? k' with
    | some m => if m < n then (k', v') :: insertIndex o n k v else (k, v) :: (k', v') :: o
    | none => (k, v) :: (k', v') :: o

/-- The assignment `o[k] = v` as far as the own properties go. Under the
key `__proto__` the assignment runs the setter inherited from
`Object.prototype` and adds no own property. -/
def set (o : JsObj α) (k : String) (v : α) : JsObj α :=
  if k = "__proto__" then o
  else if has o k then replace o k v
  else
    match arrayIndex? k with
    | some n => insertIndex o n k v
    | none => o ++ [(k, v)]

/-- The statement `delete o[k]`: no property `k` is left. -/
def delete : JsObj α → String → JsObj α
  | [], _ => []
  | (k', v') :: o, k => if k' = k then delete o k else (k', v') :: delete o k

end JsObj

/-! ## Boards and the win evaluator -/

/-- A board as submitted: rows of cells. -/
abbrev Board := List (List Int)

/-- The board of a new room and of a reset. -/
def emptyBoard : Board := [[0, 0, 0], [0, 0, 0], [0, 0, 0]]

/-- The test `board[i][j] === player`; `none` when `board[i]` is `undefined`. -/
def cellIs (board : Board) (i j : Nat) (player : Int) : Option Bool :=
  match board.get? i with
  | none => none
  | some row => some (decide (row.get? j = some player))

/-- The short-circuit `a && b` of two tests that may raise. -/
def andThen (a b : Option Bool) : Option Bool :=
  match a with
  | none => none
  | some false => some false
  | some true => b

/-- The short-circuit `a || b` of two tests that may raise. -/
def orElse (a b : Option Bool) : Option Bool :=
  match a with
  | none => none
  | some true => some true
  | some false => b

/-- The condition of the loop body of `checkWin`: row `i` or column `i`. -/
def rowOrCol (board : Board) (player : Int) (i : Nat) : Option Bool :=
  orElse
    (andThen (cellIs board i 0 player) (andThen (cellIs board i 1 player) (cellIs board i 2 player)))
    (andThen (cellIs board 0 i player) (andThen (cellIs board 1 i player) (cellIs board 2 i player)))

/-- The condition after the loop of `checkWin`: one of the two diagonals. -/
def diagonals (board : Board) (player : Int) : Option Bool :=
  orElse
    (andThen (cellIs board 0 0 player) (andThen (cellIs board 1 1 player) (cellIs board 2 2 player)))
    (andThen (cellIs board 0 2 player) (andThen (cellIs board 1 1 player) (cellIs board 2 0 player)))

/-- The loop `for (let i = ...; i < 3; i++)` of `checkWin` over the remaining
indices, followed by the diagonal test. -/
def checkWinFrom (board : Board) (player : Int) : List Nat → Option Bool
  | [] =>
    match diagonals board player with
    | none => none
    | some true => some true
    | some false => some false
  | i :: rest =>
    match rowOrCol board player i with
    | none => none
    | some true => some true
    | some false => checkWinFrom board player rest

/-- The function `checkWin(board, player)`. -/
def checkWin (board : Board) (player : Int) : Option Bool :=
  checkWinFrom board player [0, 1, 2]

/-- A board of three rows of three cells. -/
def Board.is3x3 (board : Board) : Prop :=
  board.length = 3 ∧ ∀ row ∈ board, row.length = 3

instance (board : Board) : Decidable board.is3x3 := by
  unfold Board.is3x3
  infer_instance

/-- The eight lines of a 3x3 board, as lists of (row, column) positions. -/
def winLines : List (List (Nat × Nat)) :=
  [ [(0, 0), (0, 1), (0, 2)], [(1, 0), (1, 1), (1, 2)], [(2, 0), (2, 1), (2, 2)],
    [(0, 0), (1, 0), (2, 0)], [(0, 1), (1, 1), (2, 1)], [(0, 2), (1, 2), (2, 2)],
    [(0, 0), (1, 1), (2, 2)], [(0, 2), (1, 1), (2, 0)] ]

/-- The cell of a board at a position, if the board has one there. -/
def Board.cell (board : Board) (p : Nat × Nat) : Option Int :=
  match board.get? p.1 with
  | none => none
  | some row => row.get? p.2

/-- The mark `m` fills a whole row, column or diagonal of the board. -/
def Board.hasLine (board : Board) (m : Int) : Prop :=
  ∃ line ∈ winLines, ∀ p ∈ line, board.cell p = some m

/-- The disjunction of the eight lines of a grid, cell by cell. -/
def gridLine (a b c d e f g h i m : Int) : Prop :=
  (a = m ∧ b = m ∧ c = m) ∨ (d = m ∧ e = m ∧ f = m) ∨ (g = m ∧ h = m ∧ i = m)
    ∨ (a = m ∧ d = m ∧ g = m) ∨ (b = m ∧ e = m ∧ h = m) ∨ (c = m ∧ f = m ∧ i = m)
    ∨ (a = m ∧ e = m ∧ i = m) ∨ (c = m ∧ e = m ∧ g = m)

instance (a b c d e f g h i m : Int) : Decidable (gridLine a b c d e f g h i m) := by
  unfold gridLine
  infer_instance

/-! ## Rooms, messages and effects -/

/-- A player identifier, as the client supplies it. -/
abbrev PlayerId := String

/-- A room identifier. -/
abbrev RoomId := String

/-- A connection handle (`ws`). -/
abbrev Conn := Nat

/-- The truthiness of a slot value: `null` and the empty string are falsy. -/
def truthy : Option PlayerId → Bool
  | none => false
  | some s => decide (s ≠ "")

/-- The property key a slot value is converted to: `null` becomes `"null"`. -/
def propKey : Option PlayerId → String
  | none => "null"
  | some s => s

/-- The truthiness of `o[k]` for a plain object of flags. Under `__proto__`
the read gives the prototype, which is truthy; under another key it gives
the own flag, or else the value inherited from `Object.prototype` (a
function), which is truthy. -/
def flagged (o : JsObj Bool) (k : String) : Bool :=
  if k = "__proto__" then true
  else
    match JsObj.get o k with
    | some b => b
    | none => inheritedName k

/-- The state of one room. `switchRequests` is `undefined` until the first
switch request and again after a committed swap. `connectionsProto` is the
handle that an assignment `connections['__proto__'] = ws` has made the
prototype of `connections`, if there was one. -/
structure Room where
  player1 : Option PlayerId
  player2 : Option PlayerId
  board : Board
  turnPlayer : Int
  readyToPlayAgain : JsObj Bool
  connections : JsObj Conn
  moveCnt : Int
  switchRequests : Option (JsObj Bool)
  connectionsProto : Option Conn
deriving DecidableEq

/-- The object literal of lines 50-58 and 85-93. -/
def newRoom : Room :=
  { player1 := none, player2 := none, board := emptyBoard, turnPlayer := 1,
    readyToPlayAgain := [], connections := [], moveCnt := 0, switchRequests := none,
    connectionsProto := none }

/-- The assignment `room.connections[playerId] = ws` (lines 74 and 97): a
new or overwritten own property, or under `__proto__` a new prototype. -/
def Room.register (room : Room) (playerId : PlayerId) (ws : Conn) : Room :=
  if playerId = "__proto__" then { room with connectionsProto := some ws }
  else { room with connections := JsObj.set room.connections playerId ws }

/-- The connection that `room.connections[key].send(...)` reaches (lines 294
and 300): under `__proto__` the prototype handle, under another key the own
property. Any other value (`undefined`, an inherited function,
`Object.prototype`, a property of the prototype handle) has no usable
`send`, and the call raises: `none`. -/
def Room.sendTarget (room : Room) (key : String) : Option Conn :=
  if key = "__proto__" then room.connectionsProto else JsObj.get room.connections key

/-- The registry `rooms`. -/
abbrev Registry := JsObj Room

/-- The payload of a `syncState` message. -/
structure Snapshot where
  board : Board
  turnPlayer : Int
  moves : Int
  player1 : Option PlayerId
  player2 : Option PlayerId
  winnerPlayer : Int
  gameOver : Bool
  readyToPlayAgain : JsObj Bool
  connections : Nat
deriving DecidableEq

/-- The outbound messages. -/
inductive Msg where
  | joinNotAllowed (message : String)
  | joinAllowed (message : String)
  | error (message : String)
  | playerNumber (playerNumber : Int) (playerId : Option PlayerId)
  | syncState (snapshot : Snapshot)
  | start (message : String)
  | gameOver (winner : Int) (board : Board) (newMoveCnt : Int)
  | update (board : Board) (turnPlayer : Int) (newMoveCnt : Int)
  | reset
  | message (text : String)
deriving DecidableEq

/-- What a handler does to the transport. -/
inductive Effect where
  | send (ws : Conn) (msg : Msg)
  | close (ws : Conn)
deriving DecidableEq

/-- What a handler leaves behind: the registry, the effects in order, and
whether it ended by raising an exception. -/
structure Outcome where
  rooms : Registry
  effects : List Effect
  threw : Bool
deriving DecidableEq

/-- The inbound events: the seven message kinds, an unrecognised kind, and
the closing of a connection. -/
inductive Event where
  | join (ws : Conn) (room : RoomId) (playerId : PlayerId)
  | checkJoin (ws : Conn) (room : RoomId) (playerId : PlayerId)
  | move (room : RoomId) (board : Board) (turnPlayer : Int) (moveCnt : Int)
  | switchRequest (room : RoomId) (playerId : PlayerId)
  | message (room : RoomId) (text : String)
  | playAgain (room : RoomId) (playerId : PlayerId)
  | syncState (ws : Conn) (room : RoomId)
  | other
  | close (ws : Conn)
deriving DecidableEq

/-! ## Handlers -/

/-- The value `rooms[roomId]` is no room of the registry but an object
inherited from `Object.prototype`: a function, or the prototype itself. -/
def builtinRoom (rooms : Registry) (roomId : RoomId) : Bool :=
  !JsObj.has rooms roomId && inheritedName roomId

/-- The guard `if (!rooms[roomId]) { rooms[roomId] = {...} }`: `rooms[roomId]`
is truthy for a room of the registry and for an inherited name. -/
def ensureRoom (rooms : Registry) (roomId : RoomId) : Registry :=
  if JsObj.has rooms roomId || inheritedName roomId then rooms
  else JsObj.set rooms roomId newRoom

/-- The object `rooms[roomId]` once `ensureRoom` has run. -/
def roomAt (rooms : Registry) (roomId : RoomId) : Room :=
  match JsObj.get rooms roomId with
  | some room => room
  | none => newRoom

/-- The function `broadcast(room, message)`; `none` when it raises:
`rooms[room]` is `undefined`, or an inherited object, whose `connections`
is `undefined`. -/
def broadcast (rooms : Registry) (room : RoomId) (message : Msg) : Option (List Effect) :=
  match JsObj.get rooms room with
  | none => none
  | some roomData => some ((JsObj.values roomData.connections).map (fun c => Effect.send c message))

/-- The value of `winnerPlayer` computed from a board (lines 101-110 and
216-227); `none` when `checkWin` raises. -/
def winnerOf (board : Board) : Option Int :=
  match checkWin board 1 with
  | none => none
  | some true => some 1
  | some false =>
    match checkWin board 2 with
    | none => none
    | some true => some 2
    | some false => some 0

/-- The function `checkRoom(ws, roomId, playerId)`. -/
def checkRoom (rooms : Registry) (ws : Conn) (roomId : RoomId) (playerId : PlayerId) : Outcome :=
  let rooms1 := ensureRoom rooms roomId
  if builtinRoom rooms roomId then
    -- `room.connections` is `undefined`: `Object.keys` raises at line 64
    { rooms := rooms1, effects := [], threw := true }
  else
    let room := roomAt rooms roomId
    if 2 ≤ (JsObj.keys room.connections).length then
      { rooms := rooms1,
        effects := [Effect.send ws (Msg.joinNotAllowed "Room is full."), Effect.close ws],
        threw := false }
    else
      { rooms := JsObj.replace rooms1 roomId (room.register playerId ws),
        effects := [Effect.send ws (Msg.joinAllowed "Room is free to join.")],
        threw := false }

/-- The function `handleJoin(ws, roomId, playerId)`. -/
def handleJoin (rooms : Registry) (ws : Conn) (roomId : RoomId) (playerId : PlayerId) : Outcome :=
  let rooms1 := ensureRoom rooms roomId
  if builtinRoom rooms roomId then
    -- `room.connections` is `undefined`: the assignment of line 97 raises
    { rooms := rooms1, effects := [], threw := true }
  else
  let room0 := roomAt rooms roomId
  let room1 : Room := room0.register playerId ws
  let rooms2 := JsObj.replace rooms1 roomId room1
  let currMoveCnt := room1.moveCnt
  match winnerOf room1.board with
  | none => { rooms := rooms2, effects := [], threw := true }
  | some winnerPlayer =>
    let gameOver : Bool := decide (winnerPlayer ≠ 0) || decide (currMoveCnt = 9)
    if truthy room1.player1 && truthy room1.player2 then
      { rooms := rooms2,
        effects := [Effect.send ws
            (Msg.error "Room is full. You will be redirected to the homepage."),
          Effect.close ws],
        threw := false }
    else
      let room2 : Room :=
        if !truthy room1.player1 then { room1 with player1 := some playerId }
        else if !truthy room1.player2 then { room1 with player2 := some playerId }
        else room1
      let numberMsg : List Effect :=
        if !truthy room1.player1 then [Effect.send ws (Msg.playerNumber 1 (some playerId))]
        else if !truthy room1.player2 then [Effect.send ws (Msg.playerNumber 2 (some playerId))]
        else []
      let rooms3 := JsObj.replace rooms1 roomId room2
      let sync : Effect := Effect.send ws (Msg.syncState
        { board := room2.board, turnPlayer := room2.turnPlayer, moves := room2.moveCnt,
          player1 := room2.player1, player2 := room2.player2, winnerPlayer := winnerPlayer,
          gameOver := gameOver, readyToPlayAgain := room2.readyToPlayAgain,
          connections := (JsObj.keys room2.connections).length })
      if truthy room2.player1 && truthy room2.player2 then
        match broadcast rooms3 roomId (Msg.start "Both players connected!") with
        | none => { rooms := rooms3, effects := numberMsg ++ [sync], threw := true }
        | some sends => { rooms := rooms3, effects := numberMsg ++ [sync] ++ sends, threw := false }
      else
        { rooms := rooms3, effects := numberMsg ++ [sync], threw := false }

/-- The function `handleMove(data)` on the fields `room`, `board`,
`turnPlayer` and `moveCnt` of `data`. -/
def handleMove (rooms : Registry) (room : RoomId) (board : Board) (turnPlayer moveCnt : Int) :
    Outcome :=
  let currPlayer : Int := if turnPlayer = 1 then 2 else 1
  match JsObj.get rooms room with
  | none =>
    -- `rooms[room]` is `undefined` and line 161 raises, or it is an inherited
    -- object: the writes land outside the registry and `broadcast` raises at
    -- the latest
    { rooms := rooms, effects := [], threw := true }
  | some r =>
    let rooms1 := JsObj.replace rooms room
      { r with board := board, turnPlayer := currPlayer, moveCnt := jsInc moveCnt }
    match checkWin board turnPlayer with
    | none => { rooms := rooms1, effects := [], threw := true }
    | some winner =>
      let gameOver : Bool := winner || decide (jsInc moveCnt = 9)
      let newMoveCnt := jsInc moveCnt
      let message : Msg :=
        if gameOver then Msg.gameOver (if winner then turnPlayer else 0) board newMoveCnt
        else Msg.update board currPlayer newMoveCnt
      match broadcast rooms1 room message with
      | none => { rooms := rooms1, effects := [], threw := true }
      | some sends => { rooms := rooms1, effects := sends, threw := false }

/-- The function `handleMessage(room, text)`. -/
def handleMessage (rooms : Registry) (room : RoomId) (text : String) : Outcome :=
  match broadcast rooms room (Msg.message text) with
  | none => { rooms := rooms, effects := [], threw := true }
  | some sends => { rooms := rooms, effects := sends, threw := false }

/-- The function `handlePlayAgain(room, playerId)`. -/
def handlePlayAgain (rooms : Registry) (room : RoomId) (playerId : PlayerId) : Outcome :=
  match JsObj.get rooms room with
  | none =>
    -- `rooms[room]` is `undefined`, or an inherited object whose
    -- `readyToPlayAgain` is `undefined`: line 199 raises
    { rooms := rooms, effects := [], threw := true }
  | some r =>
    let r1 : Room := { r with readyToPlayAgain := JsObj.set r.readyToPlayAgain playerId true }
    if flagged r1.readyToPlayAgain (propKey r1.player1)
        && flagged r1.readyToPlayAgain (propKey r1.player2) then
      let r2 : Room :=
        { r1 with board := emptyBoard, turnPlayer := 1, moveCnt := 0, readyToPlayAgain := [] }
      let rooms2 := JsObj.replace rooms room r2
      match broadcast rooms2 room Msg.reset with
      | none => { rooms := rooms2, effects := [], threw := true }
      | some sends => { rooms := rooms2, effects := sends, threw := false }
    else
      { rooms := JsObj.replace rooms room r1, effects := [], threw := false }

/-- The value of `room.board` at lines 221 and 224, where `room` is the room
identifier: a string has no property `board`, so the value is `undefined`. -/
def boardOfId (_room : RoomId) : Option Board := none

/-- The call `checkWin(b, player)` on a value that may be `undefined`:
`checkWin` starts by indexing its argument, which raises on `undefined`. -/
def checkWinArg (b : Option Board) (player : Int) : Option Bool :=
  match b with
  | none => none
  | some board => checkWin board player

/-- The function `handleSyncState(ws, room)`. -/
def handleSyncState (rooms : Registry) (ws : Conn) (room : RoomId) : Outcome :=
  let currentRoom := JsObj.get rooms room
  let winnerPlayer : Option Int :=
    match checkWinArg (boardOfId room) 1 with
    | none => none
    | some true => some 1
    | some false =>
      match checkWinArg (boardOfId room) 2 with
      | none => none
      | some true => some 2
      | some false => some 0
  match winnerPlayer with
  | none => { rooms := rooms, effects := [], threw := true }
  | some w =>
    match currentRoom with
    | none => { rooms := rooms, effects := [], threw := true }
    | some cr =>
      let gameOver : Bool := decide (w ≠ 0) || decide (cr.moveCnt = 9)
      { rooms := rooms,
        effects := [Effect.send ws (Msg.syncState
          { board := cr.board, turnPlayer := cr.turnPlayer, moves := cr.moveCnt,
            player1 := cr.player1, player2 := cr.player2, winnerPlayer := w,
            gameOver := gameOver, readyToPlayAgain := cr.readyToPlayAgain,
            connections := (JsObj.keys cr.connections).length })],
        threw := false }

/-- The inner loop of `handleDisconnect`: the first key of `connections`
whose handle is `ws`. -/
def findConn : JsObj Conn → Conn → Option PlayerId
  | [], _ => none
  | (playerId, c) :: o, ws => if c = ws then some playerId else findConn o ws

/-- Lines 262-266: empties the slot that holds the disconnected player. -/
def vacate (room : Room) (playerId : PlayerId) : Room :=
  if room.player1 = some playerId then { room with player1 := none }
  else if room.player2 = some playerId then { room with player2 := none }
  else room

/-- The outer loop of `handleDisconnect` over the room identifiers still to
visit. An identifier found in `connections` ends the scan when it is truthy;
the empty string lets the scan go on after its entry is deleted. -/
def disconnectLoop (ws : Conn) : List RoomId → Registry → Registry
  | [], rooms => rooms
  | roomId :: rest, rooms =>
    match JsObj.get rooms roomId with
    | none => disconnectLoop ws rest rooms
    | some room =>
      match findConn room.connections ws with
      | none => disconnectLoop ws rest rooms
      | some playerId =>
        let room1 : Room := { room with connections := JsObj.delete room.connections playerId }
        if playerId ≠ "" then
          let room2 := vacate room1 playerId
          if !truthy room2.player1 && !truthy room2.player2 then JsObj.delete rooms roomId
          else JsObj.replace rooms roomId room2
        else disconnectLoop ws rest (JsObj.replace rooms roomId room1)

/-- The function `handleDisconnect(ws)`. -/
def handleDisconnect (rooms : Registry) (ws : Conn) : Outcome :=
  { rooms := disconnectLoop ws (JsObj.keys rooms) rooms, effects := [], threw := false }

/-- The function `handleSwitchRequest(room, playerId)`. -/
def handleSwitchRequest (rooms : Registry) (room : RoomId) (playerId : PlayerId) : Outcome :=
  match JsObj.get rooms room with
  | none =>
    if inheritedName room then
      -- `rooms[room]` is an inherited object: lines 278-282 write onto it,
      -- outside the registry; its `player1` and `player2` are `undefined`,
      -- so the swap commits for the player id "undefined" alone, and then
      -- line 294 raises, its `connections` being `undefined`
      if playerId = "undefined" then { rooms := rooms, effects := [], threw := true }
      else { rooms := rooms, effects := [], threw := false }
    else
      -- `rooms[room]` is `undefined`: line 278 raises
      { rooms := rooms, effects := [], threw := true }
  | some r =>
    let requests0 : JsObj Bool :=
      match r.switchRequests with
      | some o => o
      | none => []
    let requests := JsObj.set requests0 playerId true
    let r1 : Room := { r with switchRequests := some requests }
    if flagged requests (propKey r1.player1) && flagged requests (propKey r1.player2) then
      let roomData : Room := { r1 with player1 := r1.player2, player2 := r1.player1 }
      let rooms2 := JsObj.replace rooms room roomData
      match roomData.sendTarget (propKey roomData.player1) with
      | none => { rooms := rooms2, effects := [], threw := true }
      | some c1 =>
        let first := Effect.send c1 (Msg.playerNumber 1 roomData.player1)
        match roomData.sendTarget (propKey roomData.player2) with
        | none => { rooms := rooms2, effects := [first], threw := true }
        | some c2 =>
          let second := Effect.send c2 (Msg.playerNumber 2 roomData.player2)
          let rooms3 := JsObj.replace rooms room { roomData with switchRequests := none }
          match broadcast rooms3 room (Msg.message "Player numbers have been switched!") with
          | none => { rooms := rooms3, effects := [first, second], threw := true }
          | some sends => { rooms := rooms3, effects := [first, second] ++ sends, threw := false }
    else
      { rooms := JsObj.replace rooms room r1, effects := [], threw := false }

/-- The `switch` of the message listener, and the `close` listener. -/
def dispatch (rooms : Registry) : Event → Outcome
  | Event.join ws room playerId => handleJoin rooms ws room playerId
  | Event.checkJoin ws room playerId => checkRoom rooms ws room playerId
  | Event.move room board turnPlayer moveCnt => handleMove rooms room board turnPlayer moveCnt
  | Event.switchRequest room playerId => handleSwitchRequest rooms room playerId
  | Event.message room text => handleMessage rooms room text
  | Event.playAgain room playerId => handlePlayAgain rooms room playerId
  | Event.syncState ws room => handleSyncState rooms ws room
  | Event.other => { rooms := rooms, effects := [], threw := false }
  | Event.close ws => handleDisconnect rooms ws

/-- The registry after a sequence of events, handled one at a time from
`rooms`. A handler that raises leaves behind what it had written so far. -/
def run (rooms : Registry) : List Event → Registry
  | [] => rooms
  | e :: es => run (dispatch rooms e).rooms es

/-- Every event of the sequence, handled in turn from `rooms`, completes
without raising. -/
def completes (rooms : Registry) : List Event → Bool
  | [] => true
  | e :: es => !(dispatch rooms e).threw && completes (dispatch rooms e).rooms es

/-! ## Reachable registries -/

/-- The registries reachable from the empty registry by handled events,
each of which the guard `ok` allows in the registry it meets. -/
inductive ReachableVia (ok : Registry → Event → Prop) : Registry → Prop where
  | init : ReachableVia ok []
  | step (rooms : Registry) (e : Event) :
      ReachableVia ok rooms → ok rooms e → ReachableVia ok (dispatch rooms e).rooms

/-- The registries reachable from the empty registry by any handled events. -/
def Reachable : Registry → Prop := ReachableVia (fun _ _ => True)

/-- The guard `ok` allows every event of a sequence handled from `rooms`. -/
def allowed (ok : Registry → Event → Prop) (rooms : Registry) : List Event → Prop
  | [] => True
  | e :: es => ok rooms e ∧ allowed ok (dispatch rooms e).rooms es

/-- Both marks have a line on the board, according to `checkWin`. -/
def bothWin (board : Board) : Prop :=
  checkWin board 1 = some true ∧ checkWin board 2 = some true

/-- The guard that asks of every `move` a board on which not both marks win. -/
def oneWinnerMoves (_rooms : Registry) : Event → Prop
  | Event.move _ board _ _ => ¬ bothWin board
  | _ => True

/-- The guard that asks of every `join` a player id that sits in no slot of
the room it names (the new room, when the registry has none of that name). -/
def unseatedJoins (rooms : Registry) : Event → Prop
  | Event.join _ room playerId =>
    (roomAt rooms room).player1 ≠ some playerId ∧ (roomAt rooms room).player2 ≠ some playerId
  | _ => True

/-- The two slots of a room do not hold the same player: when both are
occupied, they differ. -/
def Room.distinctSlots (room : Room) : Prop :=
  truthy room.player1 = true → truthy room.player2 = true → room.player1 ≠ room.player2

/-- Every room of the registry satisfies `P`. -/
def AllRooms (P : Room → Prop) (rooms : Registry) : Prop :=
  ∀ e ∈ rooms, P e.2

/-- The property `P` looks only at the slots, the board, the turn and the
move count of a room. -/
def CoreOnly (P : Room → Prop) : Prop :=
  ∀ r r' : Room, r'.player1 = r.player1 → r'.player2 = r.player2 → r'.board = r.board →
    r'.turnPlayer = r.turnPlayer → r'.moveCnt = r.moveCnt → P r → P r'

/-- A player 1 joins room "R1", then a move submits a board with a full
row of each mark. -/
def bothWinEvents : List Event :=
  [Event.join 1 "R1" "p1", Event.move "R1" [[1, 1, 1], [2, 2, 2], [0, 0, 0]] 1 5]

/-- The same player id "p" joins room "R" on two connections. -/
def doubleJoinEvents : List Event :=
  [Event.join 1 "R" "p", Event.join 2 "R" "p"]

/-- Two players join room "R1" and player 1 makes a first move. -/
def openingEvents : List Event :=
  [Event.join 1 "R1" "p1", Event.join 2 "R1" "p2",
    Event.move "R1" [[1, 0, 0], [0, 0, 0], [0, 0, 0]] 1 0]

/-- The room "R1" after `openingEvents`. -/
def openingRoom : Room :=
  { newRoom with
    player1 := some "p1", player2 := some "p2", connections := [("p1", 1), ("p2", 2)],
    board := [[1, 0, 0], [0, 0, 0], [0, 0, 0]], turnPlayer := 2, moveCnt := 1 }

/-! ## Rooms after a step of a handshake -/

/-- The room after `readyToPlayAgain[p] = true`. -/
def Room.signalled (room : Room) (p : PlayerId) : Room :=
  { room with readyToPlayAgain := JsObj.set room.readyToPlayAgain p true }

/-- The room after the reset of lines 204-207. -/
def Room.restarted (room : Room) : Room :=
  { room with board := emptyBoard, turnPlayer := 1, moveCnt := 0, readyToPlayAgain := [] }

/-- The room after lines 278-282: `switchRequests` created if missing, then
`switchRequests[p] = true`. -/
def Room.requested (room : Room) (p : PlayerId) : Room :=
  { room with
    switchRequests := some (JsObj.set
      (match room.switchRequests with
        | some o => o
        | none => []) p true) }

/-- The room after a committed swap (lines 288-291 and 307). -/
def Room.swapped (room : Room) : Room :=
  { room with player1 := room.player2, player2 := room.player1, switchRequests := none }

/-! ## Example states -/

/-- A room seating "p1" on connection 1 and "p2" on connection 2. -/
def seatedRoom : Room :=
  { newRoom with
    player1 := some "p1", player2 := some "p2", connections := [("p1", 1), ("p2", 2)] }

/-- A registry whose only room, "R1", is `seatedRoom`. -/
def seatedRegistry : Registry := [("R1", seatedRoom)]

/-- Connection 1 joins room "R0" as "q", connection 2 joins it as "r", then
connection 1 joins room "R1" as "p". -/
def twoRoomEvents : List Event :=
  [Event.join 1 "R0" "q", Event.join 2 "R0" "r", Event.join 1 "R1" "p"]

/-- The registry after `twoRoomEvents`. -/
def twoRoomRegistry : Registry := run [] twoRoomEvents

/-- A room seating "p" alone, on connection 1. -/
def soloRoom : Room :=
  { newRoom with player1 := some "p", connections := [("p", 1)] }

/-! ## The parts of an admitted join -/

/-- The room an admitted join leaves behind (lines 97 and 127-133): the
connection registered, and the first free slot given to the player. -/
def Room.joined (room : Room) (ws : Conn) (p : PlayerId) : Room :=
  if !truthy room.player1 then { room.register p ws with player1 := some p }
  else if !truthy room.player2 then { room.register p ws with player2 := some p }
  else room.register p ws

/-- The `playerNumber` message of an admitted join (lines 129 and 132). -/
def joinNumber (room : Room) (ws : Conn) (p : PlayerId) : List Effect :=
  if !truthy room.player1 then [Effect.send ws (Msg.playerNumber 1 (some p))]
  else if !truthy room.player2 then [Effect.send ws (Msg.playerNumber 2 (some p))]
  else []

/-- The snapshot of lines 136-148 for a room and the `winnerPlayer` and
move count computed before the slot assignment. -/
def joinSnapshot (room : Room) (winnerPlayer : Int) (currMoveCnt : Int) : Snapshot :=
  { board := room.board, turnPlayer := room.turnPlayer, moves := room.moveCnt,
    player1 := room.player1, player2 := room.player2, winnerPlayer := winnerPlayer,
    gameOver := decide (winnerPlayer ≠ 0) || decide (currMoveCnt = 9),
    readyToPlayAgain := room.readyToPlayAgain,
    connections := (JsObj.keys room.connections).length }

/-- The `start` broadcast of lines 151-153. -/
def joinStart (room : Room) : List Effect :=
  if truthy room.player1 && truthy room.player2 then
    (JsObj.values room.connections).map
      (fun c => Effect.send c (Msg.start "Both players connected!"))
  else []

/-- An effect is the sending of a `syncState` message. -/
def Effect.isSync : Effect → Bool
  | Effect.send _ (Msg.syncState _) => true
  | _ => false

/-- An effect is the sending of a `start` message. -/
def Effect.isStart : Effect → Bool
  | Effect.send _ (Msg.start _) => true
  | _ => false

/-- The player id "" joins room "R" on connection 1, then "p2" joins it on
connection 2. -/
def emptyIdEvents : List Event := [Event.join 1 "R" "", Event.join 2 "R" "p2"]

/-! ## Move counts -/

/-- The number of non-zero cells of a board. -/
def filledCells (board : Board) : Int :=
  Int.ofNat (board.foldr (fun row n => (row.filter (fun c => decide (c ≠ 0))).length + n) 0)

/-- The move count of a room lies in [0,9] and counts the non-zero cells of
its board. -/
def Room.counted (room : Room) : Prop :=
  0 ≤ room.moveCnt ∧ room.moveCnt ≤ 9 ∧ room.moveCnt = filledCells room.board

/-- The guard that asks of every `move` a count that, once advanced, lies in
[0,9] and counts the non-zero cells of the submitted board. -/
def countedMoves (_rooms : Registry) : Event → Prop
  | Event.move _ board _ moveCnt =>
    0 ≤ moveCnt + 1 ∧ moveCnt + 1 ≤ 9 ∧ moveCnt + 1 = filledCells board
  | _ => True

/-- A player joins room "R1", then a move submits the move count 41 with a
board of one filled cell. -/
def miscountEvents : List Event :=
  [Event.join 1 "R1" "p1", Event.move "R1" [[1, 0, 0], [0, 0, 0], [0, 0, 0]] 1 41]

/-! ## Events that are handled to completion -/

/-- The guard that asks of every `move` a board on which the win test of
`handleJoin` (`checkWin` for mark 1 and, when that is false, for mark 2)
raises nothing. Every 3x3 grid is such a board. -/
def testedMoves (_rooms : Registry) : Event → Prop
  | Event.move _ board _ _ => winnerOf board ≠ none
  | _ => True

/-- The events whose handler has what it reads: `join` and `checkJoin` when
the room exists or its id names no inherited property; `move` when the room
exists and `checkWin` raises nothing on the submitted board for the mover;
`message` and `playAgain` when the room exists; `switchRequest` when the
room exists and `connections` gives a connection under the keys of both its
slots. Nothing is asked or said of `syncState`. -/
def servable (rooms : Registry) : Event → Prop
  | Event.join _ room _ => builtinRoom rooms room = false
  | Event.checkJoin _ room _ => builtinRoom rooms room = false
  | Event.move room board turnPlayer _ =>
    checkWin board turnPlayer ≠ none ∧ ∃ r, JsObj.get rooms room = some r
  | Event.switchRequest room _ =>
    ∃ r, JsObj.get rooms room = some r
      ∧ (r.sendTarget (propKey r.player1)).isSome = true
      ∧ (r.sendTarget (propKey r.player2)).isSome = true
  | Event.message room _ => ∃ r, JsObj.get rooms room = some r
  | Event.playAgain room _ => ∃ r, JsObj.get rooms room = some r
  | Event.syncState _ _ => False
  | Event.other => True
  | Event.close _ => True

/-- Connection 1 asks for room "R" as "x" and joins it as "p1"; connection
2 joins it as "p2". -/
def sharedHandleEvents : List Event :=
  [Event.checkJoin 1 "R" "x", Event.join 1 "R" "p1", Event.join 2 "R" "p2"]

/-- The room "R" after `sharedHandleEvents`. -/
def sharedHandleRoom : Room :=
  { newRoom with
    player1 := some "p1", player2 := some "p2",
    connections := [("x", 1), ("p1", 1), ("p2", 2)] }

/-- A room seating "p1" on connection 1 and the empty id on connection 2. -/
def emptySeatRoom : Room :=
  { newRoom with
    player1 := some "p1", player2 := some "", connections := [("p1", 1), ("", 2)] }

/-- Two players join room "R1", and player 2 submits a board of one row,
full of mark 2. -/
def oddBoardEvents : List Event :=
  [Event.join 1 "R1" "p1", Event.join 2 "R1" "p2", Event.move "R1" [[2, 2, 2]] 2 0]

/-- The room "R1" after `oddBoardEvents`. -/
def oddBoardRoom : Room :=
  { seatedRoom with board := [[2, 2, 2]], turnPlayer := 1, moveCnt := 1 }

/-- A player joins room "R1" alone, and submits a board of one row, full of
mark 2. -/
def oddBoardSoloEvents : List Event :=
  [Event.join 1 "R1" "p1", Event.move "R1" [[2, 2, 2]] 2 0]

/-- The players "p1" and "constructor" join room "R", and "p1" moves. -/
def inheritedIdEvents : List Event :=
  [Event.join 1 "R" "p1", Event.join 2 "R" "constructor",
    Event.move "R" [[1, 0, 0], [0, 0, 0], [0, 0, 0]] 1 0]

/-- The room "R" after `inheritedIdEvents`. -/
def inheritedIdRoom : Room :=
  { newRoom with
    player1 := some "p1", player2 := some "constructor",
    connections := [("p1", 1), ("constructor", 2)],
    board := [[1, 0, 0], [0, 0, 0], [0, 0, 0]], turnPlayer := 2, moveCnt := 1 }

/-- A room seating the empty id alone, on connection 1. -/
def emptyIdSoloRoom : Room :=
  { newRoom with player1 := some "", connections := [("", 1)] }

/-- The largest count below which the addition of 1 is exact: `2^53`. -/
def maxSafe : Int := 9007199254740992

/-! ## Lemmas on keyed objects -/

namespace JsObj

variable {α : Type}

theorem get_replace_self (o : JsObj α) (k : String) (v : α) (h : (get o k).isSome) :
    get (replace o k v) k = some v := by
  induction o with
  | nil => simp [get] at h
  | cons e o ih =>
    obtain ⟨k', v'⟩ := e
    by_cases hk : k' = k
    · simp [replace, get, hk]
    · simp only [get, hk, if_false] at h
      simp [replace, get, hk, ih h]

theorem get_replace_ne (o : JsObj α) (k k' : String) (v : α) (hne : k' ≠ k) :
    get (replace o k v) k' = get o k' := by
  induction o with
  | nil => rfl
  | cons e o ih =>
    obtain ⟨k0, v0⟩ := e
    by_cases hk : k0 = k
    · subst hk
      have h2 : ¬ k0 = k' := fun h => hne h.symm
      simp [replace, get, h2]
    · by_cases hk' : k0 = k'
      · subst hk'
        simp [replace, get, hk]
      · simp [replace, get, hk, hk', ih]

theorem get_insertIndex_self (o : JsObj α) (n : Nat) (k : String) (v : α) (h : get o k = none) :
    get (insertIndex o n k v) k = some v := by
  induction o with
  | nil => simp [insertIndex, get]
  | cons e o ih =>
    obtain ⟨k0, v0⟩ := e
    by_cases hk : k0 = k
    · simp [get, hk] at h
    · simp only [get, hk, if_false] at h
      simp only [insertIndex]
      split
      · split
        · simp [get, hk, ih h]
        · simp [get]
      · simp [get]

theorem get_insertIndex_ne (o : JsObj α) (n : Nat) (k k' : String) (v : α) (hne : k' ≠ k) :
    get (insertIndex o n k v) k' = get o k' := by
  have h2 : ¬ k = k' := fun h => hne h.symm
  induction o with
  | nil => simp [insertIndex, get, h2]
  | cons e o ih =>
    obtain ⟨k0, v0⟩ := e
    simp only [insertIndex]
    split
    · split
      · by_cases hk : k0 = k'
        · simp [get, hk]
        · simp [get, hk, ih]
      · simp [get, h2]
    · simp [get, h2]

theorem get_append_single (o : JsObj α) (k k' : String) (v : α) :
    get (o ++ [(k, v)]) k' =
      match get o k' with
      | some x => some x
      | none => if k = k' then some v else none := by
  induction o with
  | nil => simp [get]
  | cons e o ih =>
    obtain ⟨k0, v0⟩ := e
    by_cases hk : k0 = k'
    · simp [get, hk]
    · simp [get, hk, ih]

theorem set_proto (o : JsObj α) (v : α) : set o "__proto__" v = o := by
  simp [set]

theorem get_set_self (o : JsObj α) (k : String) (v : α) (hk : k ≠ "__proto__") :
    get (set o k v) k = some v := by
  unfold set
  rw [if_neg hk]
  by_cases h : has o k = true
  · rw [if_pos h]
    exact get_replace_self o k v h
  · rw [if_neg h]
    have hn : get o k = none := by
      simpa [has] using h
    split
    · exact get_insertIndex_self o _ k v hn
    · rw [get_append_single, hn]
      simp

theorem get_set_ne (o : JsObj α) (k k' : String) (v : α) (hne : k' ≠ k) :
    get (set o k v) k' = get o k' := by
  have h2 : ¬ k = k' := fun h => hne h.symm
  unfold set
  split
  · rfl
  · split
    · exact get_replace_ne o k k' v hne
    · split
      · exact get_insertIndex_ne o _ k k' v hne
      · rw [get_append_single]
        cases get o k' <;> simp [h2]

theorem get_delete_self (o : JsObj α) (k : String) : get (delete o k) k = none := by
  induction o with
  | nil => rfl
  | cons e o ih =>
    obtain ⟨k0, v0⟩ := e
    by_cases hk : k0 = k
    · simp [delete, hk, ih]
    · simp [delete, get, hk, ih]

theorem get_delete_ne (o : JsObj α) (k k' : String) (hne : k' ≠ k) :
    get (delete o k) k' = get o k' := by
  induction o with
  | nil => rfl
  | cons e o ih =>
    obtain ⟨k0, v0⟩ := e
    by_cases hk : k0 = k
    · subst hk
      have h2 : ¬ k0 = k' := fun h => hne h.symm
      simp [delete, get, h2, ih]
    · by_cases hk' : k0 = k'
      · subst hk'
        simp [delete, get, hk]
      · simp [delete, get, hk, hk', ih]

theorem mem_of_get (o : JsObj α) (k : String) (v : α) (h : get o k = some v) : (k, v) ∈ o := by
  induction o with
  | nil => simp [get] at h
  | cons e o ih =>
    obtain ⟨k0, v0⟩ := e
    by_cases hk : k0 = k
    · subst hk
      simp only [get, if_true, Option.some.injEq] at h
      simp [h]
    · simp only [get, hk, if_false] at h
      exact List.mem_cons_of_mem _ (ih h)

theorem mem_replace (o : JsObj α) (k : String) (v : α) (e : String × α)
    (h : e ∈ replace o k v) : e ∈ o ∨ e = (k, v) := by
  induction o with
  | nil => simp [replace] at h
  | cons e0 o ih =>
    obtain ⟨k0, v0⟩ := e0
    by_cases hk : k0 = k
    · simp only [replace, hk, if_true, List.mem_cons] at h
      rcases h with h | h
      · exact Or.inr h
      · exact Or.inl (List.mem_cons_of_mem _ h)
    · simp only [replace, hk, if_false, List.mem_cons] at h
      rcases h with h | h
      · exact Or.inl (by simp [h])
      · rcases ih h with h' | h'
        · exact Or.inl (List.mem_cons_of_mem _ h')
        · exact Or.inr h'

theorem mem_insertIndex (o : JsObj α) (n : Nat) (k : String) (v : α) (e : String × α)
    (h : e ∈ insertIndex o n k v) : e ∈ o ∨ e = (k, v) := by
  induction o with
  | nil =>
    simp only [insertIndex, List.mem_singleton] at h
    exact Or.inr h
  | cons e0 o ih =>
    obtain ⟨k0, v0⟩ := e0
    simp only [insertIndex] at h
    split at h
    · split at h
      · simp only [List.mem_cons] at h
        rcases h with h | h
        · exact Or.inl (by simp [h])
        · rcases ih h with h' | h'
          · exact Or.inl (List.mem_cons_of_mem _ h')
          · exact Or.inr h'
      · simp only [List.mem_cons] at h
        rcases h with h | h
        · exact Or.inr h
        · exact Or.inl (by simpa using h)
    · simp only [List.mem_cons] at h
      rcases h with h | h
      · exact Or.inr h
      · exact Or.inl (by simpa using h)

theorem mem_set (o : JsObj α) (k : String) (v : α) (e : String × α)
    (h : e ∈ set o k v) : e ∈ o ∨ e = (k, v) := by
  unfold set at h
  split at h
  · exact Or.inl h
  · split at h
    · exact mem_replace o k v e h
    · split at h
      · exact mem_insertIndex o _ k v e h
      · simpa using h

theorem mem_delete (o : JsObj α) (k : String) (e : String × α)
    (h : e ∈ delete o k) : e ∈ o := by
  induction o with
  | nil => simp [delete] at h
  | cons e0 o ih =>
    obtain ⟨k0, v0⟩ := e0
    by_cases hk : k0 = k
    · simp only [delete, hk, if_true] at h
      exact List.mem_cons_of_mem _ (ih h)
    · simp only [delete, hk, if_false, List.mem_cons] at h
      rcases h with h | h
      · simp [h]
      · exact List.mem_cons_of_mem _ (ih h)

theorem keys_replace (o : JsObj α) (k : String) (v : α) :
    keys (replace o k v) = keys o := by
  induction o with
  | nil => rfl
  | cons e0 o ih =>
    obtain ⟨k0, v0⟩ := e0
    by_cases hk : k0 = k
    · simp [replace, keys, hk]
    · simp only [replace, hk, if_false, keys, List.map_cons, List.cons.injEq, true_and]
      exact ih

end JsObj

/-! ## The win evaluator -/

theorem andThen_some (x y : Bool) : andThen (some x) (some y) = some (x && y) := by
  cases x <;> rfl

theorem orElse_some (x y : Bool) : orElse (some x) (some y) = some (x || y) := by
  cases x <;> rfl

theorem checkWinFrom_cons_some (board : Board) (m : Int) (i : Nat) (rest : List Nat) (x : Bool)
    (h : rowOrCol board m i = some x) :
    checkWinFrom board m (i :: rest) = if x then some true else checkWinFrom board m rest := by
  cases x <;> simp [checkWinFrom, h]

theorem checkWinFrom_nil_some (board : Board) (m : Int) (x : Bool)
    (h : diagonals board m = some x) : checkWinFrom board m [] = some x := by
  cases x <;> simp [checkWinFrom, h]

theorem Board.is3x3_cases {board : Board} (h : board.is3x3) :
    ∃ a b c d e f g h i : Int, board = [[a, b, c], [d, e, f], [g, h, i]] := by
  obtain ⟨hl, hr⟩ := h
  match board, hl, hr with
  | [r0, r1, r2], _, hr =>
    have h0 := hr r0 (by simp)
    have h1 := hr r1 (by simp)
    have h2 := hr r2 (by simp)
    match r0, r1, r2, h0, h1, h2 with
    | [a, b, c], [d, e, f], [g, h, i], _, _, _ => exact ⟨a, b, c, d, e, f, g, h, i, rfl⟩

theorem checkWin_grid (a b c d e f g h i m : Int) :
    checkWin [[a, b, c], [d, e, f], [g, h, i]] m
      = some (decide (gridLine a b c d e f g h i m)) := by
  have h0 : rowOrCol [[a, b, c], [d, e, f], [g, h, i]] m 0
      = some (decide (a = m) && (decide (b = m) && decide (c = m))
          || decide (a = m) && (decide (d = m) && decide (g = m))) := by
    simp [rowOrCol, cellIs, andThen_some, orElse_some]
  have h1 : rowOrCol [[a, b, c], [d, e, f], [g, h, i]] m 1
      = some (decide (d = m) && (decide (e = m) && decide (f = m))
          || decide (b = m) && (decide (e = m) && decide (h = m))) := by
    simp [rowOrCol, cellIs, andThen_some, orElse_some]
  have h2 : rowOrCol [[a, b, c], [d, e, f], [g, h, i]] m 2
      = some (decide (g = m) && (decide (h = m) && decide (i = m))
          || decide (c = m) && (decide (f = m) && decide (i = m))) := by
    simp [rowOrCol, cellIs, andThen_some, orElse_some]
  have hd : diagonals [[a, b, c], [d, e, f], [g, h, i]] m
      = some (decide (a = m) && (decide (e = m) && decide (i = m))
          || decide (c = m) && (decide (e = m) && decide (g = m))) := by
    simp [diagonals, cellIs, andThen_some, orElse_some]
  rw [checkWin, checkWinFrom_cons_some _ _ _ _ _ h0, checkWinFrom_cons_some _ _ _ _ _ h1,
    checkWinFrom_cons_some _ _ _ _ _ h2, checkWinFrom_nil_some _ _ _ hd]
  have chain : ∀ x0 x1 x2 xd : Bool,
      (if x0 then some true else if x1 then some true else if x2 then some true else some xd)
        = some (x0 || x1 || x2 || xd) := by
    intro x0 x1 x2 xd
    cases x0 <;> cases x1 <;> cases x2 <;> simp
  rw [chain]
  congr 1
  simp only [gridLine, Bool.decide_or, Bool.decide_and]
  generalize (decide (a = m) && (decide (b = m) && decide (c = m))) = r0
  generalize (decide (d = m) && (decide (e = m) && decide (f = m))) = r1
  generalize (decide (g = m) && (decide (h = m) && decide (i = m))) = r2
  generalize (decide (a = m) && (decide (d = m) && decide (g = m))) = c0
  generalize (decide (b = m) && (decide (e = m) && decide (h = m))) = c1
  generalize (decide (c = m) && (decide (f = m) && decide (i = m))) = c2
  generalize (decide (a = m) && (decide (e = m) && decide (i = m))) = d1
  generalize (decide (c = m) && (decide (e = m) && decide (g = m))) = d2
  ac_rfl

theorem hasLine_grid (a b c d e f g h i m : Int) :
    Board.hasLine [[a, b, c], [d, e, f], [g, h, i]] m ↔ gridLine a b c d e f g h i m := by
  simp only [Board.hasLine, winLines, List.exists_mem_cons_iff, List.forall_mem_cons, Board.cell,
    gridLine]
  simp

/-- On a 3x3 board `checkWin` raises nothing and answers whether the mark has a line. -/
theorem checkWin_of_is3x3 (board : Board) (m : Int) (h : board.is3x3) :
    (checkWin board m = some true ∧ board.hasLine m)
      ∨ (checkWin board m = some false ∧ ¬ board.hasLine m) := by
  obtain ⟨a, b, c, d, e, f, g, h', i, rfl⟩ := Board.is3x3_cases h
  rw [checkWin_grid, hasLine_grid]
  by_cases hg : gridLine a b c d e f g h' i m
  · exact Or.inl ⟨by simp [hg], hg⟩
  · exact Or.inr ⟨by simp [hg], hg⟩

theorem emptyBoard_is3x3 : emptyBoard.is3x3 := by
  constructor
  · rfl
  · intro row hrow
    simp only [emptyBoard, List.mem_cons, List.mem_singleton, List.not_mem_nil, or_false,
      or_self] at hrow
    rw [hrow]
    rfl

/-- C1. For every 3x3 board (its cells in {0,1,2} or any other integers) and
every mark `m` (1, 2 or any other integer), `checkWin(board, m)` raises
nothing, returns `true` if and only if `m` fills all three cells of one of
the three rows, three columns or two diagonals, and returns `false`
otherwise. -/
theorem checkWin_iff_hasLine (board : Board) (m : Int) (h : board.is3x3) :
    (checkWin board m = some true ↔ board.hasLine m)
      ∧ (checkWin board m = some false ↔ ¬ board.hasLine m) := by
  rcases checkWin_of_is3x3 board m h with ⟨hc, hl⟩ | ⟨hc, hl⟩
  · constructor
    · exact ⟨fun _ => hl, fun _ => hc⟩
    · constructor
      · intro hf
        rw [hc] at hf
        cases hf
      · intro hn
        exact absurd hl hn
  · constructor
    · constructor
      · intro ht
        rw [hc] at ht
        cases ht
      · intro hl'
        exact absurd hl' hl
    · exact ⟨fun _ => hl, fun _ => hc⟩

/-- C1 at the board with the first row full of mark 1: a win for 1, none for 2. -/
theorem checkWin_iff_hasLine_witness :
    ((checkWin [[1, 1, 1], [2, 2, 0], [0, 0, 0]] 1 = some true
        ↔ Board.hasLine [[1, 1, 1], [2, 2, 0], [0, 0, 0]] 1)
      ∧ (checkWin [[1, 1, 1], [2, 2, 0], [0, 0, 0]] 1 = some false
        ↔ ¬ Board.hasLine [[1, 1, 1], [2, 2, 0], [0, 0, 0]] 1))
    ∧ checkWin [[1, 1, 1], [2, 2, 0], [0, 0, 0]] 1 = some true
    ∧ checkWin [[1, 1, 1], [2, 2, 0], [0, 0, 0]] 2 = some false :=
  ⟨checkWin_iff_hasLine [[1, 1, 1], [2, 2, 0], [0, 0, 0]] 1
      ⟨rfl, by intro row hrow; simp at hrow; rcases hrow with h | h | h <;> rw [h] <;> rfl⟩,
    by decide, by decide⟩

/-! ## Lemmas on the registry -/

theorem ensureRoom_of_get (rooms : Registry) (roomId : RoomId) (room : Room)
    (h : JsObj.get rooms roomId = some room) : ensureRoom rooms roomId = rooms := by
  simp [ensureRoom, JsObj.has, h]

theorem roomAt_of_get (rooms : Registry) (roomId : RoomId) (room : Room)
    (h : JsObj.get rooms roomId = some room) : roomAt rooms roomId = room := by
  simp [roomAt, h]

theorem ne_proto_of_not_inherited (k : String) (h : inheritedName k = false) :
    k ≠ "__proto__" := by
  intro hk
  rw [hk] at h
  exact absurd h (by decide)

theorem builtinRoom_of_get (rooms : Registry) (roomId : RoomId) (room : Room)
    (h : JsObj.get rooms roomId = some room) : builtinRoom rooms roomId = false := by
  simp [builtinRoom, JsObj.has, h]

theorem builtinRoom_of_not_inherited (rooms : Registry) (roomId : RoomId)
    (h : inheritedName roomId = false) : builtinRoom rooms roomId = false := by
  simp [builtinRoom, h]

theorem ensureRoom_of_builtin (rooms : Registry) (roomId : RoomId)
    (h : builtinRoom rooms roomId = true) : ensureRoom rooms roomId = rooms := by
  have hi : inheritedName roomId = true := by
    simp only [builtinRoom, Bool.and_eq_true] at h
    exact h.2
  simp [ensureRoom, hi]

theorem get_ensureRoom (rooms : Registry) (roomId : RoomId)
    (hb : builtinRoom rooms roomId = false) :
    JsObj.get (ensureRoom rooms roomId) roomId = some (roomAt rooms roomId) := by
  unfold ensureRoom roomAt
  cases h : JsObj.get rooms roomId with
  | none =>
    have hi : inheritedName roomId = false := by
      simpa [builtinRoom, JsObj.has, h] using hb
    simp [JsObj.has, h, hi, JsObj.get_set_self _ _ _ (ne_proto_of_not_inherited roomId hi)]
  | some room => simp [JsObj.has, h]

theorem get_replace_of_get (rooms : Registry) (roomId : RoomId) (room room' : Room)
    (h : JsObj.get rooms roomId = some room) :
    JsObj.get (JsObj.replace rooms roomId room') roomId = some room' :=
  JsObj.get_replace_self rooms roomId room' (by simp [h])

theorem broadcast_replace (rooms : Registry) (roomId : RoomId) (room room' : Room) (msg : Msg)
    (h : JsObj.get rooms roomId = some room) :
    broadcast (JsObj.replace rooms roomId room') roomId msg
      = some ((JsObj.values room'.connections).map (fun c => Effect.send c msg)) := by
  simp [broadcast, get_replace_of_get rooms roomId room room' h]

theorem winnerOf_of_is3x3 (board : Board) (h : board.is3x3) :
    ∃ w, winnerOf board = some w := by
  unfold winnerOf
  rcases checkWin_of_is3x3 board 1 h with ⟨h1, _⟩ | ⟨h1, _⟩
  · exact ⟨1, by simp [h1]⟩
  · rcases checkWin_of_is3x3 board 2 h with ⟨h2, _⟩ | ⟨h2, _⟩
    · exact ⟨2, by simp [h1, h2]⟩
    · exact ⟨0, by simp [h1, h2]⟩

/-! ## Join -/

theorem winnerOf_ne_none (board : Board) (h : winnerOf board ≠ none) :
    ∃ w, winnerOf board = some w := by
  cases hw : winnerOf board with
  | none => exact absurd hw h
  | some w => exact ⟨w, rfl⟩

/-- A join to a room whose two slots are truthy is rejected, whoever joins,
when the win test raises nothing. -/
theorem handleJoin_full (rooms : Registry) (ws : Conn) (roomId : RoomId) (playerId : PlayerId)
    (room : Room) (hget : JsObj.get rooms roomId = some room)
    (h1 : truthy room.player1 = true) (h2 : truthy room.player2 = true)
    (hw : winnerOf room.board ≠ none) :
    handleJoin rooms ws roomId playerId =
      { rooms := JsObj.replace rooms roomId (room.register playerId ws),
        effects := [Effect.send ws
            (Msg.error "Room is full. You will be redirected to the homepage."),
          Effect.close ws],
        threw := false } := by
  obtain ⟨w, hw⟩ := winnerOf_ne_none room.board hw
  have hb : (room.register playerId ws).board = room.board := by
    unfold Room.register
    split <;> rfl
  have hp1 : (room.register playerId ws).player1 = room.player1 := by
    unfold Room.register
    split <;> rfl
  have hp2 : (room.register playerId ws).player2 = room.player2 := by
    unfold Room.register
    split <;> rfl
  simp [handleJoin, ensureRoom_of_get rooms roomId room hget, roomAt_of_get rooms roomId room hget,
    builtinRoom_of_get rooms roomId room hget, hb, hp1, hp2, hw, h1, h2]

/-- The fields that the registration of a connection leaves alone. -/
theorem register_frame (room : Room) (p : PlayerId) (ws : Conn) :
    (room.register p ws).player1 = room.player1 ∧ (room.register p ws).player2 = room.player2
      ∧ (room.register p ws).board = room.board
      ∧ (room.register p ws).turnPlayer = room.turnPlayer
      ∧ (room.register p ws).moveCnt = room.moveCnt
      ∧ (room.register p ws).readyToPlayAgain = room.readyToPlayAgain
      ∧ (room.register p ws).switchRequests = room.switchRequests := by
  unfold Room.register
  split <;> exact ⟨rfl, rfl, rfl, rfl, rfl, rfl, rfl⟩

/-- C3, as stated, fails. After `oddBoardEvents` (all completing) both slots
of room "R1" are occupied, by "p1" and "p2", and its board is the one row
[2,2,2]. `handleJoin(3, "R1", "p3")` of a third player raises in `checkWin`
(line 104) before the full-room test: connection 3 is sent no `error` and is
not closed. -/
theorem third_join_raises_counterexample :
    completes [] oddBoardEvents = true
      ∧ run [] oddBoardEvents = [("R1", oddBoardRoom)]
      ∧ truthy oddBoardRoom.player1 = true ∧ truthy oddBoardRoom.player2 = true
      ∧ oddBoardRoom.player1 ≠ some "p3" ∧ oddBoardRoom.player2 ≠ some "p3"
      ∧ (handleJoin [("R1", oddBoardRoom)] 3 "R1" "p3").threw = true
      ∧ (handleJoin [("R1", oddBoardRoom)] 3 "R1" "p3").effects = [] := by
  decide

/-- C3, amended. For every room in which `player1` and `player2` are both
occupied and on whose board the win test of `handleJoin` (`checkWin` for
mark 1 and, when that is false, for mark 2) raises nothing, as on every 3x3
grid, and every player id `p` different from both occupants,
`handleJoin(ws, room, p)` is rejected: the only effects are one `error`
message sent to `ws` followed by the closing of `ws`, so no other connection
is sent anything and no `playerNumber`, `syncState` or `start` is sent; the
handler does not raise; and `player1`, `player2`, `board`, `turnPlayer` and
`moveCnt` of the room are unchanged. -/
theorem handleJoin_third_player_rejected (rooms : Registry) (ws : Conn) (roomId : RoomId)
    (p : PlayerId) (room : Room) (hget : JsObj.get rooms roomId = some room)
    (h1 : truthy room.player1 = true) (h2 : truthy room.player2 = true)
    (hp1 : room.player1 ≠ some p) (hp2 : room.player2 ≠ some p)
    (hw : winnerOf room.board ≠ none) :
    (handleJoin rooms ws roomId p).effects
        = [Effect.send ws (Msg.error "Room is full. You will be redirected to the homepage."),
            Effect.close ws]
      ∧ (handleJoin rooms ws roomId p).threw = false
      ∧ ∃ room', JsObj.get (handleJoin rooms ws roomId p).rooms roomId = some room'
          ∧ room'.player1 = room.player1 ∧ room'.player2 = room.player2
          ∧ room'.board = room.board ∧ room'.turnPlayer = room.turnPlayer
          ∧ room'.moveCnt = room.moveCnt := by
  have _ := hp1
  have _ := hp2
  rw [handleJoin_full rooms ws roomId p room hget h1 h2 hw]
  obtain ⟨f1, f2, f3, f4, f5, _, _⟩ := register_frame room p ws
  exact ⟨rfl, rfl, _, get_replace_of_get rooms roomId room _ hget, f1, f2, f3, f4, f5⟩

/-- C3, amended, at the room "R1" seating "p1" and "p2", joined by "p3" on
connection 3. -/
theorem handleJoin_third_player_rejected_witness :
    winnerOf seatedRoom.board ≠ none
      ∧ (handleJoin seatedRegistry 3 "R1" "p3").effects
        = [Effect.send 3 (Msg.error "Room is full. You will be redirected to the homepage."),
            Effect.close 3]
      ∧ (handleJoin seatedRegistry 3 "R1" "p3").threw = false
      ∧ ∃ room', JsObj.get (handleJoin seatedRegistry 3 "R1" "p3").rooms "R1" = some room'
          ∧ room'.player1 = seatedRoom.player1 ∧ room'.player2 = seatedRoom.player2
          ∧ room'.board = seatedRoom.board ∧ room'.turnPlayer = seatedRoom.turnPlayer
          ∧ room'.moveCnt = seatedRoom.moveCnt :=
  ⟨by decide,
    handleJoin_third_player_rejected seatedRegistry 3 "R1" "p3" seatedRoom
      (by decide) (by decide) (by decide) (by decide) (by decide) (by decide)⟩

/-! ## Move -/

theorem jsInc_of_safe (n : Int) (h1 : -9007199254740992 ≤ n) (h2 : n < 9007199254740992) :
    jsInc n = n + 1 := by
  unfold jsInc
  rw [if_pos ⟨h1, h2⟩]

/-- The registry handleMove leaves behind when the room exists. -/
theorem handleMove_rooms (rooms : Registry) (roomId : RoomId) (room : Room) (board : Board)
    (turnPlayer moveCnt : Int) (hget : JsObj.get rooms roomId = some room) :
    (handleMove rooms roomId board turnPlayer moveCnt).rooms
      = JsObj.replace rooms roomId
          { room with
            board := board, turnPlayer := if turnPlayer = 1 then 2 else 1,
            moveCnt := jsInc moveCnt } := by
  unfold handleMove
  simp only [hget]
  split
  · rfl
  · split <;> rfl

/-- The outcome of handleMove when the room exists and `checkWin` answers. -/
theorem handleMove_of_checkWin (rooms : Registry) (roomId : RoomId) (room : Room) (board : Board)
    (turnPlayer moveCnt : Int) (win : Bool) (hget : JsObj.get rooms roomId = some room)
    (hwin : checkWin board turnPlayer = some win) :
    handleMove rooms roomId board turnPlayer moveCnt =
      { rooms := JsObj.replace rooms roomId
          { room with
            board := board, turnPlayer := if turnPlayer = 1 then 2 else 1,
            moveCnt := jsInc moveCnt },
        effects := (JsObj.values room.connections).map (fun c => Effect.send c
          (if (win || decide (jsInc moveCnt = 9)) = true
            then Msg.gameOver (if win = true then turnPlayer else 0) board (jsInc moveCnt)
            else Msg.update board (if turnPlayer = 1 then 2 else 1) (jsInc moveCnt))),
        threw := false } := by
  unfold handleMove
  simp only [hget, hwin]
  rw [broadcast_replace rooms roomId room _ _ hget]

/-- C9, as stated, fails. In the room "R1" of `seatedRegistry`, the move of
player 1 that submits `moveCnt = 2^53` leaves the room's `moveCnt` at `2^53`,
not at `2^53 + 1`: line 163 adds doubles. -/
theorem handleMove_double_counterexample :
    JsObj.get seatedRegistry "R1" = some seatedRoom
      ∧ ∃ room', JsObj.get (handleMove seatedRegistry "R1" emptyBoard 1 maxSafe).rooms "R1"
            = some room'
          ∧ room'.moveCnt = maxSafe ∧ room'.moveCnt ≠ maxSafe + 1 :=
  ⟨by decide,
    { seatedRoom with board := emptyBoard, turnPlayer := 2, moveCnt := maxSafe },
    by decide, by decide, by decide⟩

/-- C9, amended. For every existing room and every move event with
`turnPlayer` in {1,2} and `moveCnt` from `-2^53` to `2^53 - 1`, `handleMove`
sets the room's `board` to the submitted board, its `moveCnt` to
`moveCnt + 1` and its `turnPlayer` to the other slot (2 when `turnPlayer` is
1, 1 when it is 2), and leaves `player1`, `player2`, `connections` and
`readyToPlayAgain` as they were. The room's previous board and turn are
arbitrary: nothing relates them to the submitted ones. -/
theorem handleMove_updates_room (rooms : Registry) (roomId : RoomId) (room : Room)
    (board : Board) (turnPlayer moveCnt : Int) (hget : JsObj.get rooms roomId = some room)
    (hturn : turnPlayer = 1 ∨ turnPlayer = 2)
    (hlo : -9007199254740992 ≤ moveCnt) (hhi : moveCnt < 9007199254740992) :
    ∃ room', JsObj.get (handleMove rooms roomId board turnPlayer moveCnt).rooms roomId = some room'
      ∧ room'.board = board ∧ room'.moveCnt = moveCnt + 1
      ∧ (turnPlayer = 1 → room'.turnPlayer = 2) ∧ (turnPlayer = 2 → room'.turnPlayer = 1)
      ∧ room'.player1 = room.player1 ∧ room'.player2 = room.player2
      ∧ room'.connections = room.connections
      ∧ room'.readyToPlayAgain = room.readyToPlayAgain := by
  rw [handleMove_rooms rooms roomId room board turnPlayer moveCnt hget]
  refine ⟨_, get_replace_of_get rooms roomId room _ hget, rfl, jsInc_of_safe moveCnt hlo hhi,
    ?_, ?_, rfl, rfl, rfl, rfl⟩
  · intro h
    simp [h]
  · intro h
    rcases hturn with h1 | _
    · omega
    · simp [h]

/-- C9, amended, at the room "R1" of `seatedRegistry`: player 2 submits a
board that is unrelated to the room's empty board while the room's turn
is 1. -/
theorem handleMove_updates_room_witness :
    ∃ room', JsObj.get (handleMove seatedRegistry "R1" [[2, 2, 2], [1, 1, 0], [1, 0, 0]] 2 6).rooms
          "R1" = some room'
      ∧ room'.board = [[2, 2, 2], [1, 1, 0], [1, 0, 0]] ∧ room'.moveCnt = 6 + 1
      ∧ ((2 : Int) = 1 → room'.turnPlayer = 2) ∧ ((2 : Int) = 2 → room'.turnPlayer = 1)
      ∧ room'.player1 = seatedRoom.player1 ∧ room'.player2 = seatedRoom.player2
      ∧ room'.connections = seatedRoom.connections
      ∧ room'.readyToPlayAgain = seatedRoom.readyToPlayAgain :=
  handleMove_updates_room seatedRegistry "R1" seatedRoom [[2, 2, 2], [1, 1, 0], [1, 0, 0]] 2 6
    (by decide) (Or.inr rfl) (by decide) (by decide)

/-- C10, as stated, fails. In the room "R1" of `seatedRegistry`: the move of
player 1 with the one-row board [[0,0,0]] raises in `checkWin` (line 165) and
nothing is sent; and the move of player 1 with `moveCnt = 2^53` broadcasts
`update` with `newMoveCnt = 2^53`, not `2^53 + 1`. -/
theorem handleMove_broadcast_counterexample :
    JsObj.get seatedRegistry "R1" = some seatedRoom
      ∧ (handleMove seatedRegistry "R1" [[0, 0, 0]] 1 0).threw = true
      ∧ (handleMove seatedRegistry "R1" [[0, 0, 0]] 1 0).effects = []
      ∧ (handleMove seatedRegistry "R1" emptyBoard 1 maxSafe).effects
        = [Effect.send 1 (Msg.update emptyBoard 2 maxSafe),
            Effect.send 2 (Msg.update emptyBoard 2 maxSafe)]
      ∧ maxSafe ≠ maxSafe + 1 := by
  decide

/-- C10, amended. For every existing room and every move event with
`turnPlayer` in {1,2}, a board on which `checkWin(board, turnPlayer)` raises
nothing, as on every 3x3 grid, and `moveCnt` from `-2^53` to `2^53 - 1`,
`handleMove` completes and sends exactly one message per entry of the room's
`connections`, the same to all: `gameOver` if and only if
`checkWin(board, turnPlayer)` is true or `moveCnt + 1 = 9`, carrying
`winner = turnPlayer` when `checkWin` is true and `winner = 0` otherwise, the
submitted board and `newMoveCnt = moveCnt + 1`; otherwise `update` with the
submitted board, the flipped turn and `newMoveCnt = moveCnt + 1`. Hence a
ninth move (`moveCnt = 8`) whose 3x3 board has no line for the mover gives
`gameOver` with winner 0, and a move with `moveCnt = 4` by `turnPlayer` 1 on
a 3x3 board with a row full of 1 gives `gameOver` with winner 1 and
`newMoveCnt` 5. -/
theorem handleMove_broadcast (rooms : Registry) (roomId : RoomId) (room : Room)
    (board : Board) (turnPlayer moveCnt : Int) (hget : JsObj.get rooms roomId = some room)
    (hturn : turnPlayer = 1 ∨ turnPlayer = 2) (hcw : checkWin board turnPlayer ≠ none)
    (hlo : -9007199254740992 ≤ moveCnt) (hhi : moveCnt < 9007199254740992) :
    (handleMove rooms roomId board turnPlayer moveCnt).threw = false
      ∧ (∃ win : Bool, checkWin board turnPlayer = some win
          ∧ (handleMove rooms roomId board turnPlayer moveCnt).effects
            = (JsObj.values room.connections).map (fun c => Effect.send c
                (if win = true ∨ moveCnt + 1 = 9
                  then Msg.gameOver (if win = true then turnPlayer else 0) board (moveCnt + 1)
                  else Msg.update board (if turnPlayer = 1 then 2 else 1) (moveCnt + 1))))
      ∧ (moveCnt = 8 → board.is3x3 → ¬ board.hasLine turnPlayer →
          (handleMove rooms roomId board turnPlayer moveCnt).effects
            = (JsObj.values room.connections).map (fun c => Effect.send c (Msg.gameOver 0 board 9)))
      ∧ (moveCnt = 4 → turnPlayer = 1 → board.is3x3 → [1, 1, 1] ∈ board →
          (handleMove rooms roomId board turnPlayer moveCnt).effects
            = (JsObj.values room.connections).map
                (fun c => Effect.send c (Msg.gameOver 1 board 5))) := by
  have _ := hturn
  have hinc := jsInc_of_safe moveCnt hlo hhi
  cases hw : checkWin board turnPlayer with
  | none => exact absurd hw hcw
  | some win =>
    rw [handleMove_of_checkWin rooms roomId room board turnPlayer moveCnt win hget hw, hinc]
    refine ⟨rfl, ⟨win, rfl, by simp⟩, ?_, ?_⟩
    · intro h8 hb hn
      rcases checkWin_of_is3x3 board turnPlayer hb with ⟨_, hl⟩ | ⟨hc, _⟩
      · exact absurd hl hn
      · rw [hw] at hc
        have hwin : win = false := Option.some.inj hc
        subst h8
        subst hwin
        simp
    · intro h4 h1 hb hrow
      subst h4
      subst h1
      rcases checkWin_of_is3x3 board 1 hb with ⟨hc, _⟩ | ⟨_, hl⟩
      · rw [hw] at hc
        have hwin : win = true := Option.some.inj hc
        subst hwin
        simp
      · exfalso
        apply hl
        obtain ⟨a, b, c, d, e, f, g, h, i, rfl⟩ := Board.is3x3_cases hb
        rw [hasLine_grid]
        simp only [List.mem_cons, List.cons.injEq, and_true, List.mem_singleton,
          List.not_mem_nil, or_false] at hrow
        unfold gridLine
        rcases hrow with ⟨h1, h2, h3⟩ | ⟨h1, h2, h3⟩ | ⟨h1, h2, h3⟩
        · exact Or.inl ⟨h1.symm, h2.symm, h3.symm⟩
        · exact Or.inr (Or.inl ⟨h1.symm, h2.symm, h3.symm⟩)
        · exact Or.inr (Or.inr (Or.inl ⟨h1.symm, h2.symm, h3.symm⟩))

/-- C10, amended, at the room "R1" of `seatedRegistry`: the fifth move, by
player 1, fills the first row; both connections get `gameOver` with
winner 1. -/
theorem handleMove_broadcast_witness :
    (handleMove seatedRegistry "R1" [[1, 1, 1], [2, 2, 0], [0, 0, 0]] 1 4).threw = false
      ∧ (∃ win : Bool, checkWin [[1, 1, 1], [2, 2, 0], [0, 0, 0]] 1 = some win
          ∧ (handleMove seatedRegistry "R1" [[1, 1, 1], [2, 2, 0], [0, 0, 0]] 1 4).effects
            = (JsObj.values seatedRoom.connections).map (fun c => Effect.send c
                (if win = true ∨ (4 : Int) + 1 = 9
                  then Msg.gameOver (if win = true then 1 else 0)
                    [[1, 1, 1], [2, 2, 0], [0, 0, 0]] (4 + 1)
                  else Msg.update [[1, 1, 1], [2, 2, 0], [0, 0, 0]]
                    (if (1 : Int) = 1 then 2 else 1) (4 + 1))))
      ∧ ((4 : Int) = 8 → Board.is3x3 [[1, 1, 1], [2, 2, 0], [0, 0, 0]] →
          ¬ Board.hasLine [[1, 1, 1], [2, 2, 0], [0, 0, 0]] 1 →
          (handleMove seatedRegistry "R1" [[1, 1, 1], [2, 2, 0], [0, 0, 0]] 1 4).effects
            = (JsObj.values seatedRoom.connections).map
                (fun c => Effect.send c (Msg.gameOver 0 [[1, 1, 1], [2, 2, 0], [0, 0, 0]] 9)))
      ∧ ((4 : Int) = 4 → (1 : Int) = 1 → Board.is3x3 [[1, 1, 1], [2, 2, 0], [0, 0, 0]] →
          [1, 1, 1] ∈ ([[1, 1, 1], [2, 2, 0], [0, 0, 0]] : Board) →
          (handleMove seatedRegistry "R1" [[1, 1, 1], [2, 2, 0], [0, 0, 0]] 1 4).effects
            = (JsObj.values seatedRoom.connections).map
                (fun c => Effect.send c (Msg.gameOver 1 [[1, 1, 1], [2, 2, 0], [0, 0, 0]] 5))) :=
  handleMove_broadcast seatedRegistry "R1" seatedRoom [[1, 1, 1], [2, 2, 0], [0, 0, 0]] 1 4
    (by decide) (Or.inl rfl) (by decide) (by decide) (by decide)

/-! ## Rematch -/

theorem flagged_set_self (o : JsObj Bool) (k : String) : flagged (JsObj.set o k true) k = true := by
  unfold flagged
  split
  · rfl
  · rename_i hk
    rw [JsObj.get_set_self o k true hk]

theorem flagged_set_ne (o : JsObj Bool) (k k' : String) (hne : k' ≠ k) :
    flagged (JsObj.set o k true) k' = flagged o k' := by
  simp [flagged, JsObj.get_set_ne o k k' true hne]

theorem flagged_nil (k : String) : flagged [] k = inheritedName k := by
  unfold flagged
  split
  · rename_i hk
    rw [hk]
    decide
  · rfl

/-- Under a key that names no inherited property the read is truthy exactly
when the own flag is there and true. -/
theorem flagged_iff_get (o : JsObj Bool) (k : String) (hk : inheritedName k = false) :
    flagged o k = true ↔ JsObj.get o k = some true := by
  unfold flagged
  rw [if_neg (ne_proto_of_not_inherited k hk)]
  cases JsObj.get o k with
  | none => simp [hk]
  | some b => simp

/-- handlePlayAgain when both occupants are recorded after the signal. -/
theorem handlePlayAgain_reset (rooms : Registry) (roomId : RoomId) (room : Room) (p : PlayerId)
    (hget : JsObj.get rooms roomId = some room)
    (h1 : flagged (JsObj.set room.readyToPlayAgain p true) (propKey room.player1) = true)
    (h2 : flagged (JsObj.set room.readyToPlayAgain p true) (propKey room.player2) = true) :
    handlePlayAgain rooms roomId p =
      { rooms := JsObj.replace rooms roomId room.restarted,
        effects := (JsObj.values room.connections).map (fun c => Effect.send c Msg.reset),
        threw := false } := by
  unfold handlePlayAgain
  simp only [hget, h1, h2, Bool.and_self, if_true]
  rw [broadcast_replace rooms roomId room _ _ hget]
  rfl

/-- handlePlayAgain when an occupant is still not recorded after the signal. -/
theorem handlePlayAgain_wait (rooms : Registry) (roomId : RoomId) (room : Room) (p : PlayerId)
    (hget : JsObj.get rooms roomId = some room)
    (h : ¬ (flagged (JsObj.set room.readyToPlayAgain p true) (propKey room.player1) = true
        ∧ flagged (JsObj.set room.readyToPlayAgain p true) (propKey room.player2) = true)) :
    handlePlayAgain rooms roomId p =
      { rooms := JsObj.replace rooms roomId (room.signalled p), effects := [], threw := false } := by
  unfold handlePlayAgain
  simp only [hget]
  rw [if_neg]
  · rfl
  · simpa [Bool.and_eq_true] using h

theorem replace_replace {α : Type} (o : JsObj α) (k : String) (x y : α) :
    JsObj.replace (JsObj.replace o k x) k y = JsObj.replace o k y := by
  induction o with
  | nil => rfl
  | cons e o ih =>
    obtain ⟨k0, v0⟩ := e
    by_cases hk : k0 = k
    · simp [JsObj.replace, hk]
    · simp [JsObj.replace, hk, ih]

/-- C5, as stated, fails. After `inheritedIdEvents` (all completing) the
room "R" seats "p1" and "constructor", with an empty `readyToPlayAgain`. The
signal of "p1" alone resets the room and sends `reset` to both connections:
`readyToPlayAgain["constructor"]` reads the function inherited from
`Object.prototype`, which is truthy, although "constructor" is not recorded.
The same happens with the slots exchanged, and in the room "R1" of
`seatedRegistry` the signal of "__proto__" records nothing. -/
theorem inherited_id_reset_counterexample :
    completes [] inheritedIdEvents = true
      ∧ run [] inheritedIdEvents = [("R", inheritedIdRoom)]
      ∧ inheritedIdRoom.player1 = some "p1" ∧ inheritedIdRoom.player2 = some "constructor"
      ∧ inheritedIdRoom.readyToPlayAgain = []
      ∧ JsObj.get (inheritedIdRoom.signalled "p1").readyToPlayAgain "constructor" = none
      ∧ handlePlayAgain [("R", inheritedIdRoom)] "R" "p1" =
          { rooms := [("R", inheritedIdRoom.restarted)],
            effects := [Effect.send 1 Msg.reset, Effect.send 2 Msg.reset], threw := false }
      ∧ inheritedIdRoom.restarted.board = emptyBoard
      ∧ inheritedIdRoom.board ≠ emptyBoard
      ∧ handlePlayAgain [("R", inheritedIdRoom.swapped)] "R" "p1" =
          { rooms := [("R", inheritedIdRoom.swapped.restarted)],
            effects := [Effect.send 1 Msg.reset, Effect.send 2 Msg.reset], threw := false }
      ∧ JsObj.get (seatedRoom.signalled "__proto__").readyToPlayAgain "__proto__" = none := by
  decide

/-- C5, amended. For every existing room whose two slots hold distinct
player ids `p1` and `p2`, neither of which names a property inherited from
`Object.prototype`, and every player id `p` other than "__proto__":
`handlePlayAgain(room, p)` records `p` in `readyToPlayAgain` (as an own
property with the value `true`); if both `p1` and `p2` are then recorded it
resets the room (board all zeros, `turnPlayer` 1, `moveCnt` 0,
`readyToPlayAgain` empty) and sends one `reset` per entry of `connections`;
if not, the room only gains the record of `p` (board, `turnPlayer` and
`moveCnt` unchanged) and nothing is sent. In particular, from an empty
`readyToPlayAgain` a signal of one of the two alone produces no reset, and
the two signals in either order produce the reset at the second one. -/
theorem handlePlayAgain_resets_iff_both (rooms : Registry) (roomId : RoomId) (room : Room)
    (p1 p2 p : PlayerId) (hget : JsObj.get rooms roomId = some room)
    (hp1 : room.player1 = some p1) (hp2 : room.player2 = some p2) (hne : p1 ≠ p2)
    (hi1 : inheritedName p1 = false) (hi2 : inheritedName p2 = false)
    (hp : p ≠ "__proto__") :
    JsObj.get (room.signalled p).readyToPlayAgain p = some true
      ∧ (JsObj.get (room.signalled p).readyToPlayAgain p1 = some true
          ∧ JsObj.get (room.signalled p).readyToPlayAgain p2 = some true →
        handlePlayAgain rooms roomId p =
          { rooms := JsObj.replace rooms roomId room.restarted,
            effects := (JsObj.values room.connections).map (fun c => Effect.send c Msg.reset),
            threw := false })
      ∧ (¬ (JsObj.get (room.signalled p).readyToPlayAgain p1 = some true
          ∧ JsObj.get (room.signalled p).readyToPlayAgain p2 = some true) →
        handlePlayAgain rooms roomId p =
          { rooms := JsObj.replace rooms roomId (room.signalled p), effects := [],
            threw := false })
      ∧ room.restarted.board = emptyBoard ∧ room.restarted.turnPlayer = 1
      ∧ room.restarted.moveCnt = 0 ∧ room.restarted.readyToPlayAgain = []
      ∧ (room.signalled p).board = room.board
      ∧ (room.signalled p).turnPlayer = room.turnPlayer
      ∧ (room.signalled p).moveCnt = room.moveCnt
      ∧ (room.readyToPlayAgain = [] → p = p1 ∨ p = p2 →
        handlePlayAgain rooms roomId p =
          { rooms := JsObj.replace rooms roomId (room.signalled p), effects := [],
            threw := false })
      ∧ (room.readyToPlayAgain = [] → ∀ a b : PlayerId, (a = p1 ∧ b = p2) ∨ (a = p2 ∧ b = p1) →
        (handlePlayAgain rooms roomId a).effects = []
          ∧ handlePlayAgain (handlePlayAgain rooms roomId a).rooms roomId b =
            { rooms := JsObj.replace rooms roomId room.restarted,
              effects := (JsObj.values room.connections).map (fun c => Effect.send c Msg.reset),
              threw := false }) := by
  have key1 : propKey room.player1 = p1 := by rw [hp1]; rfl
  have key2 : propKey room.player2 = p2 := by rw [hp2]; rfl
  have alone : room.readyToPlayAgain = [] → ∀ a : PlayerId, a = p1 ∨ a = p2 →
      handlePlayAgain rooms roomId a =
        { rooms := JsObj.replace rooms roomId (room.signalled a), effects := [],
          threw := false } := by
    intro hempty a ha
    apply handlePlayAgain_wait rooms roomId room a hget
    rw [key1, key2, hempty]
    rintro ⟨f1, f2⟩
    rcases ha with rfl | rfl
    · rw [flagged_set_ne [] a p2 (Ne.symm hne), flagged_nil, hi2] at f2
      cases f2
    · rw [flagged_set_ne [] a p1 hne, flagged_nil, hi1] at f1
      cases f1
  refine ⟨JsObj.get_set_self _ _ _ hp, ?_, ?_, rfl, rfl, rfl, rfl, rfl, rfl, rfl, ?_, ?_⟩
  · rintro ⟨f1, f2⟩
    exact handlePlayAgain_reset rooms roomId room p hget
      (by rw [key1]; exact (flagged_iff_get _ p1 hi1).mpr f1)
      (by rw [key2]; exact (flagged_iff_get _ p2 hi2).mpr f2)
  · intro h
    apply handlePlayAgain_wait rooms roomId room p hget
    rw [key1, key2]
    rintro ⟨f1, f2⟩
    exact h ⟨(flagged_iff_get _ p1 hi1).mp f1, (flagged_iff_get _ p2 hi2).mp f2⟩
  · intro hempty hp
    exact alone hempty p hp
  · intro hempty a b hab
    have ha : a = p1 ∨ a = p2 := by
      rcases hab with ⟨h, _⟩ | ⟨h, _⟩
      · exact Or.inl h
      · exact Or.inr h
    rw [alone hempty a ha]
    refine ⟨rfl, ?_⟩
    have hget' : JsObj.get (JsObj.replace rooms roomId (room.signalled a)) roomId
        = some (room.signalled a) := get_replace_of_get rooms roomId room _ hget
    have hab' : a ≠ b := by
      rcases hab with ⟨h, h'⟩ | ⟨h, h'⟩
      · rw [h, h']; exact hne
      · rw [h, h']; exact Ne.symm hne
    have fa : flagged (JsObj.set (room.signalled a).readyToPlayAgain b true) a = true := by
      rw [flagged_set_ne _ b a hab']
      exact flagged_set_self _ _
    have fb : flagged (JsObj.set (room.signalled a).readyToPlayAgain b true) b = true :=
      flagged_set_self _ _
    have hk1 : propKey (room.signalled a).player1 = p1 := key1
    have hk2 : propKey (room.signalled a).player2 = p2 := key2
    rw [handlePlayAgain_reset _ roomId (room.signalled a) b hget'
      (by rw [hk1]; rcases hab with ⟨h, h'⟩ | ⟨h, h'⟩
          · rw [← h]; exact fa
          · rw [← h']; exact fb)
      (by rw [hk2]; rcases hab with ⟨h, h'⟩ | ⟨h, h'⟩
          · rw [← h']; exact fb
          · rw [← h]; exact fa)]
    rw [replace_replace]
    rfl

/-- C5, amended, at the room "R1" of `seatedRegistry`, with "p2"
signalling. -/
theorem handlePlayAgain_resets_iff_both_witness :
    JsObj.get (seatedRoom.signalled "p2").readyToPlayAgain "p2" = some true
      ∧ (JsObj.get (seatedRoom.signalled "p2").readyToPlayAgain "p1" = some true
          ∧ JsObj.get (seatedRoom.signalled "p2").readyToPlayAgain "p2" = some true →
        handlePlayAgain seatedRegistry "R1" "p2" =
          { rooms := JsObj.replace seatedRegistry "R1" seatedRoom.restarted,
            effects := (JsObj.values seatedRoom.connections).map
              (fun c => Effect.send c Msg.reset),
            threw := false })
      ∧ (¬ (JsObj.get (seatedRoom.signalled "p2").readyToPlayAgain "p1" = some true
          ∧ JsObj.get (seatedRoom.signalled "p2").readyToPlayAgain "p2" = some true) →
        handlePlayAgain seatedRegistry "R1" "p2" =
          { rooms := JsObj.replace seatedRegistry "R1" (seatedRoom.signalled "p2"), effects := [],
            threw := false })
      ∧ seatedRoom.restarted.board = emptyBoard ∧ seatedRoom.restarted.turnPlayer = 1
      ∧ seatedRoom.restarted.moveCnt = 0 ∧ seatedRoom.restarted.readyToPlayAgain = []
      ∧ (seatedRoom.signalled "p2").board = seatedRoom.board
      ∧ (seatedRoom.signalled "p2").turnPlayer = seatedRoom.turnPlayer
      ∧ (seatedRoom.signalled "p2").moveCnt = seatedRoom.moveCnt
      ∧ (seatedRoom.readyToPlayAgain = [] → "p2" = "p1" ∨ "p2" = "p2" →
        handlePlayAgain seatedRegistry "R1" "p2" =
          { rooms := JsObj.replace seatedRegistry "R1" (seatedRoom.signalled "p2"), effects := [],
            threw := false })
      ∧ (seatedRoom.readyToPlayAgain = [] →
        ∀ a b : PlayerId, (a = "p1" ∧ b = "p2") ∨ (a = "p2" ∧ b = "p1") →
        (handlePlayAgain seatedRegistry "R1" a).effects = []
          ∧ handlePlayAgain (handlePlayAgain seatedRegistry "R1" a).rooms "R1" b =
            { rooms := JsObj.replace seatedRegistry "R1" seatedRoom.restarted,
              effects := (JsObj.values seatedRoom.connections).map
                (fun c => Effect.send c Msg.reset),
              threw := false }) :=
  handlePlayAgain_resets_iff_both seatedRegistry "R1" seatedRoom "p1" "p2" "p2"
    (by decide) (by decide) (by decide) (by decide) (by decide) (by decide) (by decide)

/-! ## Seat swap -/

/-- C6, as stated, fails. In the room "R" after `inheritedIdEvents`, which
seats "p1" and "constructor", each with an entry in `connections`, the switch
request of "p1" alone exchanges the slots and notifies both connections:
`switchRequests["constructor"]` reads the function inherited from
`Object.prototype`, which is truthy, although "constructor" is not recorded.
The same happens with the slots exchanged, and in the room "R1" of
`seatedRegistry` the request of "__proto__" records nothing. -/
theorem inherited_id_swap_counterexample :
    run [] inheritedIdEvents = [("R", inheritedIdRoom)]
      ∧ inheritedIdRoom.player1 = some "p1" ∧ inheritedIdRoom.player2 = some "constructor"
      ∧ JsObj.get inheritedIdRoom.connections "p1" = some 1
      ∧ JsObj.get inheritedIdRoom.connections "constructor" = some 2
      ∧ (inheritedIdRoom.requested "p1").switchRequests = some [("p1", true)]
      ∧ handleSwitchRequest [("R", inheritedIdRoom)] "R" "p1" =
          { rooms := [("R", inheritedIdRoom.swapped)],
            effects := [Effect.send 2 (Msg.playerNumber 1 (some "constructor")),
              Effect.send 1 (Msg.playerNumber 2 (some "p1")),
              Effect.send 1 (Msg.message "Player numbers have been switched!"),
              Effect.send 2 (Msg.message "Player numbers have been switched!")],
            threw := false }
      ∧ inheritedIdRoom.swapped.player1 = some "constructor"
      ∧ (handleSwitchRequest [("R", inheritedIdRoom.swapped)] "R" "p1").effects =
          [Effect.send 1 (Msg.playerNumber 1 (some "p1")),
            Effect.send 2 (Msg.playerNumber 2 (some "constructor")),
            Effect.send 1 (Msg.message "Player numbers have been switched!"),
            Effect.send 2 (Msg.message "Player numbers have been switched!")]
      ∧ (seatedRoom.requested "__proto__").switchRequests = some [] := by
  decide

/-- C6, amended. For every existing room whose two slots hold distinct
player ids `p1` and `p2`, neither of which names a property inherited from
`Object.prototype`, each with an entry in `connections`, and every player id
`p` other than "__proto__": `handleSwitchRequest(room, p)` records `p` in
`switchRequests` (as an own property with the value `true`); if both `p1`
and `p2` are then recorded it exchanges `player1` and `player2`, clears
`switchRequests`, sends `playerNumber` 1 to the connection of the new
`player1` and `playerNumber` 2 to the connection of the new `player2`, and
then broadcasts one `message` per entry of `connections`; if not, the room
only gains the record of `p` (`player1` and `player2` unchanged) and nothing
is sent. -/
theorem handleSwitchRequest_swaps_iff_both (rooms : Registry) (roomId : RoomId) (room : Room)
    (p1 p2 p : PlayerId) (c1 c2 : Conn) (hget : JsObj.get rooms roomId = some room)
    (hp1 : room.player1 = some p1) (hp2 : room.player2 = some p2) (hne : p1 ≠ p2)
    (hi1 : inheritedName p1 = false) (hi2 : inheritedName p2 = false)
    (hc1 : JsObj.get room.connections p1 = some c1)
    (hc2 : JsObj.get room.connections p2 = some c2) (hp : p ≠ "__proto__") :
    (∃ requests, (room.requested p).switchRequests = some requests
        ∧ JsObj.get requests p = some true
        ∧ (JsObj.get requests p1 = some true ∧ JsObj.get requests p2 = some true →
          handleSwitchRequest rooms roomId p =
            { rooms := JsObj.replace rooms roomId room.swapped,
              effects := [Effect.send c2 (Msg.playerNumber 1 (some p2)),
                  Effect.send c1 (Msg.playerNumber 2 (some p1))]
                ++ (JsObj.values room.connections).map (fun c => Effect.send c
                    (Msg.message "Player numbers have been switched!")),
              threw := false })
        ∧ (¬ (JsObj.get requests p1 = some true ∧ JsObj.get requests p2 = some true) →
          handleSwitchRequest rooms roomId p =
            { rooms := JsObj.replace rooms roomId (room.requested p), effects := [],
              threw := false }))
      ∧ room.swapped.player1 = some p2 ∧ room.swapped.player2 = some p1
      ∧ room.swapped.switchRequests = none
      ∧ (room.requested p).player1 = some p1 ∧ (room.requested p).player2 = some p2 := by
  have _ := hne
  have key1 : propKey room.player1 = p1 := by rw [hp1]; rfl
  have key2 : propKey room.player2 = p2 := by rw [hp2]; rfl
  have n1 := ne_proto_of_not_inherited p1 hi1
  have n2 := ne_proto_of_not_inherited p2 hi2
  refine ⟨⟨_, rfl, JsObj.get_set_self _ _ _ hp, ?_, ?_⟩, hp2, hp1, rfl, hp1, hp2⟩
  · rintro ⟨g1, g2⟩
    have f1 := (flagged_iff_get _ p1 hi1).mpr g1
    have f2 := (flagged_iff_get _ p2 hi2).mpr g2
    unfold handleSwitchRequest
    simp only [hget, key1, key2, f1, f2, Bool.and_self, if_true, hc1, hc2, hp1, hp2, propKey,
      Room.sendTarget, n1, n2, if_false]
    rw [broadcast_replace rooms roomId room _ _ hget]
    simp [Room.swapped, hp1, hp2]
  · intro h
    unfold handleSwitchRequest
    simp only [hget, key1, key2]
    rw [if_neg]
    · rfl
    · intro hf
      rw [Bool.and_eq_true] at hf
      exact h ⟨(flagged_iff_get _ p1 hi1).mp hf.1, (flagged_iff_get _ p2 hi2).mp hf.2⟩

/-- C6, amended, at the room "R1" of `seatedRegistry`, with "p1"
requesting. -/
theorem handleSwitchRequest_swaps_iff_both_witness :
    (∃ requests, (seatedRoom.requested "p1").switchRequests = some requests
        ∧ JsObj.get requests "p1" = some true
        ∧ (JsObj.get requests "p1" = some true ∧ JsObj.get requests "p2" = some true →
          handleSwitchRequest seatedRegistry "R1" "p1" =
            { rooms := JsObj.replace seatedRegistry "R1" seatedRoom.swapped,
              effects := [Effect.send 2 (Msg.playerNumber 1 (some "p2")),
                  Effect.send 1 (Msg.playerNumber 2 (some "p1"))]
                ++ (JsObj.values seatedRoom.connections).map (fun c => Effect.send c
                    (Msg.message "Player numbers have been switched!")),
              threw := false })
        ∧ (¬ (JsObj.get requests "p1" = some true ∧ JsObj.get requests "p2" = some true) →
          handleSwitchRequest seatedRegistry "R1" "p1" =
            { rooms := JsObj.replace seatedRegistry "R1" (seatedRoom.requested "p1"),
              effects := [], threw := false }))
      ∧ seatedRoom.swapped.player1 = some "p2" ∧ seatedRoom.swapped.player2 = some "p1"
      ∧ seatedRoom.swapped.switchRequests = none
      ∧ (seatedRoom.requested "p1").player1 = some "p1"
      ∧ (seatedRoom.requested "p1").player2 = some "p2" :=
  handleSwitchRequest_swaps_iff_both seatedRegistry "R1" seatedRoom "p1" "p2" "p1" 1 2
    (by decide) (by decide) (by decide) (by decide) (by decide) (by decide) (by decide)
    (by decide) (by decide)

/-- C7. For every existing room and every player id, `handleSwitchRequest`
leaves the room's `board`, `turnPlayer`, `moveCnt` and `readyToPlayAgain`
unchanged, whether the swap commits, does not commit, or the handler raises
for want of a connection entry. -/
theorem handleSwitchRequest_frame (rooms : Registry) (roomId : RoomId) (room : Room)
    (p : PlayerId) (hget : JsObj.get rooms roomId = some room) :
    ∃ room', JsObj.get (handleSwitchRequest rooms roomId p).rooms roomId = some room'
      ∧ room'.board = room.board ∧ room'.turnPlayer = room.turnPlayer
      ∧ room'.moveCnt = room.moveCnt ∧ room'.readyToPlayAgain = room.readyToPlayAgain := by
  unfold handleSwitchRequest
  simp only [hget]
  split
  · split
    · exact ⟨_, get_replace_of_get rooms roomId room _ hget, rfl, rfl, rfl, rfl⟩
    · split
      · exact ⟨_, get_replace_of_get rooms roomId room _ hget, rfl, rfl, rfl, rfl⟩
      · split
        · exact ⟨_, get_replace_of_get rooms roomId room _ hget, rfl, rfl, rfl, rfl⟩
        · exact ⟨_, get_replace_of_get rooms roomId room _ hget, rfl, rfl, rfl, rfl⟩
  · exact ⟨_, get_replace_of_get rooms roomId room _ hget, rfl, rfl, rfl, rfl⟩

/-- C7 at the room "R1" of `seatedRegistry`, with "p1" requesting. -/
theorem handleSwitchRequest_frame_witness :
    ∃ room', JsObj.get (handleSwitchRequest seatedRegistry "R1" "p1").rooms "R1" = some room'
      ∧ room'.board = seatedRoom.board ∧ room'.turnPlayer = seatedRoom.turnPlayer
      ∧ room'.moveCnt = seatedRoom.moveCnt
      ∧ room'.readyToPlayAgain = seatedRoom.readyToPlayAgain :=
  handleSwitchRequest_frame seatedRegistry "R1" seatedRoom "p1" (by decide)

/-! ## Disconnect -/

theorem mem_keys_of_get {α : Type} (o : JsObj α) (k : String) (v : α)
    (h : JsObj.get o k = some v) : k ∈ JsObj.keys o := by
  have hm := JsObj.mem_of_get o k v h
  exact List.mem_map.mpr ⟨(k, v), hm, rfl⟩

theorem findConn_eq_none (conns : JsObj Conn) (ws : Conn)
    (h : ∀ e ∈ conns, e.2 ≠ ws) : findConn conns ws = none := by
  induction conns with
  | nil => rfl
  | cons e o ih =>
    obtain ⟨k, c⟩ := e
    have hc : c ≠ ws := h (k, c) (by simp)
    simp only [findConn, hc, if_false]
    exact ih (fun e he => h e (List.mem_cons_of_mem _ he))

theorem findConn_of_only (conns : JsObj Conn) (ws : Conn) (p : PlayerId)
    (hreg : JsObj.get conns p = some ws) (honly : ∀ e ∈ conns, e.2 = ws → e.1 = p) :
    findConn conns ws = some p := by
  induction conns with
  | nil => simp [JsObj.get] at hreg
  | cons e o ih =>
    obtain ⟨k, c⟩ := e
    by_cases hc : c = ws
    · have hk : k = p := honly (k, c) (by simp) hc
      simp [findConn, hc, hk]
    · by_cases hk : k = p
      · simp [JsObj.get, hk] at hreg
        exact absurd hreg hc
      · simp only [JsObj.get, hk, if_false] at hreg
        simp only [findConn, hc, if_false]
        exact ih hreg (fun e he => honly e (List.mem_cons_of_mem _ he))

/-- The scan passes over rooms that do not hold the closed handle. -/
theorem disconnectLoop_skip (ws : Conn) (ks : List RoomId) (rooms : Registry)
    (h : ∀ k ∈ ks, ∀ room, JsObj.get rooms k = some room → findConn room.connections ws = none) :
    disconnectLoop ws ks rooms = rooms := by
  induction ks with
  | nil => rfl
  | cons k rest ih =>
    have ih' := ih (fun k' hk' => h k' (List.mem_cons_of_mem _ hk'))
    cases hg : JsObj.get rooms k with
    | none => simp [disconnectLoop, hg, ih']
    | some room =>
      have hf := h k (by simp) room hg
      simp [disconnectLoop, hg, hf, ih']

/-- The scan deletes the room of a lone seated player whose handle is held
nowhere else. -/
theorem disconnectLoop_last (ws : Conn) (roomId : RoomId) (room : Room) (p : PlayerId)
    (rooms : Registry) (hget : JsObj.get rooms roomId = some room) (hp : p ≠ "")
    (hseat : (room.player1 = some p ∧ truthy room.player2 = false)
      ∨ (room.player2 = some p ∧ truthy room.player1 = false))
    (hfind : findConn room.connections ws = some p)
    (hother : ∀ k room', k ≠ roomId → JsObj.get rooms k = some room' →
      findConn room'.connections ws = none)
    (ks : List RoomId) (hmem : roomId ∈ ks) :
    disconnectLoop ws ks rooms = JsObj.delete rooms roomId := by
  induction ks with
  | nil => simp at hmem
  | cons k rest ih =>
    by_cases hk : k = roomId
    · subst hk
      have tn : truthy none = false := rfl
      rcases hseat with ⟨h1, h2⟩ | ⟨h2, h1⟩
      · simp [disconnectLoop, hget, hfind, hp, vacate, h1, h2, tn]
      · have hne : room.player1 ≠ some p := by
          intro h
          rw [h] at h1
          simp [truthy, hp] at h1
        simp [disconnectLoop, hget, hfind, hp, vacate, h1, h2, hne, tn]
    · have hrest : roomId ∈ rest := by
        rcases List.mem_cons.mp hmem with h | h
        · exact absurd h.symm hk
        · exact h
      cases hg : JsObj.get rooms k with
      | none => simp [disconnectLoop, hg, ih hrest]
      | some room' =>
        have hf := hother k room' hk hg
        simp [disconnectLoop, hg, hf, ih hrest]

theorem set_nil {α : Type} (k : String) (v : α) (hk : k ≠ "__proto__") :
    JsObj.set ([] : JsObj α) k v = [(k, v)] := by
  unfold JsObj.set
  rw [if_neg hk]
  simp only [JsObj.has, JsObj.get, Option.isSome_none, Bool.false_eq_true, if_false]
  split <;> rfl

theorem winnerOf_emptyBoard : winnerOf emptyBoard = some 0 := by decide

/-- The connections of a new room after the registration of `p`: no entry
other than that of `p`, and that entry unless `p` is "__proto__". -/
theorem register_newRoom_connections (p : PlayerId) (ws : Conn) :
    (∀ e ∈ (newRoom.register p ws).connections, e = (p, ws))
      ∧ (p ≠ "__proto__" → (newRoom.register p ws).connections = [(p, ws)]) := by
  unfold Room.register
  split
  · rename_i hp
    exact ⟨fun e he => absurd he (List.not_mem_nil e), fun h => absurd hp h⟩
  · rename_i hp
    have hs : JsObj.set newRoom.connections p ws = [(p, ws)] := set_nil p ws hp
    refine ⟨fun e he => ?_, fun _ => hs⟩
    simp only [hs, List.mem_singleton] at he
    exact he

/-- The room a join creates under an unknown identifier that names no
inherited property. -/
theorem handleJoin_fresh (rooms : Registry) (ws : Conn) (roomId : RoomId) (p : PlayerId)
    (hget : JsObj.get rooms roomId = none) (hi : inheritedName roomId = false) :
    JsObj.get (handleJoin rooms ws roomId p).rooms roomId
      = some { newRoom.register p ws with player1 := some p } := by
  have hb := builtinRoom_of_not_inherited rooms roomId hi
  have hroom : roomAt rooms roomId = newRoom := by simp [roomAt, hget]
  have hens := get_ensureRoom rooms roomId hb
  rw [hroom] at hens
  obtain ⟨f1, f2, f3, -⟩ := register_frame newRoom p ws
  have hw : winnerOf (newRoom.register p ws).board = some 0 := by
    rw [f3]
    exact winnerOf_emptyBoard
  have ht1 : truthy (newRoom.register p ws).player1 = false := by
    rw [f1]
    rfl
  have ht2 : truthy (newRoom.register p ws).player2 = false := by
    rw [f2]
    rfl
  unfold handleJoin
  simp only [hb, hroom, hw, ht1, ht2, Bool.false_and, Bool.and_false, Bool.not_false, if_true,
    Bool.false_eq_true, if_false]
  exact JsObj.get_replace_self _ roomId _ (by rw [hens]; rfl)

/-- The room a pre-join check creates under an unknown identifier that names
no inherited property. -/
theorem checkRoom_fresh (rooms : Registry) (ws : Conn) (roomId : RoomId) (p : PlayerId)
    (hget : JsObj.get rooms roomId = none) (hi : inheritedName roomId = false) :
    JsObj.get (checkRoom rooms ws roomId p).rooms roomId = some (newRoom.register p ws) := by
  have hb := builtinRoom_of_not_inherited rooms roomId hi
  have hroom : roomAt rooms roomId = newRoom := by simp [roomAt, hget]
  have hens := get_ensureRoom rooms roomId hb
  rw [hroom] at hens
  unfold checkRoom
  simp only [hb, hroom, Bool.false_eq_true, if_false]
  have hlen : ¬ (2 ≤ (JsObj.keys newRoom.connections).length) := by decide
  rw [if_neg hlen]
  exact JsObj.get_replace_self _ roomId _ (by rw [hens]; rfl)

/-- C8, as stated, fails. After `twoRoomEvents` (all handled without
raising) connection 1 is the connection registered in room "R1" for its only
seated player "p", the other slot being empty; connection 1 is also
registered in room "R0", which the scan of `handleDisconnect` meets first.
After `handleDisconnect` of connection 1 the room "R1" is still in the
registry, unchanged. And after the join of the empty id "" to room "R" on
connection 1, which gives it slot 1, `handleDisconnect` of connection 1
leaves the room "R" in the registry: line 261 takes the empty id for no
player. And were a room held under the id "toString", the join that follows
its removal would find the inherited function there and raise, creating
nothing. -/
theorem handleDisconnect_keeps_room_counterexample :
    completes [] twoRoomEvents = true
      ∧ JsObj.get twoRoomRegistry "R1" = some soloRoom
      ∧ soloRoom.player1 = some "p" ∧ soloRoom.player2 = none
      ∧ JsObj.get soloRoom.connections "p" = some 1
      ∧ JsObj.get (handleDisconnect twoRoomRegistry 1).rooms "R1" = some soloRoom
      ∧ completes [] [Event.join 1 "R" ""] = true
      ∧ run [] [Event.join 1 "R" ""] = [("R", emptyIdSoloRoom)]
      ∧ emptyIdSoloRoom.player1 = some "" ∧ emptyIdSoloRoom.player2 = none
      ∧ JsObj.get emptyIdSoloRoom.connections "" = some 1
      ∧ (JsObj.get (handleDisconnect [("R", emptyIdSoloRoom)] 1).rooms "R").isSome = true
      ∧ JsObj.get (handleDisconnect [("toString", soloRoom)] 1).rooms "toString" = none
      ∧ handleJoin (handleDisconnect [("toString", soloRoom)] 1).rooms 2 "toString" "q"
          = { rooms := [], effects := [], threw := true }
      ∧ checkRoom (handleDisconnect [("toString", soloRoom)] 1).rooms 2 "toString" "q"
          = { rooms := [], effects := [], threw := true } := by
  decide

/-- C8, amended. For every registry state, room R whose id names no
property inherited from `Object.prototype`, and connection `ws`: if `ws` is
the connection registered in R for the only seated player `p` of R (`p` is
not the empty id, it occupies one slot and the other slot is empty), and
`ws` is registered under no other player id of R and in no other room of the
registry, then after `handleDisconnect(ws)` R is no longer in the registry;
and the next `handleJoin` or `checkRoom` that names the same room id creates
a fresh room with an all-zero board, `turnPlayer` 1, `moveCnt` 0, empty
`readyToPlayAgain`, no `switchRequests`, no connection other than the
newcomer's, and both slots empty but for the slot 1 that `handleJoin`
assigns to the newcomer. -/
theorem handleDisconnect_last_player_removes_room (rooms : Registry) (roomId : RoomId)
    (room : Room) (ws : Conn) (p : PlayerId) (hget : JsObj.get rooms roomId = some room)
    (hid : inheritedName roomId = false) (hp : p ≠ "")
    (hseat : (room.player1 = some p ∧ truthy room.player2 = false)
      ∨ (room.player2 = some p ∧ truthy room.player1 = false))
    (hreg : JsObj.get room.connections p = some ws)
    (honly : ∀ e ∈ room.connections, e.2 = ws → e.1 = p)
    (hother : ∀ k room', k ≠ roomId → JsObj.get rooms k = some room' →
      ∀ e ∈ room'.connections, e.2 ≠ ws) :
    JsObj.get (handleDisconnect rooms ws).rooms roomId = none
      ∧ ∀ (ws' : Conn) (p' : PlayerId),
        (∃ room', JsObj.get (handleJoin (handleDisconnect rooms ws).rooms ws' roomId p').rooms
              roomId = some room'
          ∧ room'.player1 = some p' ∧ room'.player2 = none
          ∧ room'.board = [[0, 0, 0], [0, 0, 0], [0, 0, 0]] ∧ room'.turnPlayer = 1
          ∧ room'.moveCnt = 0 ∧ room'.readyToPlayAgain = [] ∧ room'.switchRequests = none
          ∧ ∀ e ∈ room'.connections, e = (p', ws'))
        ∧ (∃ room', JsObj.get (checkRoom (handleDisconnect rooms ws).rooms ws' roomId p').rooms
              roomId = some room'
          ∧ room'.player1 = none ∧ room'.player2 = none
          ∧ room'.board = [[0, 0, 0], [0, 0, 0], [0, 0, 0]] ∧ room'.turnPlayer = 1
          ∧ room'.moveCnt = 0 ∧ room'.readyToPlayAgain = [] ∧ room'.switchRequests = none
          ∧ ∀ e ∈ room'.connections, e = (p', ws')) := by
  have hgone : JsObj.get (handleDisconnect rooms ws).rooms roomId = none := by
    unfold handleDisconnect
    simp only
    rw [disconnectLoop_last ws roomId room p rooms hget hp hseat
      (findConn_of_only room.connections ws p hreg honly)
      (fun k room' hk hg => findConn_eq_none room'.connections ws (hother k room' hk hg))
      (JsObj.keys rooms) (mem_keys_of_get rooms roomId room hget)]
    exact JsObj.get_delete_self rooms roomId
  refine ⟨hgone, fun ws' p' => ?_⟩
  obtain ⟨f1, f2, f3, f4, f5, f6, f7⟩ := register_frame newRoom p' ws'
  have hc := (register_newRoom_connections p' ws').1
  exact ⟨⟨_, handleJoin_fresh _ ws' roomId p' hgone hid, rfl, f2, f3, f4, f5, f6, f7, hc⟩,
    ⟨_, checkRoom_fresh _ ws' roomId p' hgone hid, f1, f2, f3, f4, f5, f6, f7, hc⟩⟩

/-- C8, amended, at the registry whose only room "R1" seats "p" alone on
connection 1. -/
theorem handleDisconnect_last_player_removes_room_witness :
    JsObj.get (handleDisconnect [("R1", soloRoom)] 1).rooms "R1" = none
      ∧ ∀ (ws' : Conn) (p' : PlayerId),
        (∃ room', JsObj.get (handleJoin (handleDisconnect [("R1", soloRoom)] 1).rooms ws' "R1"
              p').rooms "R1" = some room'
          ∧ room'.player1 = some p' ∧ room'.player2 = none
          ∧ room'.board = [[0, 0, 0], [0, 0, 0], [0, 0, 0]] ∧ room'.turnPlayer = 1
          ∧ room'.moveCnt = 0 ∧ room'.readyToPlayAgain = [] ∧ room'.switchRequests = none
          ∧ ∀ e ∈ room'.connections, e = (p', ws'))
        ∧ (∃ room', JsObj.get (checkRoom (handleDisconnect [("R1", soloRoom)] 1).rooms ws' "R1"
              p').rooms "R1" = some room'
          ∧ room'.player1 = none ∧ room'.player2 = none
          ∧ room'.board = [[0, 0, 0], [0, 0, 0], [0, 0, 0]] ∧ room'.turnPlayer = 1
          ∧ room'.moveCnt = 0 ∧ room'.readyToPlayAgain = [] ∧ room'.switchRequests = none
          ∧ ∀ e ∈ room'.connections, e = (p', ws')) :=
  handleDisconnect_last_player_removes_room [("R1", soloRoom)] "R1" soloRoom 1 "p"
    (by decide) (by decide) (by decide) (Or.inl ⟨by decide, by decide⟩) (by decide) (by decide)
    (fun k room' hk hg => by
      have hk' : ¬ "R1" = k := fun h => hk h.symm
      simp [JsObj.get, hk'] at hg)

/-! ## Invariants of the reachable registries -/

theorem allRooms_replace (P : Room → Prop) (rooms : Registry) (roomId : RoomId) (room : Room)
    (h : AllRooms P rooms) (hroom : P room) : AllRooms P (JsObj.replace rooms roomId room) := by
  intro e he
  rcases JsObj.mem_replace rooms roomId room e he with h' | h'
  · exact h e h'
  · rw [h']
    exact hroom

theorem allRooms_delete (P : Room → Prop) (rooms : Registry) (roomId : RoomId)
    (h : AllRooms P rooms) : AllRooms P (JsObj.delete rooms roomId) :=
  fun e he => h e (JsObj.mem_delete rooms roomId e he)

theorem allRooms_ensureRoom (P : Room → Prop) (rooms : Registry) (roomId : RoomId)
    (h : AllRooms P rooms) (hnew : P newRoom) : AllRooms P (ensureRoom rooms roomId) := by
  unfold ensureRoom
  split
  · exact h
  · intro e he
    rcases JsObj.mem_set rooms roomId newRoom e he with h' | h'
    · exact h e h'
    · rw [h']
      exact hnew

theorem allRooms_get (P : Room → Prop) (rooms : Registry) (roomId : RoomId) (room : Room)
    (h : AllRooms P rooms) (hget : JsObj.get rooms roomId = some room) : P room :=
  h (roomId, room) (JsObj.mem_of_get rooms roomId room hget)

theorem allRooms_roomAt (P : Room → Prop) (rooms : Registry) (roomId : RoomId)
    (h : AllRooms P rooms) (hnew : P newRoom) : P (roomAt rooms roomId) := by
  unfold roomAt
  cases hg : JsObj.get rooms roomId with
  | none => exact hnew
  | some room => exact allRooms_get P rooms roomId room h hg

theorem register_holds (P : Room → Prop) (hcore : CoreOnly P) (room : Room) (p : PlayerId)
    (ws : Conn) (h : P room) : P (room.register p ws) := by
  obtain ⟨f1, f2, f3, f4, f5, -⟩ := register_frame room p ws
  exact hcore room _ f1 f2 f3 f4 f5 h

theorem checkRoom_allRooms (P : Room → Prop) (hcore : CoreOnly P) (hnew : P newRoom)
    (rooms : Registry) (ws : Conn) (roomId : RoomId) (p : PlayerId) (h : AllRooms P rooms) :
    AllRooms P (checkRoom rooms ws roomId p).rooms := by
  have h1 := allRooms_ensureRoom P rooms roomId h hnew
  have h2 := allRooms_roomAt P rooms roomId h hnew
  unfold checkRoom
  simp only
  split
  · exact h1
  · split
    · exact h1
    · exact allRooms_replace P _ roomId _ h1 (register_holds P hcore _ p ws h2)

/-- The registry a join leaves behind: the room named gains the connection,
and the joining player a slot if one is free; nothing changes when the room
identifier names an inherited object. -/
theorem handleJoin_rooms_cases (rooms : Registry) (ws : Conn) (roomId : RoomId) (p : PlayerId) :
    (handleJoin rooms ws roomId p).rooms = ensureRoom rooms roomId
      ∨ (handleJoin rooms ws roomId p).rooms
        = JsObj.replace (ensureRoom rooms roomId) roomId ((roomAt rooms roomId).register p ws)
      ∨ (truthy (roomAt rooms roomId).player1 = false
          ∧ (handleJoin rooms ws roomId p).rooms
            = JsObj.replace (ensureRoom rooms roomId) roomId
                { (roomAt rooms roomId).register p ws with player1 := some p })
      ∨ (truthy (roomAt rooms roomId).player1 = true
          ∧ truthy (roomAt rooms roomId).player2 = false
          ∧ (handleJoin rooms ws roomId p).rooms
            = JsObj.replace (ensureRoom rooms roomId) roomId
                { (roomAt rooms roomId).register p ws with player2 := some p }) := by
  obtain ⟨f1, f2, f3, -⟩ := register_frame (roomAt rooms roomId) p ws
  cases hb : builtinRoom rooms roomId with
  | true =>
    left
    simp [handleJoin, hb]
  | false =>
    right
    cases hw : winnerOf (roomAt rooms roomId).board with
    | none =>
      left
      simp [handleJoin, hb, f3, hw]
    | some w =>
      cases ht1 : truthy (roomAt rooms roomId).player1 with
      | false =>
        right
        left
        refine ⟨rfl, ?_⟩
        simp only [handleJoin, hb, f1, f2, f3, hw, ht1, Bool.false_and, Bool.false_eq_true,
          if_false, Bool.not_false, if_true]
        split
        · split <;> rfl
        · rfl
      | true =>
        cases ht2 : truthy (roomAt rooms roomId).player2 with
        | false =>
          right
          right
          refine ⟨rfl, rfl, ?_⟩
          simp only [handleJoin, hb, f1, f2, f3, hw, ht1, ht2, Bool.and_false, Bool.false_eq_true,
            if_false, Bool.not_true, Bool.not_false, if_true]
          split
          · split <;> rfl
          · rfl
        | true =>
          left
          simp [handleJoin, hb, f1, f2, f3, hw, ht1, ht2]

theorem handleJoin_allRooms (P : Room → Prop) (hcore : CoreOnly P) (hnew : P newRoom)
    (rooms : Registry) (ws : Conn) (roomId : RoomId) (p : PlayerId) (h : AllRooms P rooms)
    (hseat1 : truthy (roomAt rooms roomId).player1 = false →
      P { roomAt rooms roomId with player1 := some p })
    (hseat2 : truthy (roomAt rooms roomId).player1 = true →
      truthy (roomAt rooms roomId).player2 = false →
      P { roomAt rooms roomId with player2 := some p }) :
    AllRooms P (handleJoin rooms ws roomId p).rooms := by
  have h1 := allRooms_ensureRoom P rooms roomId h hnew
  have h2 := allRooms_roomAt P rooms roomId h hnew
  obtain ⟨f1, f2, f3, f4, f5, -⟩ := register_frame (roomAt rooms roomId) p ws
  rcases handleJoin_rooms_cases rooms ws roomId p with hr | hr | ⟨ht1, hr⟩ | ⟨ht1, ht2, hr⟩
  · rw [hr]
    exact h1
  · rw [hr]
    exact allRooms_replace P _ roomId _ h1 (register_holds P hcore _ p ws h2)
  · rw [hr]
    exact allRooms_replace P _ roomId _ h1
      (hcore { roomAt rooms roomId with player1 := some p } _ rfl f2 f3 f4 f5 (hseat1 ht1))
  · rw [hr]
    exact allRooms_replace P _ roomId _ h1
      (hcore { roomAt rooms roomId with player2 := some p } _ f1 rfl f3 f4 f5
        (hseat2 ht1 ht2))

theorem handleMove_allRooms (P : Room → Prop) (rooms : Registry) (roomId : RoomId)
    (board : Board) (turnPlayer moveCnt : Int) (h : AllRooms P rooms)
    (hmove : ∀ r, P r → P { r with
      board := board, turnPlayer := if turnPlayer = 1 then 2 else 1, moveCnt := jsInc moveCnt }) :
    AllRooms P (handleMove rooms roomId board turnPlayer moveCnt).rooms := by
  cases hg : JsObj.get rooms roomId with
  | none =>
    simp only [handleMove, hg]
    exact h
  | some room =>
    rw [handleMove_rooms rooms roomId room board turnPlayer moveCnt hg]
    exact allRooms_replace P _ roomId _ h (hmove room (allRooms_get P rooms roomId room h hg))

theorem handleMessage_rooms (rooms : Registry) (roomId : RoomId) (text : String) :
    (handleMessage rooms roomId text).rooms = rooms := by
  unfold handleMessage
  split <;> rfl

theorem handleSyncState_rooms (rooms : Registry) (ws : Conn) (roomId : RoomId) :
    (handleSyncState rooms ws roomId).rooms = rooms := by
  unfold handleSyncState
  simp only
  split
  · rfl
  · split <;> rfl

theorem handlePlayAgain_allRooms (P : Room → Prop) (hcore : CoreOnly P) (rooms : Registry)
    (roomId : RoomId) (p : PlayerId) (h : AllRooms P rooms)
    (hreset : ∀ r, P r → P { r with board := emptyBoard, turnPlayer := 1, moveCnt := 0 }) :
    AllRooms P (handlePlayAgain rooms roomId p).rooms := by
  cases hg : JsObj.get rooms roomId with
  | none =>
    simp only [handlePlayAgain, hg]
    exact h
  | some room =>
    have hroom := allRooms_get P rooms roomId room h hg
    unfold handlePlayAgain
    simp only [hg]
    split
    · have hr : P { room with
          readyToPlayAgain := [], board := emptyBoard, turnPlayer := 1, moveCnt := 0 } :=
        hcore { room with board := emptyBoard, turnPlayer := 1, moveCnt := 0 } _
          rfl rfl rfl rfl rfl (hreset room hroom)
      split
      · exact allRooms_replace P _ roomId _ h hr
      · exact allRooms_replace P _ roomId _ h hr
    · exact allRooms_replace P _ roomId _ h (hcore room _ rfl rfl rfl rfl rfl hroom)

theorem handleSwitchRequest_allRooms (P : Room → Prop) (hcore : CoreOnly P) (rooms : Registry)
    (roomId : RoomId) (p : PlayerId) (h : AllRooms P rooms)
    (hswap : ∀ r, P r → P { r with player1 := r.player2, player2 := r.player1 }) :
    AllRooms P (handleSwitchRequest rooms roomId p).rooms := by
  cases hg : JsObj.get rooms roomId with
  | none =>
    simp only [handleSwitchRequest, hg]
    split
    · split <;> exact h
    · exact h
  | some room =>
    have hroom := allRooms_get P rooms roomId room h hg
    have hs := hswap room hroom
    unfold handleSwitchRequest
    simp only [hg]
    split
    · split
      · exact allRooms_replace P _ roomId _ h
          (hcore { room with player1 := room.player2, player2 := room.player1 } _
            rfl rfl rfl rfl rfl hs)
      · split
        · exact allRooms_replace P _ roomId _ h
            (hcore { room with player1 := room.player2, player2 := room.player1 } _
              rfl rfl rfl rfl rfl hs)
        · split
          · exact allRooms_replace P _ roomId _ h
              (hcore { room with player1 := room.player2, player2 := room.player1 } _
                rfl rfl rfl rfl rfl hs)
          · exact allRooms_replace P _ roomId _ h
              (hcore { room with player1 := room.player2, player2 := room.player1 } _
                rfl rfl rfl rfl rfl hs)
    · exact allRooms_replace P _ roomId _ h (hcore room _ rfl rfl rfl rfl rfl hroom)

theorem vacate_holds (P : Room → Prop) (room : Room) (p : PlayerId) (hroom : P room)
    (hvac1 : ∀ r, P r → P { r with player1 := none })
    (hvac2 : ∀ r, P r → P { r with player2 := none }) : P (vacate room p) := by
  unfold vacate
  split
  · exact hvac1 room hroom
  · split
    · exact hvac2 room hroom
    · exact hroom

theorem disconnectLoop_allRooms (P : Room → Prop) (hcore : CoreOnly P) (ws : Conn)
    (hvac1 : ∀ r, P r → P { r with player1 := none })
    (hvac2 : ∀ r, P r → P { r with player2 := none })
    (ks : List RoomId) (rooms : Registry) (h : AllRooms P rooms) :
    AllRooms P (disconnectLoop ws ks rooms) := by
  induction ks generalizing rooms with
  | nil => exact h
  | cons k rest ih =>
    unfold disconnectLoop
    cases hg : JsObj.get rooms k with
    | none => exact ih rooms h
    | some room =>
      have hroom := allRooms_get P rooms k room h hg
      simp only
      cases hf : findConn room.connections ws with
      | none => exact ih rooms h
      | some playerId =>
        have hroom1 : P { room with connections := JsObj.delete room.connections playerId } :=
          hcore room _ rfl rfl rfl rfl rfl hroom
        simp only
        split
        · split
          · exact allRooms_delete P rooms k h
          · exact allRooms_replace P _ k _ h (vacate_holds P _ playerId hroom1 hvac1 hvac2)
        · exact ih _ (allRooms_replace P _ k _ h hroom1)

/-- One handled event keeps a property of all rooms that the new room has,
that looks only at slots, board, turn and move count, and that each
handler's writes to those fields keep. -/
theorem dispatch_allRooms (P : Room → Prop) (ok : Registry → Event → Prop)
    (hcore : CoreOnly P) (hnew : P newRoom)
    (hseat1 : ∀ rooms ws roomId p, ok rooms (Event.join ws roomId p) → AllRooms P rooms →
      truthy (roomAt rooms roomId).player1 = false →
      P { roomAt rooms roomId with player1 := some p })
    (hseat2 : ∀ rooms ws roomId p, ok rooms (Event.join ws roomId p) → AllRooms P rooms →
      truthy (roomAt rooms roomId).player1 = true →
      truthy (roomAt rooms roomId).player2 = false →
      P { roomAt rooms roomId with player2 := some p })
    (hmove : ∀ rooms roomId board turnPlayer moveCnt,
      ok rooms (Event.move roomId board turnPlayer moveCnt) →
      ∀ r, P r → P { r with
        board := board, turnPlayer := if turnPlayer = 1 then 2 else 1,
        moveCnt := jsInc moveCnt })
    (hreset : ∀ r, P r → P { r with board := emptyBoard, turnPlayer := 1, moveCnt := 0 })
    (hswap : ∀ r, P r → P { r with player1 := r.player2, player2 := r.player1 })
    (hvac1 : ∀ r, P r → P { r with player1 := none })
    (hvac2 : ∀ r, P r → P { r with player2 := none })
    (rooms : Registry) (e : Event) (hok : ok rooms e) (h : AllRooms P rooms) :
    AllRooms P (dispatch rooms e).rooms := by
  cases e with
  | join ws roomId p =>
    exact handleJoin_allRooms P hcore hnew rooms ws roomId p h
      (hseat1 rooms ws roomId p hok h) (hseat2 rooms ws roomId p hok h)
  | checkJoin ws roomId p => exact checkRoom_allRooms P hcore hnew rooms ws roomId p h
  | move roomId board turnPlayer moveCnt =>
    exact handleMove_allRooms P rooms roomId board turnPlayer moveCnt h
      (hmove rooms roomId board turnPlayer moveCnt hok)
  | switchRequest roomId p => exact handleSwitchRequest_allRooms P hcore rooms roomId p h hswap
  | message roomId text =>
    show AllRooms P (handleMessage rooms roomId text).rooms
    rw [handleMessage_rooms]
    exact h
  | playAgain roomId p => exact handlePlayAgain_allRooms P hcore rooms roomId p h hreset
  | syncState ws roomId =>
    show AllRooms P (handleSyncState rooms ws roomId).rooms
    rw [handleSyncState_rooms]
    exact h
  | other => exact h
  | close ws =>
    exact disconnectLoop_allRooms P hcore ws hvac1 hvac2 (JsObj.keys rooms) rooms h

theorem reachableVia_run (ok : Registry → Event → Prop) (rooms : Registry) (es : List Event)
    (hr : ReachableVia ok rooms) (ha : allowed ok rooms es) : ReachableVia ok (run rooms es) := by
  induction es generalizing rooms with
  | nil => exact hr
  | cons e es ih => exact ih _ (ReachableVia.step rooms e hr ha.1) ha.2

theorem reachable_run (es : List Event) : Reachable (run [] es) := by
  refine reachableVia_run _ [] es ReachableVia.init ?_
  generalize ([] : Registry) = rooms
  induction es generalizing rooms with
  | nil => trivial
  | cons e es ih => exact ⟨trivial, ih _⟩

theorem not_bothWin_emptyBoard : ¬ bothWin emptyBoard := by
  intro h
  exact absurd h.1 (by decide)

/-- C2, as stated, fails. After a join and one `move` whose board has a
full row of each mark (both handled without raising), the room's board makes
`checkWin` true for mark 1 and for mark 2. -/
theorem bothWin_reachable_counterexample :
    Reachable (run [] bothWinEvents)
      ∧ completes [] bothWinEvents = true
      ∧ ∃ room, JsObj.get (run [] bothWinEvents) "R1" = some room
          ∧ checkWin room.board 1 = some true ∧ checkWin room.board 2 = some true :=
  ⟨reachable_run bothWinEvents, by decide,
    { newRoom with
      player1 := some "p1", connections := [("p1", 1)],
      board := [[1, 1, 1], [2, 2, 2], [0, 0, 0]], turnPlayer := 2, moveCnt := 6 },
    by decide, by decide, by decide⟩

/-- C2, amended. For every room state reachable from the empty registry by
any sequence of inbound events handled by the server (join, checkJoin, move,
playAgain, switchRequest, message, syncState, disconnect) in which no `move`
submits a board that already has a line of each mark, `checkWin(room.board,
1)` and `checkWin(room.board, 2)` are not both true. -/
theorem reachable_not_bothWin (rooms : Registry) (h : ReachableVia oneWinnerMoves rooms)
    (roomId : RoomId) (room : Room) (hget : JsObj.get rooms roomId = some room) :
    ¬ (checkWin room.board 1 = some true ∧ checkWin room.board 2 = some true) := by
  have hall : AllRooms (fun r => ¬ bothWin r.board) rooms := by
    clear hget
    induction h with
    | init =>
      intro e he
      simp at he
    | step rooms e _ hok ih =>
      refine dispatch_allRooms (fun r => ¬ bothWin r.board) oneWinnerMoves ?_ ?_ ?_ ?_ ?_ ?_ ?_
        ?_ ?_ rooms e hok ih
      · intro r r' _ _ hb _ _ hr
        show ¬ bothWin r'.board
        rw [hb]
        exact hr
      · exact not_bothWin_emptyBoard
      · intro rooms ws roomId p _ hall _
        exact allRooms_roomAt _ rooms roomId hall not_bothWin_emptyBoard
      · intro rooms ws roomId p _ hall _ _
        exact allRooms_roomAt _ rooms roomId hall not_bothWin_emptyBoard
      · intro rooms roomId board turnPlayer moveCnt hok r _
        exact hok
      · intro r _
        exact not_bothWin_emptyBoard
      · intro r hr
        exact hr
      · intro r hr
        exact hr
      · intro r hr
        exact hr
  exact allRooms_get _ rooms roomId room hall hget

/-- C2, amended, at the registry after `openingEvents`: two joins and a
first move on one cell. -/
theorem reachable_not_bothWin_witness :
    JsObj.get (run [] openingEvents) "R1" = some openingRoom
      ∧ ¬ (checkWin openingRoom.board 1 = some true ∧ checkWin openingRoom.board 2 = some true) :=
  ⟨by decide,
    reachable_not_bothWin (run [] openingEvents)
      (reachableVia_run oneWinnerMoves [] openingEvents ReachableVia.init
        ⟨trivial, trivial, fun h => absurd h.1 (by decide), trivial⟩)
      "R1" openingRoom (by decide)⟩

theorem distinctSlots_newRoom : newRoom.distinctSlots := by
  intro h
  cases h

/-- C4, as stated, fails. After the same player id "p" has joined room "R"
on two connections (both joins handled without raising), "p" occupies both
slots: `player1` and `player2` are both non-empty and equal. -/
theorem sameId_bothSlots_counterexample :
    Reachable (run [] doubleJoinEvents)
      ∧ completes [] doubleJoinEvents = true
      ∧ ∃ room, JsObj.get (run [] doubleJoinEvents) "R" = some room
          ∧ room.player1 = some "p" ∧ room.player2 = some "p"
          ∧ truthy room.player1 = true ∧ truthy room.player2 = true
          ∧ room.player1 = room.player2 :=
  ⟨reachable_run doubleJoinEvents, by decide,
    { newRoom with player1 := some "p", player2 := some "p", connections := [("p", 2)] },
    by decide, by decide, by decide, by decide, by decide, by decide⟩

/-- C4, amended. In every room state reachable from the empty registry by
any sequence of handled events (join, checkJoin, move, playAgain,
switchRequest, message, syncState, disconnect) in which no `join` names a
player id that already sits in a slot of the room it names, a player
identifier occupies at most one slot: whenever `player1` and `player2` are
both non-empty, `player1` is different from `player2`. -/
theorem reachable_distinctSlots (rooms : Registry) (h : ReachableVia unseatedJoins rooms)
    (roomId : RoomId) (room : Room) (hget : JsObj.get rooms roomId = some room) :
    truthy room.player1 = true → truthy room.player2 = true → room.player1 ≠ room.player2 := by
  have hall : AllRooms Room.distinctSlots rooms := by
    clear hget
    induction h with
    | init =>
      intro e he
      simp at he
    | step rooms e _ hok ih =>
      refine dispatch_allRooms Room.distinctSlots unseatedJoins ?_ ?_ ?_ ?_ ?_ ?_ ?_
        ?_ ?_ rooms e hok ih
      · intro r r' h1 h2 _ _ _ hr
        unfold Room.distinctSlots
        rw [h1, h2]
        exact hr
      · exact distinctSlots_newRoom
      · intro rooms ws roomId p hok _ _ _ _ heq
        exact hok.2 heq.symm
      · intro rooms ws roomId p hok _ _ _ _ _ heq
        exact hok.1 heq
      · intro rooms roomId board turnPlayer moveCnt _ r hr
        exact hr
      · intro r hr
        exact hr
      · intro r hr t1 t2 heq
        exact hr t2 t1 heq.symm
      · intro r _ t1
        cases t1
      · intro r _ _ t2
        cases t2
  exact allRooms_get _ rooms roomId room hall hget

/-- C4, amended, at the registry after `openingEvents`: "p1" and "p2" join
room "R1", each id unseated when it joins. -/
theorem reachable_distinctSlots_witness :
    JsObj.get (run [] openingEvents) "R1" = some openingRoom
      ∧ truthy openingRoom.player1 = true ∧ truthy openingRoom.player2 = true
      ∧ openingRoom.player1 ≠ openingRoom.player2 :=
  ⟨by decide, by decide, by decide,
    reachable_distinctSlots (run [] openingEvents)
      (reachableVia_run unseatedJoins [] openingEvents ReachableVia.init
        ⟨⟨by decide, by decide⟩, ⟨by decide, by decide⟩, trivial, trivial⟩)
      "R1" openingRoom (by decide) (by decide) (by decide)⟩

/-! ## Admitted joins -/

theorem get_replace_ensureRoom (rooms : Registry) (roomId : RoomId) (room : Room)
    (hb : builtinRoom rooms roomId = false) :
    JsObj.get (JsObj.replace (ensureRoom rooms roomId) roomId room) roomId = some room :=
  JsObj.get_replace_self _ roomId room (by rw [get_ensureRoom rooms roomId hb]; rfl)

/-- The outcome of a join that is not rejected as room-full, when the room
identifier does not name an inherited object and the two calls of `checkWin`
raise nothing. -/
theorem handleJoin_admitted (rooms : Registry) (ws : Conn) (roomId : RoomId) (p : PlayerId)
    (w : Int) (hb : builtinRoom rooms roomId = false)
    (hw : winnerOf (roomAt rooms roomId).board = some w)
    (hadm : (truthy (roomAt rooms roomId).player1 && truthy (roomAt rooms roomId).player2)
      = false) :
    handleJoin rooms ws roomId p =
      { rooms := JsObj.replace (ensureRoom rooms roomId) roomId
          ((roomAt rooms roomId).joined ws p),
        effects := joinNumber (roomAt rooms roomId) ws p
          ++ [Effect.send ws (Msg.syncState
              (joinSnapshot ((roomAt rooms roomId).joined ws p) w (roomAt rooms roomId).moveCnt))]
          ++ joinStart ((roomAt rooms roomId).joined ws p),
        threw := false } := by
  obtain ⟨f1, f2, f3, _, f5, -⟩ := register_frame (roomAt rooms roomId) p ws
  unfold handleJoin
  simp only [hb, f1, f2, f3, f5, hw, hadm, Bool.false_eq_true, if_false]
  cases ht1 : truthy (roomAt rooms roomId).player1 with
  | false =>
    simp only [Room.joined, joinNumber, joinStart, joinSnapshot, ht1, Bool.not_false, if_true,
      f1, f2, f3, f5]
    rw [broadcast]
    simp only [get_replace_ensureRoom rooms roomId _ hb]
    split <;> simp [f1, f2, f3, f5]
  | true =>
    have ht2 : truthy (roomAt rooms roomId).player2 = false := by
      simpa [ht1] using hadm
    simp only [Room.joined, joinNumber, joinStart, joinSnapshot, ht1, ht2, Bool.not_true,
      Bool.false_eq_true, if_false, Bool.not_false, if_true, f1, f2, f3, f5]
    rw [broadcast]
    simp only [get_replace_ensureRoom rooms roomId _ hb]
    split <;> simp [f1, f2, f3, f5]

theorem set_singleton_ne {α : Type} (k0 k : String) (v0 v : α) (hne : k ≠ k0)
    (hk : k ≠ "__proto__") :
    JsObj.set [(k0, v0)] k v = [(k0, v0), (k, v)] ∨ JsObj.set [(k0, v0)] k v = [(k, v), (k0, v0)] := by
  have h0 : ¬ k0 = k := fun h => hne h.symm
  unfold JsObj.set
  rw [if_neg hk]
  simp only [JsObj.has, JsObj.get, h0, if_false, Option.isSome_none, Bool.false_eq_true]
  split
  · simp only [JsObj.insertIndex]
    split
    · split
      · exact Or.inl rfl
      · exact Or.inr rfl
    · exact Or.inr rfl
  · exact Or.inl rfl

theorem truthy_some (p : PlayerId) (hp : p ≠ "") : truthy (some p) = true := by
  simp [truthy, hp]

/-- C11, as stated, fails. The room id "R" is absent from the empty
registry, "" and "p2" are distinct player ids and 1 and 2 distinct
connections; after `handleJoin(1, "R", "")` and `handleJoin(2, "R", "p2")`
(both completing) `player1` is "p2" and `player2` is empty, connection 2 was
sent `playerNumber` 1, and the second join sent no `start`. The room id
"constructor" is absent too, and the join that names it raises with nothing
sent: `rooms["constructor"]` is the inherited function. And when the first
or the second player joins as "__proto__", `connections` gets no entry for
it, and `start` goes to the connection of the other player alone. -/
theorem emptyId_join_counterexample :
    JsObj.get ([] : Registry) "R" = none ∧ ("" : PlayerId) ≠ "p2" ∧ (1 : Conn) ≠ 2
      ∧ completes [] emptyIdEvents = true
      ∧ JsObj.get (run [] emptyIdEvents) "R"
          = some { newRoom with player1 := some "p2", connections := [("", 1), ("p2", 2)] }
      ∧ Effect.send 2 (Msg.playerNumber 1 (some "p2"))
          ∈ (handleJoin (handleJoin [] 1 "R" "").rooms 2 "R" "p2").effects
      ∧ (handleJoin (handleJoin [] 1 "R" "").rooms 2 "R" "p2").effects.any Effect.isStart
          = false
      ∧ JsObj.get ([] : Registry) "constructor" = none
      ∧ handleJoin [] 1 "constructor" "p1" = { rooms := [], effects := [], threw := true }
      ∧ (handleJoin (handleJoin [] 1 "R" "__proto__").rooms 2 "R" "p2").effects.filter
            Effect.isStart
          = [Effect.send 2 (Msg.start "Both players connected!")]
      ∧ (handleJoin (handleJoin [] 1 "R" "p1").rooms 2 "R" "__proto__").effects.filter
            Effect.isStart
          = [Effect.send 1 (Msg.start "Both players connected!")] := by
  decide

/-- C11, amended. For every room id absent from the registry that names no
property inherited from `Object.prototype`, and every two distinct non-empty
player ids `p1`, `p2` other than "__proto__" on distinct connections `ws1`,
`ws2`: after `handleJoin(ws1, R, p1)` followed by `handleJoin(ws2, R, p2)`,
`player1 = p1` and `player2 = p2`; the first join sends `ws1` its
`playerNumber` 1 and a `syncState` and nothing else, so no `start`; the
second join sends `ws2` its `playerNumber` 2 and a `syncState`, and then
`start` exactly once to each of `ws1` and `ws2`. -/
theorem handleJoin_two_players (rooms : Registry) (roomId : RoomId) (p1 p2 : PlayerId)
    (ws1 ws2 : Conn) (habs : JsObj.get rooms roomId = none) (hid : inheritedName roomId = false)
    (hne : p1 ≠ p2) (hws : ws1 ≠ ws2)
    (h1 : p1 ≠ "") (h2 : p2 ≠ "") (hq1 : p1 ≠ "__proto__") (hq2 : p2 ≠ "__proto__") :
    (∃ room, JsObj.get (handleJoin (handleJoin rooms ws1 roomId p1).rooms ws2 roomId p2).rooms
          roomId = some room
        ∧ room.player1 = some p1 ∧ room.player2 = some p2)
      ∧ (∃ snap, (handleJoin rooms ws1 roomId p1).effects
          = [Effect.send ws1 (Msg.playerNumber 1 (some p1)), Effect.send ws1 (Msg.syncState snap)])
      ∧ (∃ snap starts, (handleJoin (handleJoin rooms ws1 roomId p1).rooms ws2 roomId p2).effects
          = [Effect.send ws2 (Msg.playerNumber 2 (some p2)), Effect.send ws2 (Msg.syncState snap)]
            ++ starts
        ∧ (starts = [Effect.send ws1 (Msg.start "Both players connected!"),
              Effect.send ws2 (Msg.start "Both players connected!")]
          ∨ starts = [Effect.send ws2 (Msg.start "Both players connected!"),
              Effect.send ws1 (Msg.start "Both players connected!")]))
      ∧ (handleJoin rooms ws1 roomId p1).threw = false
      ∧ (handleJoin (handleJoin rooms ws1 roomId p1).rooms ws2 roomId p2).threw = false := by
  have _ := hws
  have hb := builtinRoom_of_not_inherited rooms roomId hid
  have hroom : roomAt rooms roomId = newRoom := by simp [roomAt, habs]
  have hfirst := handleJoin_admitted rooms ws1 roomId p1 0 hb
    (by rw [hroom]; exact winnerOf_emptyBoard) (by rw [hroom]; rfl)
  have hreg1 : newRoom.register p1 ws1 = { newRoom with connections := [(p1, ws1)] } := by
    have hs : JsObj.set newRoom.connections p1 ws1 = [(p1, ws1)] := set_nil p1 ws1 hq1
    simp [Room.register, hq1, hs]
  have hget1 := handleJoin_fresh rooms ws1 roomId p1 habs hid
  rw [hreg1] at hget1
  generalize (handleJoin rooms ws1 roomId p1).rooms = rooms1 at hget1
  have hroom1 := roomAt_of_get rooms1 roomId _ hget1
  have hens1 := ensureRoom_of_get rooms1 roomId _ hget1
  have hsecond := handleJoin_admitted rooms1 ws2 roomId p2 0
    (builtinRoom_of_get rooms1 roomId _ hget1)
    (by rw [hroom1]; exact winnerOf_emptyBoard)
    (by rw [hroom1]; show (truthy (some p1) && truthy none) = false; simp [truthy])
  rw [hroom1, hens1] at hsecond
  have hj : ({ newRoom with player1 := some p1, connections := [(p1, ws1)] } : Room).joined ws2 p2
      = { newRoom with
          player1 := some p1, player2 := some p2,
          connections := JsObj.set [(p1, ws1)] p2 ws2 } := by
    simp [Room.joined, Room.register, hq2, truthy, h1, newRoom]
  have hn : joinNumber { newRoom with player1 := some p1, connections := [(p1, ws1)] } ws2 p2
      = [Effect.send ws2 (Msg.playerNumber 2 (some p2))] := by
    simp [joinNumber, truthy, h1, newRoom]
  rw [hj, hn] at hsecond
  refine ⟨?_, ?_, ?_, ?_, ?_⟩
  · rw [hsecond]
    exact ⟨_, get_replace_of_get rooms1 roomId _ _ hget1, rfl, rfl⟩
  · rw [hfirst, hroom]
    refine ⟨joinSnapshot (newRoom.joined ws1 p1) 0 newRoom.moveCnt, ?_⟩
    have tn : truthy newRoom.player1 = false := rfl
    have tj : (newRoom.joined ws1 p1).player2 = none := by
      simp only [Room.joined, tn, Bool.not_false, if_true]
      exact (register_frame newRoom p1 ws1).2.1
    have tnone : truthy none = false := rfl
    simp only [joinNumber, joinStart, tn, tj, tnone, Bool.not_false, if_true, Bool.and_false,
      Bool.false_eq_true, if_false, List.append_nil]
    rfl
  · rw [hsecond]
    refine ⟨_, _, rfl, ?_⟩
    simp only [joinStart, truthy_some p1 h1, truthy_some p2 h2, Bool.and_self, if_true]
    rcases set_singleton_ne p1 p2 ws1 ws2 (Ne.symm hne) hq2 with h | h
    · rw [h]
      exact Or.inl rfl
    · rw [h]
      exact Or.inr rfl
  · rw [hfirst]
  · rw [hsecond]

/-- C11, amended, at the empty registry: "p1" joins room "R1" on connection
1, then "p2" on connection 2. -/
theorem handleJoin_two_players_witness :
    (∃ room, JsObj.get (handleJoin (handleJoin [] 1 "R1" "p1").rooms 2 "R1" "p2").rooms "R1"
          = some room
        ∧ room.player1 = some "p1" ∧ room.player2 = some "p2")
      ∧ (∃ snap, (handleJoin [] 1 "R1" "p1").effects
          = [Effect.send 1 (Msg.playerNumber 1 (some "p1")), Effect.send 1 (Msg.syncState snap)])
      ∧ (∃ snap starts, (handleJoin (handleJoin [] 1 "R1" "p1").rooms 2 "R1" "p2").effects
          = [Effect.send 2 (Msg.playerNumber 2 (some "p2")), Effect.send 2 (Msg.syncState snap)]
            ++ starts
        ∧ (starts = [Effect.send 1 (Msg.start "Both players connected!"),
              Effect.send 2 (Msg.start "Both players connected!")]
          ∨ starts = [Effect.send 2 (Msg.start "Both players connected!"),
              Effect.send 1 (Msg.start "Both players connected!")]))
      ∧ (handleJoin [] 1 "R1" "p1").threw = false
      ∧ (handleJoin (handleJoin [] 1 "R1" "p1").rooms 2 "R1" "p2").threw = false :=
  handleJoin_two_players [] "R1" "p1" "p2" 1 2 (by decide) (by decide) (by decide) (by decide)
    (by decide) (by decide) (by decide) (by decide)

/-! ## Reconnection sync -/

/-- The outcome of `handleSyncState`, whatever the registry, the connection
and the room identifier: `room.board` is `undefined`, the first `checkWin`
raises, nothing is sent. -/
theorem handleSyncState_outcome (rooms : Registry) (ws : Conn) (roomId : RoomId) :
    handleSyncState rooms ws roomId = { rooms := rooms, effects := [], threw := true } := rfl

/-- C12 does not hold of the code. In the registry `seatedRegistry` the room
"R1" exists, yet `handleSyncState(1, "R1")` raises (line 221 indexes
`room.board`, where `room` is the room identifier) and sends no `syncState`,
to connection 1 or to any other; the registry is left unchanged. -/
theorem handleSyncState_raises_on_existing_room :
    JsObj.get seatedRegistry "R1" = some seatedRoom
      ∧ handleSyncState seatedRegistry 1 "R1"
        = { rooms := seatedRegistry, effects := [], threw := true }
      ∧ (handleSyncState seatedRegistry 1 "R1").effects.any Effect.isSync = false :=
  ⟨by decide, handleSyncState_outcome seatedRegistry 1 "R1", by decide⟩

/-! ## The move count -/

theorem counted_newRoom : newRoom.counted := by
  refine ⟨?_, ?_, ?_⟩ <;> decide

/-- C13, as stated, fails. After a join and one `move` that submits the move
count 41 with a board of one filled cell (both handled without raising), the
room's `moveCnt` is 42: outside [0,9], and not the number of non-zero cells
of the room's board, which is 1. -/
theorem moveCnt_miscount_counterexample :
    Reachable (run [] miscountEvents)
      ∧ completes [] miscountEvents = true
      ∧ ∃ room, JsObj.get (run [] miscountEvents) "R1" = some room
          ∧ room.moveCnt = 42 ∧ ¬ room.moveCnt ≤ 9 ∧ filledCells room.board = 1 :=
  ⟨reachable_run miscountEvents, by decide,
    { newRoom with
      player1 := some "p1", connections := [("p1", 1)],
      board := [[1, 0, 0], [0, 0, 0], [0, 0, 0]], turnPlayer := 2, moveCnt := 42 },
    by decide, by decide, by decide, by decide⟩

/-- C13, amended. In every room state reachable from the empty registry by
any sequence of handled events (join, checkJoin, move, playAgain,
switchRequest, message, syncState, disconnect) in which every `move` submits
a `moveCnt` and a board such that `moveCnt + 1` lies in [0,9] and equals the
number of non-zero cells of the board, `moveCnt` is an integer in [0,9] and
equals the number of non-zero cells of the room's board. -/
theorem reachable_counted (rooms : Registry) (h : ReachableVia countedMoves rooms)
    (roomId : RoomId) (room : Room) (hget : JsObj.get rooms roomId = some room) :
    0 ≤ room.moveCnt ∧ room.moveCnt ≤ 9 ∧ room.moveCnt = filledCells room.board := by
  have hall : AllRooms Room.counted rooms := by
    clear hget
    induction h with
    | init =>
      intro e he
      simp at he
    | step rooms e _ hok ih =>
      refine dispatch_allRooms Room.counted countedMoves ?_ ?_ ?_ ?_ ?_ ?_ ?_
        ?_ ?_ rooms e hok ih
      · intro r r' _ _ hb _ hm hr
        unfold Room.counted
        rw [hb, hm]
        exact hr
      · exact counted_newRoom
      · intro rooms ws roomId p _ hall _
        exact allRooms_roomAt _ rooms roomId hall counted_newRoom
      · intro rooms ws roomId p _ hall _ _
        exact allRooms_roomAt _ rooms roomId hall counted_newRoom
      · intro rooms roomId board turnPlayer moveCnt hok r _
        have hok' : 0 ≤ moveCnt + 1 ∧ moveCnt + 1 ≤ 9 ∧ moveCnt + 1 = filledCells board := hok
        have hinc : jsInc moveCnt = moveCnt + 1 :=
          jsInc_of_safe moveCnt (by omega) (by omega)
        show 0 ≤ jsInc moveCnt ∧ jsInc moveCnt ≤ 9 ∧ jsInc moveCnt = filledCells board
        rw [hinc]
        exact hok'
      · intro r _
        exact counted_newRoom
      · intro r hr
        exact hr
      · intro r hr
        exact hr
      · intro r hr
        exact hr
  exact allRooms_get _ rooms roomId room hall hget

/-- C13, amended, at the registry after `openingEvents`: the first move
submits the count 0 with a board of one filled cell. -/
theorem reachable_counted_witness :
    JsObj.get (run [] openingEvents) "R1" = some openingRoom
      ∧ 0 ≤ openingRoom.moveCnt ∧ openingRoom.moveCnt ≤ 9
      ∧ openingRoom.moveCnt = filledCells openingRoom.board :=
  ⟨by decide,
    reachable_counted (run [] openingEvents)
      (reachableVia_run countedMoves [] openingEvents ReachableVia.init
        ⟨trivial, trivial, ⟨by decide, by decide, by decide⟩, trivial⟩)
      "R1" openingRoom (by decide)⟩

/-! ## Completion of the handlers -/

theorem handleJoin_threw (rooms : Registry) (ws : Conn) (roomId : RoomId) (p : PlayerId)
    (w : Int) (hb : builtinRoom rooms roomId = false)
    (hw : winnerOf (roomAt rooms roomId).board = some w) :
    (handleJoin rooms ws roomId p).threw = false := by
  cases hadm : (truthy (roomAt rooms roomId).player1 && truthy (roomAt rooms roomId).player2) with
  | false => rw [handleJoin_admitted rooms ws roomId p w hb hw hadm]
  | true =>
    obtain ⟨f1, f2, f3, -⟩ := register_frame (roomAt rooms roomId) p ws
    unfold handleJoin
    simp only [hb, f1, f2, f3, hw, hadm, if_true, Bool.false_eq_true, if_false]

theorem checkRoom_threw (rooms : Registry) (ws : Conn) (roomId : RoomId) (p : PlayerId)
    (hb : builtinRoom rooms roomId = false) :
    (checkRoom rooms ws roomId p).threw = false := by
  unfold checkRoom
  simp only [hb, Bool.false_eq_true, if_false]
  split <;> rfl

theorem handleMessage_threw (rooms : Registry) (roomId : RoomId) (text : String) (room : Room)
    (hget : JsObj.get rooms roomId = some room) :
    (handleMessage rooms roomId text).threw = false := by
  simp [handleMessage, broadcast, hget]

theorem handlePlayAgain_threw (rooms : Registry) (roomId : RoomId) (p : PlayerId) (room : Room)
    (hget : JsObj.get rooms roomId = some room) :
    (handlePlayAgain rooms roomId p).threw = false := by
  by_cases h : flagged (JsObj.set room.readyToPlayAgain p true) (propKey room.player1) = true
      ∧ flagged (JsObj.set room.readyToPlayAgain p true) (propKey room.player2) = true
  · rw [handlePlayAgain_reset rooms roomId room p hget h.1 h.2]
  · rw [handlePlayAgain_wait rooms roomId room p hget h]

theorem handleSwitchRequest_threw (rooms : Registry) (roomId : RoomId) (p : PlayerId)
    (room : Room) (hget : JsObj.get rooms roomId = some room)
    (h1 : (room.sendTarget (propKey room.player1)).isSome = true)
    (h2 : (room.sendTarget (propKey room.player2)).isSome = true) :
    (handleSwitchRequest rooms roomId p).threw = false := by
  obtain ⟨c1, hc1⟩ := Option.isSome_iff_exists.mp h1
  obtain ⟨c2, hc2⟩ := Option.isSome_iff_exists.mp h2
  have hc1' : ∀ (o : Option (JsObj Bool)) (q1 q2 : Option PlayerId),
      ({ room with switchRequests := o, player1 := q1, player2 := q2 } : Room).sendTarget
        (propKey room.player1) = some c1 := fun _ _ _ => hc1
  have hc2' : ∀ (o : Option (JsObj Bool)) (q1 q2 : Option PlayerId),
      ({ room with switchRequests := o, player1 := q1, player2 := q2 } : Room).sendTarget
        (propKey room.player2) = some c2 := fun _ _ _ => hc2
  unfold handleSwitchRequest
  simp only [hget]
  split
  · rw [hc2', hc1']
    simp only
    rw [broadcast_replace rooms roomId room _ _ hget]
  · rfl

theorem reachable_tested (rooms : Registry) (h : ReachableVia testedMoves rooms) :
    AllRooms (fun r => winnerOf r.board ≠ none) rooms := by
  have hnew : winnerOf emptyBoard ≠ none := by decide
  induction h with
  | init =>
    intro e he
    simp at he
  | step rooms e _ hok ih =>
    refine dispatch_allRooms (fun r => winnerOf r.board ≠ none) testedMoves ?_ ?_ ?_ ?_ ?_ ?_ ?_
      ?_ ?_ rooms e hok ih
    · intro r r' _ _ hb _ _ hr
      show winnerOf r'.board ≠ none
      rw [hb]
      exact hr
    · exact hnew
    · intro rooms ws roomId p _ hall _
      exact allRooms_roomAt _ rooms roomId hall hnew
    · intro rooms ws roomId p _ hall _ _
      exact allRooms_roomAt _ rooms roomId hall hnew
    · intro rooms roomId board turnPlayer moveCnt hok r _
      exact hok
    · intro r _
      exact hnew
    · intro r hr
      exact hr
    · intro r hr
      exact hr
    · intro r hr
      exact hr

/-- C14, as stated, fails. The empty registry is reachable and holds no room
"R1": there `move`, `switchRequest`, `message` and `playAgain` naming "R1"
each raise. After a join of "a" alone and the switch requests of "a" and of
the id "null" (all three completing), the swap commits on the key of the
empty slot and raises for want of a connection entry. In the empty registry
`join` and `checkJoin` naming the room "constructor" raise: they find the
inherited function there. After a join to "R1", the `move` that submits the
one-row board [[0,0,0]] raises in `checkWin`; and after `oddBoardSoloEvents`
(a join and the move, completing, that stores the one-row board [[2,2,2]])
the join of a second player to "R1" raises in `checkWin`. -/
theorem unknown_room_raises_counterexample :
    Reachable []
      ∧ (dispatch [] (Event.move "R1" emptyBoard 1 0)).threw = true
      ∧ (dispatch [] (Event.switchRequest "R1" "p1")).threw = true
      ∧ (dispatch [] (Event.message "R1" "hello")).threw = true
      ∧ (dispatch [] (Event.playAgain "R1" "p1")).threw = true
      ∧ Reachable (run [] [Event.join 1 "R" "a", Event.switchRequest "R" "a"])
      ∧ completes [] [Event.join 1 "R" "a", Event.switchRequest "R" "a"] = true
      ∧ (dispatch (run [] [Event.join 1 "R" "a", Event.switchRequest "R" "a"])
          (Event.switchRequest "R" "null")).threw = true
      ∧ (dispatch [] (Event.join 1 "constructor" "p1")).threw = true
      ∧ (dispatch [] (Event.checkJoin 1 "constructor" "p1")).threw = true
      ∧ Reachable (run [] [Event.join 1 "R1" "p1"])
      ∧ completes [] [Event.join 1 "R1" "p1"] = true
      ∧ (dispatch (run [] [Event.join 1 "R1" "p1"]) (Event.move "R1" [[0, 0, 0]] 1 0)).threw = true
      ∧ Reachable (run [] oddBoardSoloEvents)
      ∧ completes [] oddBoardSoloEvents = true
      ∧ (dispatch (run [] oddBoardSoloEvents) (Event.join 2 "R1" "p2")).threw = true :=
  ⟨ReachableVia.init, by decide, by decide, by decide, by decide,
    reachable_run [Event.join 1 "R" "a", Event.switchRequest "R" "a"], by decide, by decide,
    by decide, by decide, reachable_run [Event.join 1 "R1" "p1"], by decide, by decide,
    reachable_run oddBoardSoloEvents, by decide, by decide⟩

/-- C14, amended. For every registry state reachable from the empty registry
by events whose moves submit boards on which the win test of `handleJoin`
raises nothing (as on every 3x3 grid), and every decoded inbound event of
one of the kinds join, checkJoin, move, switchRequest, message and
playAgain, with an arbitrary player id: the event's handler runs to
completion without raising, provided that for join and checkJoin the room
exists or its id names no property inherited from `Object.prototype`, that
for move, switchRequest, message and playAgain a room exists under the room
id, that for move `checkWin` raises nothing on the submitted board for the
mover (as on every 3x3 grid), and that for switchRequest `connections` gives
a connection under the keys of both slots of that room. -/
theorem dispatch_completes (rooms : Registry) (h : ReachableVia testedMoves rooms) (e : Event)
    (he : servable rooms e) : (dispatch rooms e).threw = false := by
  have htested := reachable_tested rooms h
  cases e with
  | join ws roomId p =>
    obtain ⟨w, hw⟩ := winnerOf_ne_none (roomAt rooms roomId).board
      (allRooms_roomAt _ rooms roomId htested (by decide))
    exact handleJoin_threw rooms ws roomId p w he hw
  | checkJoin ws roomId p => exact checkRoom_threw rooms ws roomId p he
  | move roomId board turnPlayer moveCnt =>
    obtain ⟨hb, r, hget⟩ := he
    cases hw : checkWin board turnPlayer with
    | none => exact absurd hw hb
    | some win =>
      show (handleMove rooms roomId board turnPlayer moveCnt).threw = false
      rw [handleMove_of_checkWin rooms roomId r board turnPlayer moveCnt win hget hw]
  | switchRequest roomId p =>
    obtain ⟨r, hget, h1, h2⟩ := he
    exact handleSwitchRequest_threw rooms roomId p r hget h1 h2
  | message roomId text =>
    obtain ⟨r, hget⟩ := he
    exact handleMessage_threw rooms roomId text r hget
  | playAgain roomId p =>
    obtain ⟨r, hget⟩ := he
    exact handlePlayAgain_threw rooms roomId p r hget
  | syncState ws roomId => exact absurd he (fun hf => hf)
  | other => rfl
  | close ws => rfl

/-- C14, amended, at the registry after `openingEvents`, for the second move
of the game in room "R1". -/
theorem dispatch_completes_witness :
    JsObj.get (run [] openingEvents) "R1" = some openingRoom
      ∧ (dispatch (run [] openingEvents)
          (Event.move "R1" [[1, 2, 0], [0, 0, 0], [0, 0, 0]] 2 1)).threw = false :=
  ⟨by decide,
    dispatch_completes (run [] openingEvents)
      (reachableVia_run testedMoves [] openingEvents ReachableVia.init
        ⟨trivial, trivial,
          (by decide : winnerOf [[1, 0, 0], [0, 0, 0], [0, 0, 0]] ≠ none), trivial⟩)
      (Event.move "R1" [[1, 2, 0], [0, 0, 0], [0, 0, 0]] 2 1)
      ⟨(by decide : checkWin [[1, 2, 0], [0, 0, 0], [0, 0, 0]] 2 ≠ none), openingRoom,
        by decide⟩⟩

/-! ## Joining a full room under a seated id -/

/-- C15 does not hold of the code. In the room "R1" of `seatedRegistry`
both slots are occupied and "p1" is one of the two occupants;
`handleJoin(3, "R1", "p1")` on the new connection 3 is rejected like the join
of a third player: connection 3 is sent `error` and closed, and no
`syncState` is sent. The handle of "p1" in `connections` has by then been
overwritten with connection 3 (line 97 runs before the full-room test of
line 115), so the close of connection 3 that the rejection causes empties
the slot of "p1" and removes its entry. -/
theorem handleJoin_seated_rejoin_rejected :
    JsObj.get seatedRegistry "R1" = some seatedRoom
      ∧ truthy seatedRoom.player1 = true ∧ truthy seatedRoom.player2 = true
      ∧ seatedRoom.player1 = some "p1"
      ∧ (handleJoin seatedRegistry 3 "R1" "p1").effects
        = [Effect.send 3 (Msg.error "Room is full. You will be redirected to the homepage."),
            Effect.close 3]
      ∧ (handleJoin seatedRegistry 3 "R1" "p1").effects.any Effect.isSync = false
      ∧ (handleJoin seatedRegistry 3 "R1" "p1").threw = false
      ∧ (handleJoin seatedRegistry 3 "R1" "p1").rooms
        = [("R1", { seatedRoom with connections := [("p1", 3), ("p2", 2)] })]
      ∧ (handleDisconnect (handleJoin seatedRegistry 3 "R1" "p1").rooms 3).rooms
        = [("R1", { seatedRoom with player1 := none, connections := [("p2", 2)] })] := by
  decide

/-! ## Pre-join admission -/

theorem get_ensureRoom_ne (rooms : Registry) (roomId k : RoomId) (hne : k ≠ roomId) :
    JsObj.get (ensureRoom rooms roomId) k = JsObj.get rooms k := by
  unfold ensureRoom
  split
  · rfl
  · exact JsObj.get_set_ne rooms roomId k newRoom hne

/-- C16, as stated, fails. In the empty registry `checkRoom(1,
"constructor", "p")` neither rejects nor admits: `rooms["constructor"]` is
the function inherited from `Object.prototype`, no room is created, line 64
raises and nothing is sent. And `checkRoom(1, "R", "__proto__")` sends
`joinAllowed` but stores no entry in `connections`: the assignment makes the
handle the prototype of `connections`. -/
theorem checkRoom_inherited_counterexample :
    (checkRoom [] 1 "constructor" "p").threw = true
      ∧ (checkRoom [] 1 "constructor" "p").effects = []
      ∧ (checkRoom [] 1 "constructor" "p").rooms = []
      ∧ (checkRoom [] 1 "R" "__proto__").effects
        = [Effect.send 1 (Msg.joinAllowed "Room is free to join.")]
      ∧ (checkRoom [] 1 "R" "__proto__").rooms
        = [("R", { newRoom with connectionsProto := some 1 })]
      ∧ ({ newRoom with connectionsProto := some 1 } : Room).connections = [] := by
  decide

/-- C16, amended. For every registry state, room id that names no property
inherited from `Object.prototype`, player id other than "__proto__" and
connection `ws`: `checkRoom` rejects if and only if the room already exists
with two or more entries in `connections`; a rejection sends only
`joinNotAllowed` to `ws`, closes `ws` and leaves the registry unchanged;
otherwise `checkRoom` stores `ws` under the player id in the room's
`connections` (the new room's, if none existed) and sends only `joinAllowed`
to `ws`. In both cases the rooms under other ids are what they were, and the
room named keeps its `player1`, `player2`, `board`, `turnPlayer` and
`moveCnt` (for a room created by the call: both slots empty, all-zero board,
`turnPlayer` 1, `moveCnt` 0). -/
theorem checkRoom_admission (rooms : Registry) (ws : Conn) (roomId : RoomId) (p : PlayerId)
    (hid : inheritedName roomId = false) (hp : p ≠ "__proto__") :
    ((∃ room, JsObj.get rooms roomId = some room ∧ 2 ≤ (JsObj.keys room.connections).length) ↔
        (checkRoom rooms ws roomId p).effects
          = [Effect.send ws (Msg.joinNotAllowed "Room is full."), Effect.close ws])
      ∧ ((∃ room, JsObj.get rooms roomId = some room ∧ 2 ≤ (JsObj.keys room.connections).length) →
        checkRoom rooms ws roomId p
          = { rooms := rooms,
              effects := [Effect.send ws (Msg.joinNotAllowed "Room is full."), Effect.close ws],
              threw := false })
      ∧ (¬ (∃ room, JsObj.get rooms roomId = some room
              ∧ 2 ≤ (JsObj.keys room.connections).length) →
        (checkRoom rooms ws roomId p).effects
            = [Effect.send ws (Msg.joinAllowed "Room is free to join.")]
          ∧ (checkRoom rooms ws roomId p).threw = false
          ∧ ∃ room0, (JsObj.get rooms roomId = some room0
                ∨ (JsObj.get rooms roomId = none
                  ∧ room0 = { player1 := none, player2 := none,
                              board := [[0, 0, 0], [0, 0, 0], [0, 0, 0]], turnPlayer := 1,
                              readyToPlayAgain := [], connections := [], moveCnt := 0,
                              switchRequests := none, connectionsProto := none }))
              ∧ JsObj.get (checkRoom rooms ws roomId p).rooms roomId
                = some { room0 with connections := JsObj.set room0.connections p ws })
      ∧ ∀ k, k ≠ roomId → JsObj.get (checkRoom rooms ws roomId p).rooms k = JsObj.get rooms k := by
  have hb := builtinRoom_of_not_inherited rooms roomId hid
  have hfull : ∀ room, JsObj.get rooms roomId = some room →
      2 ≤ (JsObj.keys room.connections).length →
      checkRoom rooms ws roomId p
        = { rooms := rooms,
            effects := [Effect.send ws (Msg.joinNotAllowed "Room is full."), Effect.close ws],
            threw := false } := by
    intro room hget hlen
    unfold checkRoom
    simp only [hb, roomAt_of_get rooms roomId room hget, ensureRoom_of_get rooms roomId room hget,
      hlen, if_true, Bool.false_eq_true, if_false]
  have hfree : ¬ (∃ room, JsObj.get rooms roomId = some room
        ∧ 2 ≤ (JsObj.keys room.connections).length) →
      checkRoom rooms ws roomId p
        = { rooms := JsObj.replace (ensureRoom rooms roomId) roomId
              { roomAt rooms roomId with
                connections := JsObj.set (roomAt rooms roomId).connections p ws },
            effects := [Effect.send ws (Msg.joinAllowed "Room is free to join.")],
            threw := false } := by
    intro hno
    have hlen : ¬ 2 ≤ (JsObj.keys (roomAt rooms roomId).connections).length := by
      intro hlen
      cases hget : JsObj.get rooms roomId with
      | none =>
        have hroom : roomAt rooms roomId = newRoom := by simp [roomAt, hget]
        rw [hroom] at hlen
        exact absurd hlen (by decide)
      | some room =>
        rw [roomAt_of_get rooms roomId room hget] at hlen
        exact hno ⟨room, hget, hlen⟩
    unfold checkRoom
    simp only [hb, hlen, if_false, Bool.false_eq_true, Room.register, hp]
  refine ⟨⟨?_, ?_⟩, ?_, ?_, ?_⟩
  · rintro ⟨room, hget, hlen⟩
    rw [hfull room hget hlen]
  · intro heff
    by_contra hno
    rw [hfree hno] at heff
    simp at heff
  · rintro ⟨room, hget, hlen⟩
    exact hfull room hget hlen
  · intro hno
    rw [hfree hno]
    refine ⟨rfl, rfl, roomAt rooms roomId, ?_, get_replace_ensureRoom rooms roomId _ hb⟩
    cases hget : JsObj.get rooms roomId with
    | none => exact Or.inr ⟨rfl, by simp [roomAt, hget]; rfl⟩
    | some room => exact Or.inl (by rw [roomAt_of_get rooms roomId room hget])
  · intro k hk
    by_cases hex : ∃ room, JsObj.get rooms roomId = some room
        ∧ 2 ≤ (JsObj.keys room.connections).length
    · obtain ⟨room, hget, hlen⟩ := hex
      rw [hfull room hget hlen]
    · rw [hfree hex]
      show JsObj.get (JsObj.replace (ensureRoom rooms roomId) roomId _) k = JsObj.get rooms k
      rw [JsObj.get_replace_ne _ roomId k _ hk, get_ensureRoom_ne rooms roomId k hk]

/-- C16, amended, at `seatedRegistry` for the pre-join check of "p3" on
connection 3, which the full room "R1" rejects. -/
theorem checkRoom_admission_witness :
    ((∃ room, JsObj.get seatedRegistry "R1" = some room
          ∧ 2 ≤ (JsObj.keys room.connections).length) ↔
        (checkRoom seatedRegistry 3 "R1" "p3").effects
          = [Effect.send 3 (Msg.joinNotAllowed "Room is full."), Effect.close 3])
      ∧ ((∃ room, JsObj.get seatedRegistry "R1" = some room
          ∧ 2 ≤ (JsObj.keys room.connections).length) →
        checkRoom seatedRegistry 3 "R1" "p3"
          = { rooms := seatedRegistry,
              effects := [Effect.send 3 (Msg.joinNotAllowed "Room is full."), Effect.close 3],
              threw := false })
      ∧ (¬ (∃ room, JsObj.get seatedRegistry "R1" = some room
              ∧ 2 ≤ (JsObj.keys room.connections).length) →
        (checkRoom seatedRegistry 3 "R1" "p3").effects
            = [Effect.send 3 (Msg.joinAllowed "Room is free to join.")]
          ∧ (checkRoom seatedRegistry 3 "R1" "p3").threw = false
          ∧ ∃ room0, (JsObj.get seatedRegistry "R1" = some room0
                ∨ (JsObj.get seatedRegistry "R1" = none
                  ∧ room0 = { player1 := none, player2 := none,
                              board := [[0, 0, 0], [0, 0, 0], [0, 0, 0]], turnPlayer := 1,
                              readyToPlayAgain := [], connections := [], moveCnt := 0,
                              switchRequests := none, connectionsProto := none }))
              ∧ JsObj.get (checkRoom seatedRegistry 3 "R1" "p3").rooms "R1"
                = some { room0 with connections := JsObj.set room0.connections "p3" 3 })
      ∧ ∀ k, k ≠ "R1" →
        JsObj.get (checkRoom seatedRegistry 3 "R1" "p3").rooms k = JsObj.get seatedRegistry k :=
  checkRoom_admission seatedRegistry 3 "R1" "p3" (by decide) (by decide)

/-! ## A repeated rematch signal -/

theorem replace_same {α : Type} (o : JsObj α) (k : String) (v : α)
    (h : JsObj.get o k = some v) : JsObj.replace o k v = o := by
  induction o with
  | nil => rfl
  | cons e o ih =>
    obtain ⟨k0, v0⟩ := e
    by_cases hk : k0 = k
    · subst hk
      simp only [JsObj.get, if_true, Option.some.injEq] at h
      simp [JsObj.replace, h]
    · simp only [JsObj.get, hk, if_false] at h
      simp [JsObj.replace, hk, ih h]

theorem set_of_get {α : Type} (o : JsObj α) (k : String) (v : α)
    (h : JsObj.get o k = some v) : JsObj.set o k v = o := by
  have hhas : JsObj.has o k = true := by simp [JsObj.has, h]
  unfold JsObj.set
  split
  · rfl
  · exact replace_same o k v h

theorem set_set_same {α : Type} (o : JsObj α) (k : String) (v : α) :
    JsObj.set (JsObj.set o k v) k v = JsObj.set o k v := by
  by_cases hk : k = "__proto__"
  · rw [hk, JsObj.set_proto, JsObj.set_proto]
  · exact set_of_get _ k v (JsObj.get_set_self o k v hk)

/-- C17, as stated, fails. In the room "R" after `inheritedIdEvents` the
slots hold the distinct ids "p1" and "constructor", and "constructor" is not
recorded in `readyToPlayAgain`; yet `handlePlayAgain("R", "p1")` resets the
room and sends `reset` to both connections, the first time and the second:
the sequences of sent messages are not empty. -/
theorem repeated_signal_resets_counterexample :
    run [] inheritedIdEvents = [("R", inheritedIdRoom)]
      ∧ inheritedIdRoom.player1 = some "p1" ∧ inheritedIdRoom.player2 = some "constructor"
      ∧ JsObj.get inheritedIdRoom.readyToPlayAgain "constructor" = none
      ∧ (handlePlayAgain [("R", inheritedIdRoom)] "R" "p1").effects
        = [Effect.send 1 Msg.reset, Effect.send 2 Msg.reset]
      ∧ (handlePlayAgain (handlePlayAgain [("R", inheritedIdRoom)] "R" "p1").rooms "R" "p1").effects
        = [Effect.send 1 Msg.reset, Effect.send 2 Msg.reset] := by
  decide

/-- C17, amended. For every existing room whose two slots hold distinct
player ids `p1` and `p2`, where `p2` names no property inherited from
`Object.prototype` and is not recorded in `readyToPlayAgain`: applying
`handlePlayAgain(room, p1)` twice in a row yields the same registry state
and the same (empty) sequence of sent messages as applying it once. -/
theorem handlePlayAgain_idempotent (rooms : Registry) (roomId : RoomId) (room : Room)
    (p1 p2 : PlayerId) (hget : JsObj.get rooms roomId = some room)
    (hp1 : room.player1 = some p1) (hp2 : room.player2 = some p2) (hne : p1 ≠ p2)
    (hi2 : inheritedName p2 = false)
    (hrec : JsObj.get room.readyToPlayAgain p2 ≠ some true) :
    (handlePlayAgain (handlePlayAgain rooms roomId p1).rooms roomId p1).rooms
        = (handlePlayAgain rooms roomId p1).rooms
      ∧ (handlePlayAgain rooms roomId p1).effects = []
      ∧ (handlePlayAgain (handlePlayAgain rooms roomId p1).rooms roomId p1).effects = []
      ∧ (handlePlayAgain rooms roomId p1).threw = false
      ∧ (handlePlayAgain (handlePlayAgain rooms roomId p1).rooms roomId p1).threw = false := by
  have _ := hp1
  have hnot : flagged room.readyToPlayAgain p2 = false := by
    cases hf : flagged room.readyToPlayAgain p2 with
    | false => rfl
    | true => exact absurd ((flagged_iff_get _ p2 hi2).mp hf) hrec
  have key2 : propKey room.player2 = p2 := by rw [hp2]; rfl
  have hwait1 : handlePlayAgain rooms roomId p1 =
      { rooms := JsObj.replace rooms roomId (room.signalled p1), effects := [],
        threw := false } := by
    apply handlePlayAgain_wait rooms roomId room p1 hget
    rintro ⟨_, f2⟩
    rw [key2, flagged_set_ne _ p1 p2 (Ne.symm hne), hnot] at f2
    cases f2
  have hget' : JsObj.get (JsObj.replace rooms roomId (room.signalled p1)) roomId
      = some (room.signalled p1) := get_replace_of_get rooms roomId room _ hget
  have hsame : (room.signalled p1).signalled p1 = room.signalled p1 := by
    simp only [Room.signalled, set_set_same]
  have hwait2 : handlePlayAgain (JsObj.replace rooms roomId (room.signalled p1)) roomId p1 =
      { rooms := JsObj.replace (JsObj.replace rooms roomId (room.signalled p1)) roomId
          ((room.signalled p1).signalled p1),
        effects := [], threw := false } := by
    apply handlePlayAgain_wait _ roomId (room.signalled p1) p1 hget'
    rintro ⟨_, f2⟩
    have hk : propKey (room.signalled p1).player2 = p2 := key2
    rw [hk, flagged_set_ne _ p1 p2 (Ne.symm hne)] at f2
    have hf : flagged (room.signalled p1).readyToPlayAgain p2 = false := by
      show flagged (JsObj.set room.readyToPlayAgain p1 true) p2 = false
      rw [flagged_set_ne _ p1 p2 (Ne.symm hne), hnot]
    rw [hf] at f2
    cases f2
  rw [hwait1]
  show (handlePlayAgain (JsObj.replace rooms roomId (room.signalled p1)) roomId p1).rooms = _
    ∧ _ ∧ (handlePlayAgain (JsObj.replace rooms roomId (room.signalled p1)) roomId p1).effects = _
    ∧ _ ∧ (handlePlayAgain (JsObj.replace rooms roomId (room.signalled p1)) roomId p1).threw = _
  rw [hwait2, hsame, replace_replace]
  exact ⟨rfl, rfl, rfl, rfl, rfl⟩

/-- C17, amended, at the room "R1" of `seatedRegistry`, where nobody is
recorded, with "p1" signalling twice. -/
theorem handlePlayAgain_idempotent_witness :
    (handlePlayAgain (handlePlayAgain seatedRegistry "R1" "p1").rooms "R1" "p1").rooms
        = (handlePlayAgain seatedRegistry "R1" "p1").rooms
      ∧ (handlePlayAgain seatedRegistry "R1" "p1").effects = []
      ∧ (handlePlayAgain (handlePlayAgain seatedRegistry "R1" "p1").rooms "R1" "p1").effects = []
      ∧ (handlePlayAgain seatedRegistry "R1" "p1").threw = false
      ∧ (handlePlayAgain (handlePlayAgain seatedRegistry "R1" "p1").rooms "R1" "p1").threw
        = false :=
  handlePlayAgain_idempotent seatedRegistry "R1" seatedRoom "p1" "p2"
    (by decide) (by decide) (by decide) (by decide) (by decide) (by decide)

/-! ## The snapshot of an admitted join -/

theorem filter_isSync_joinNumber (room : Room) (ws : Conn) (p : PlayerId) :
    (joinNumber room ws p).filter Effect.isSync = [] := by
  unfold joinNumber
  split
  · rfl
  · split <;> rfl

theorem filter_isSync_joinStart (room : Room) :
    (joinStart room).filter Effect.isSync = [] := by
  unfold joinStart
  split
  · rw [List.filter_eq_nil_iff]
    intro e he
    obtain ⟨c, _, rfl⟩ := List.mem_map.mp he
    simp [Effect.isSync]
  · rfl

theorem winnerOf_eq (board : Board) (w : Int) (h : winnerOf board = some w) :
    w = if checkWin board 1 = some true then 1
      else if checkWin board 2 = some true then 2 else 0 := by
  unfold winnerOf at h
  cases h1 : checkWin board 1 with
  | none => simp [h1] at h
  | some b1 =>
    cases b1 with
    | true =>
      simp only [h1, Option.some.injEq] at h
      simp [h.symm]
    | false =>
      cases h2 : checkWin board 2 with
      | none => simp [h1, h2] at h
      | some b2 =>
        cases b2 with
        | true =>
          simp only [h1, h2, Option.some.injEq] at h
          simp [h.symm]
        | false =>
          simp only [h1, h2, Option.some.injEq] at h
          simp [h.symm]

/-- The fields that an admitted join leaves alone. -/
theorem joined_frame (room : Room) (ws : Conn) (p : PlayerId) :
    (room.joined ws p).board = room.board ∧ (room.joined ws p).moveCnt = room.moveCnt := by
  obtain ⟨_, _, f3, _, f5, -⟩ := register_frame room p ws
  unfold Room.joined
  split
  · exact ⟨f3, f5⟩
  · split <;> exact ⟨f3, f5⟩

/-- C18, as stated, fails. After `oddBoardSoloEvents` the room "R1" seats
"p1" alone, with the one-row board [[2,2,2]]: the join of "p2" on connection
2 is not rejected as room-full, yet it raises in `checkWin` (line 104) and
sends no `syncState`. And in the empty registry the join that names the room
"constructor" is not rejected as room-full either: it finds the inherited
function there, raises at line 97 and sends nothing. -/
theorem admitted_join_raises_counterexample :
    completes [] oddBoardSoloEvents = true
      ∧ truthy (roomAt (run [] oddBoardSoloEvents) "R1").player1 = true
      ∧ truthy (roomAt (run [] oddBoardSoloEvents) "R1").player2 = false
      ∧ (roomAt (run [] oddBoardSoloEvents) "R1").board = [[2, 2, 2]]
      ∧ (handleJoin (run [] oddBoardSoloEvents) 2 "R1" "p2").threw = true
      ∧ (handleJoin (run [] oddBoardSoloEvents) 2 "R1" "p2").effects = []
      ∧ (handleJoin [] 1 "constructor" "p1").threw = true
      ∧ (handleJoin [] 1 "constructor" "p1").effects = [] := by
  decide

/-- C18, amended. For every join that is admitted (not rejected as
room-full) to a room that exists or whose id names no property inherited
from `Object.prototype`, and on whose board the win test of `handleJoin`
raises nothing (as on every 3x3 grid), `handleJoin` sends exactly one
`syncState` message, to the joining connection, and it carries:
`winnerPlayer` = 1 if `checkWin(board, 1)`, else 2 if `checkWin(board, 2)`,
else 0 (mark 1 first when both marks have a line); `gameOver` = true exactly
when `winnerPlayer` is not 0 or `moveCnt` = 9; and `board`, `turnPlayer`,
`moves`, `player1` and `player2` equal to the room's state after the slot
assignment of this join. -/
theorem handleJoin_snapshot (rooms : Registry) (ws : Conn) (roomId : RoomId) (p : PlayerId)
    (hadm : ¬ (truthy (roomAt rooms roomId).player1 = true
      ∧ truthy (roomAt rooms roomId).player2 = true))
    (hid : builtinRoom rooms roomId = false)
    (hwin : winnerOf (roomAt rooms roomId).board ≠ none) :
    ∃ room' snap, JsObj.get (handleJoin rooms ws roomId p).rooms roomId = some room'
      ∧ (handleJoin rooms ws roomId p).effects.filter Effect.isSync
        = [Effect.send ws (Msg.syncState snap)]
      ∧ snap.winnerPlayer = (if checkWin room'.board 1 = some true then 1
          else if checkWin room'.board 2 = some true then 2 else 0)
      ∧ (snap.gameOver = true ↔ snap.winnerPlayer ≠ 0 ∨ room'.moveCnt = 9)
      ∧ snap.board = room'.board ∧ snap.turnPlayer = room'.turnPlayer
      ∧ snap.moves = room'.moveCnt ∧ snap.player1 = room'.player1
      ∧ snap.player2 = room'.player2
      ∧ room'.board = (roomAt rooms roomId).board
      ∧ room'.moveCnt = (roomAt rooms roomId).moveCnt := by
  obtain ⟨w, hw⟩ := winnerOf_ne_none _ hwin
  have hadm' : (truthy (roomAt rooms roomId).player1 && truthy (roomAt rooms roomId).player2)
      = false := by
    cases h1 : truthy (roomAt rooms roomId).player1 <;>
      cases h2 : truthy (roomAt rooms roomId).player2 <;> simp_all
  obtain ⟨hboard, hcnt⟩ := joined_frame (roomAt rooms roomId) ws p
  rw [handleJoin_admitted rooms ws roomId p w hid hw hadm']
  refine ⟨(roomAt rooms roomId).joined ws p,
    joinSnapshot ((roomAt rooms roomId).joined ws p) w (roomAt rooms roomId).moveCnt,
    get_replace_ensureRoom rooms roomId _ hid, ?_, ?_, ?_, rfl, rfl, rfl, rfl, rfl, hboard, hcnt⟩
  · simp only [List.filter_append, filter_isSync_joinNumber, filter_isSync_joinStart,
      List.nil_append, List.append_nil]
    rfl
  · show w = _
    rw [hboard]
    exact winnerOf_eq _ w hw
  · show (decide (w ≠ 0) || decide ((roomAt rooms roomId).moveCnt = 9)) = true ↔ _
    rw [hcnt]
    simp [joinSnapshot]

/-- C18, amended, at the registry after one join and one move of "p1" in
room "R1", joined by "p2" on connection 2. -/
theorem handleJoin_snapshot_witness :
    ∃ room' snap, JsObj.get (handleJoin (run [] [Event.join 1 "R1" "p1",
          Event.move "R1" [[1, 0, 0], [0, 0, 0], [0, 0, 0]] 1 0]) 2 "R1" "p2").rooms "R1"
        = some room'
      ∧ (handleJoin (run [] [Event.join 1 "R1" "p1",
          Event.move "R1" [[1, 0, 0], [0, 0, 0], [0, 0, 0]] 1 0]) 2 "R1" "p2").effects.filter
            Effect.isSync
        = [Effect.send 2 (Msg.syncState snap)]
      ∧ snap.winnerPlayer = (if checkWin room'.board 1 = some true then 1
          else if checkWin room'.board 2 = some true then 2 else 0)
      ∧ (snap.gameOver = true ↔ snap.winnerPlayer ≠ 0 ∨ room'.moveCnt = 9)
      ∧ snap.board = room'.board ∧ snap.turnPlayer = room'.turnPlayer
      ∧ snap.moves = room'.moveCnt ∧ snap.player1 = room'.player1
      ∧ snap.player2 = room'.player2
      ∧ room'.board = [[1, 0, 0], [0, 0, 0], [0, 0, 0]]
      ∧ room'.moveCnt = 1 :=
  handleJoin_snapshot (run [] [Event.join 1 "R1" "p1",
      Event.move "R1" [[1, 0, 0], [0, 0, 0], [0, 0, 0]] 1 0]) 2 "R1" "p2"
    (by decide) (by decide) (by decide)

/-! ## Disconnect of one of two players -/

theorem delete_of_get_none {α : Type} (o : JsObj α) (k : String)
    (h : JsObj.get o k = none) : JsObj.delete o k = o := by
  induction o with
  | nil => rfl
  | cons e o ih =>
    obtain ⟨k0, v0⟩ := e
    by_cases hk : k0 = k
    · simp [JsObj.get, hk] at h
    · simp only [JsObj.get, hk, if_false] at h
      simp [JsObj.delete, hk, ih h]

theorem delete_insertIndex {α : Type} (o : JsObj α) (n : Nat) (k : String) (v : α) :
    JsObj.delete (JsObj.insertIndex o n k v) k = JsObj.delete o k := by
  induction o with
  | nil => simp [JsObj.insertIndex, JsObj.delete]
  | cons e o ih =>
    obtain ⟨k0, v0⟩ := e
    simp only [JsObj.insertIndex]
    split
    · split
      · by_cases hk : k0 = k
        · simp [JsObj.delete, hk, ih]
        · simp [JsObj.delete, hk, ih]
      · simp [JsObj.delete]
    · simp [JsObj.delete]

theorem delete_append_single {α : Type} (o : JsObj α) (k : String) (v : α) :
    JsObj.delete (o ++ [(k, v)]) k = JsObj.delete o k := by
  induction o with
  | nil => simp [JsObj.delete]
  | cons e o ih =>
    obtain ⟨k0, v0⟩ := e
    by_cases hk : k0 = k
    · simp [JsObj.delete, hk, ih]
    · simp [JsObj.delete, hk, ih]

theorem delete_set {α : Type} (o : JsObj α) (k : String) (v : α)
    (h : JsObj.get o k = none) (hk : k ≠ "__proto__") :
    JsObj.delete (JsObj.set o k v) k = o := by
  have hhas : ¬ JsObj.has o k = true := by simp [JsObj.has, h]
  unfold JsObj.set
  rw [if_neg hk, if_neg hhas]
  split
  · rw [delete_insertIndex, delete_of_get_none o k h]
  · rw [delete_append_single, delete_of_get_none o k h]

theorem findConn_set (o : JsObj Conn) (p : PlayerId) (ws : Conn)
    (h : ∀ e ∈ o, e.2 ≠ ws) (hp : p ≠ "__proto__") :
    findConn (JsObj.set o p ws) ws = some p := by
  apply findConn_of_only _ ws p (JsObj.get_set_self o p ws hp)
  intro e he hws
  rcases JsObj.mem_set o p ws e he with h' | h'
  · exact absurd hws (h e h')
  · rw [h']

/-- The scan stops at the room that holds the closed handle under a
non-empty id, when no other room holds it: the room loses the connection
and the player's slot, and goes if both slots are then empty. -/
theorem disconnectLoop_found (ws : Conn) (roomId : RoomId) (room : Room) (p : PlayerId)
    (rooms : Registry) (hget : JsObj.get rooms roomId = some room) (hp : p ≠ "")
    (hfind : findConn room.connections ws = some p)
    (hother : ∀ k room', k ≠ roomId → JsObj.get rooms k = some room' →
      findConn room'.connections ws = none)
    (ks : List RoomId) (hmem : roomId ∈ ks) :
    disconnectLoop ws ks rooms =
      if (!truthy (vacate { room with
              connections := JsObj.delete room.connections p } p).player1
          && !truthy (vacate { room with
              connections := JsObj.delete room.connections p } p).player2) = true
        then JsObj.delete rooms roomId
        else JsObj.replace rooms roomId
          (vacate { room with connections := JsObj.delete room.connections p } p) := by
  induction ks with
  | nil => simp at hmem
  | cons k rest ih =>
    by_cases hk : k = roomId
    · subst hk
      simp only [disconnectLoop, hget, hfind, ne_eq, hp, not_false_eq_true, if_true]
    · have hrest : roomId ∈ rest := by
        rcases List.mem_cons.mp hmem with h | h
        · exact absurd h.symm hk
        · exact h
      cases hg : JsObj.get rooms k with
      | none => simp only [disconnectLoop, hg, ih hrest]
      | some room' =>
        have hf := hother k room' hk hg
        simp only [disconnectLoop, hg, hf, ih hrest]

/-- C19, as stated, fails. After `sharedHandleEvents` (all completing) the
slots of room "R" hold "p1" and "p2", registered with the distinct
connections 1 and 2, and "R" is the only room; connection 1 also holds the
earlier entry "x" of the same room. After `handleDisconnect` of connection 1
the slot of "p1" still holds "p1" and `connections` still has the entry of
"p1". And in a registry whose room "R" seats "p1" on connection 1 and the
empty id on connection 2, `handleDisconnect` of connection 1 deletes the
room. -/
theorem handleDisconnect_shared_handle_counterexample :
    completes [] sharedHandleEvents = true
      ∧ run [] sharedHandleEvents = [("R", sharedHandleRoom)]
      ∧ sharedHandleRoom.player1 = some "p1" ∧ sharedHandleRoom.player2 = some "p2"
      ∧ JsObj.get sharedHandleRoom.connections "p1" = some 1
      ∧ JsObj.get sharedHandleRoom.connections "p2" = some 2
      ∧ (∃ room', JsObj.get (handleDisconnect (run [] sharedHandleEvents) 1).rooms "R"
            = some room'
          ∧ room'.player1 = some "p1" ∧ JsObj.get room'.connections "p1" = some 1)
      ∧ completes [] [Event.join 1 "R" "p1", Event.join 2 "R" ""] = true
      ∧ run [] [Event.join 1 "R" "p1", Event.join 2 "R" ""] = [("R", emptySeatRoom)]
      ∧ JsObj.get (handleDisconnect [("R", emptySeatRoom)] 1).rooms "R" = none :=
  ⟨by decide, by decide, by decide, by decide, by decide, by decide,
    ⟨{ sharedHandleRoom with connections := [("p1", 1), ("p2", 2)] },
      by decide, by decide, by decide⟩,
    by decide, by decide, by decide⟩

/-- C19, amended. For every room whose two slots hold distinct non-empty
player ids `p1` and `p2` registered with distinct connections `ws1` and
`ws2`, where `ws1` is registered under no other player id of the room and in
no other room: after `handleDisconnect(ws1)` the room is still in the
registry, the slot that held `p1` is empty, `connections` has no entry for
`p1`, and the other slot, `p2`'s connection entry, `board`, `turnPlayer`,
`moveCnt`, `readyToPlayAgain` (with any pending signal of `p2`) and
`switchRequests` are unchanged; no message is sent. -/
theorem handleDisconnect_one_of_two (rooms : Registry) (roomId : RoomId) (room : Room)
    (p1 p2 : PlayerId) (ws1 ws2 : Conn) (hget : JsObj.get rooms roomId = some room)
    (hslots : (room.player1 = some p1 ∧ room.player2 = some p2)
      ∨ (room.player1 = some p2 ∧ room.player2 = some p1))
    (hne : p1 ≠ p2) (h1 : p1 ≠ "") (h2 : p2 ≠ "")
    (hc1 : JsObj.get room.connections p1 = some ws1)
    (hc2 : JsObj.get room.connections p2 = some ws2) (hws : ws1 ≠ ws2)
    (honly : ∀ e ∈ room.connections, e.2 = ws1 → e.1 = p1)
    (hother : ∀ k room', k ≠ roomId → JsObj.get rooms k = some room' →
      ∀ e ∈ room'.connections, e.2 ≠ ws1) :
    (handleDisconnect rooms ws1).effects = []
      ∧ (handleDisconnect rooms ws1).threw = false
      ∧ ∃ room', JsObj.get (handleDisconnect rooms ws1).rooms roomId = some room'
          ∧ (room.player1 = some p1 → room'.player1 = none ∧ room'.player2 = some p2)
          ∧ (room.player2 = some p1 → room'.player2 = none ∧ room'.player1 = some p2)
          ∧ JsObj.get room'.connections p1 = none
          ∧ JsObj.get room'.connections p2 = some ws2
          ∧ room'.board = room.board ∧ room'.turnPlayer = room.turnPlayer
          ∧ room'.moveCnt = room.moveCnt
          ∧ room'.readyToPlayAgain = room.readyToPlayAgain
          ∧ room'.switchRequests = room.switchRequests := by
  have _ := hws
  have hfind := findConn_of_only room.connections ws1 p1 hc1 honly
  have hloop := disconnectLoop_found ws1 roomId room p1 rooms hget h1 hfind
    (fun k room' hk hg => findConn_eq_none room'.connections ws1 (hother k room' hk hg))
    (JsObj.keys rooms) (mem_keys_of_get rooms roomId room hget)
  have hd1 : JsObj.get (JsObj.delete room.connections p1) p1 = none :=
    JsObj.get_delete_self room.connections p1
  have hd2 : JsObj.get (JsObj.delete room.connections p1) p2 = some ws2 := by
    rw [JsObj.get_delete_ne room.connections p1 p2 (Ne.symm hne)]
    exact hc2
  have t2 : truthy (some p2) = true := truthy_some p2 h2
  have tn : truthy none = false := rfl
  refine ⟨rfl, rfl, ?_⟩
  show ∃ room', JsObj.get (disconnectLoop ws1 (JsObj.keys rooms) rooms) roomId = some room' ∧ _
  rw [hloop]
  rcases hslots with ⟨hs1, hs2⟩ | ⟨hs1, hs2⟩
  · have hv : vacate { room with connections := JsObj.delete room.connections p1 } p1
        = { room with connections := JsObj.delete room.connections p1, player1 := none } := by
      simp [vacate, hs1]
    rw [hv]
    split
    · rename_i hc
      exfalso
      simp [tn, hs2, t2] at hc
    · refine ⟨_, get_replace_of_get rooms roomId room _ hget, ?_, ?_, hd1, hd2, rfl, rfl, rfl,
        rfl, rfl⟩
      · intro _
        exact ⟨rfl, hs2⟩
      · intro h
        rw [hs2] at h
        exact absurd (Option.some.inj h) (Ne.symm hne)
  · have hn1 : ¬ room.player1 = some p1 := by
      rw [hs1]
      intro h
      exact hne (Option.some.inj h).symm
    have hv : vacate { room with connections := JsObj.delete room.connections p1 } p1
        = { room with connections := JsObj.delete room.connections p1, player2 := none } := by
      simp [vacate, hn1, hs2]
    rw [hv]
    split
    · rename_i hc
      exfalso
      simp [tn, hs1, t2] at hc
    · refine ⟨_, get_replace_of_get rooms roomId room _ hget, ?_, ?_, hd1, hd2, rfl, rfl, rfl,
        rfl, rfl⟩
      · intro h
        exact absurd h hn1
      · intro _
        exact ⟨rfl, hs1⟩

/-- C19, amended, at `seatedRegistry`: connection 1 of "p1" closes. -/
theorem handleDisconnect_one_of_two_witness :
    (handleDisconnect seatedRegistry 1).effects = []
      ∧ (handleDisconnect seatedRegistry 1).threw = false
      ∧ ∃ room', JsObj.get (handleDisconnect seatedRegistry 1).rooms "R1" = some room'
          ∧ (seatedRoom.player1 = some "p1" → room'.player1 = none ∧ room'.player2 = some "p2")
          ∧ (seatedRoom.player2 = some "p1" → room'.player2 = none ∧ room'.player1 = some "p2")
          ∧ JsObj.get room'.connections "p1" = none
          ∧ JsObj.get room'.connections "p2" = some 2
          ∧ room'.board = seatedRoom.board ∧ room'.turnPlayer = seatedRoom.turnPlayer
          ∧ room'.moveCnt = seatedRoom.moveCnt
          ∧ room'.readyToPlayAgain = seatedRoom.readyToPlayAgain
          ∧ room'.switchRequests = seatedRoom.switchRequests :=
  handleDisconnect_one_of_two seatedRegistry "R1" seatedRoom "p1" "p2" 1 2
    (by decide) (Or.inl ⟨by decide, by decide⟩) (by decide) (by decide) (by decide)
    (by decide) (by decide) (by decide) (by decide)
    (fun k room' hk hg => by
      have hk' : ¬ "R1" = k := fun h => hk h.symm
      simp [seatedRegistry, JsObj.get, hk'] at hg)

/-! ## A rejected join and the close that follows -/

/-- The scan for a handle that the rejected join has just registered under
`p` in a full room undoes the registration and nothing else. -/
theorem disconnectLoop_restore (ws : Conn) (roomId : RoomId) (room : Room) (p : PlayerId)
    (rooms : Registry) (hget : JsObj.get rooms roomId = some room)
    (ht1 : truthy room.player1 = true)
    (hp1 : room.player1 ≠ some p) (hp2 : room.player2 ≠ some p)
    (hnone : JsObj.get room.connections p = none) (hq : p ≠ "__proto__")
    (hfree : ∀ k room', JsObj.get rooms k = some room' → ∀ e ∈ room'.connections, e.2 ≠ ws)
    (ks : List RoomId) (hmem : roomId ∈ ks) :
    disconnectLoop ws ks
        (JsObj.replace rooms roomId
          { room with connections := JsObj.set room.connections p ws }) = rooms := by
  have hskip : ∀ ks', disconnectLoop ws ks' rooms = rooms := fun ks' =>
    disconnectLoop_skip ws ks' rooms
      (fun k _ room' hg => findConn_eq_none room'.connections ws (hfree k room' hg))
  have hback : JsObj.replace
      (JsObj.replace rooms roomId { room with connections := JsObj.set room.connections p ws })
      roomId room = rooms := by
    rw [replace_replace, replace_same rooms roomId room hget]
  have hdel : ({ room with
      connections := JsObj.delete (JsObj.set room.connections p ws) p } : Room) = room := by
    rw [delete_set room.connections p ws hnone hq]
  induction ks with
  | nil => simp at hmem
  | cons k rest ih =>
    by_cases hk : k = roomId
    · subst hk
      have hg : JsObj.get (JsObj.replace rooms k
          { room with connections := JsObj.set room.connections p ws }) k
          = some { room with connections := JsObj.set room.connections p ws } :=
        get_replace_of_get rooms k room _ hget
      have hf : findConn (JsObj.set room.connections p ws) ws = some p :=
        findConn_set room.connections p ws (hfree k room hget) hq
      by_cases hpe : p = ""
      · subst hpe
        have hstep : disconnectLoop ws (k :: rest)
            (JsObj.replace rooms k { room with connections := JsObj.set room.connections "" ws })
            = disconnectLoop ws rest
              (JsObj.replace
                (JsObj.replace rooms k
                  { room with connections := JsObj.set room.connections "" ws })
                k
                { room with
                  connections := JsObj.delete (JsObj.set room.connections "" ws) "" }) := by
          simp [disconnectLoop, hg, hf]
        rw [hstep, hdel, hback]
        exact hskip rest
      · have hv : vacate room p = room := by
          simp [vacate, hp1, hp2]
        have hstep : disconnectLoop ws (k :: rest)
            (JsObj.replace rooms k { room with connections := JsObj.set room.connections p ws })
            = if (!truthy (vacate { room with
                      connections := JsObj.delete (JsObj.set room.connections p ws) p } p).player1
                  && !truthy (vacate { room with
                      connections := JsObj.delete (JsObj.set room.connections p ws) p }
                    p).player2) = true
                then JsObj.delete (JsObj.replace rooms k
                  { room with connections := JsObj.set room.connections p ws }) k
                else JsObj.replace (JsObj.replace rooms k
                    { room with connections := JsObj.set room.connections p ws }) k
                  (vacate { room with
                    connections := JsObj.delete (JsObj.set room.connections p ws) p } p) := by
          simp only [disconnectLoop, hg, hf, ne_eq, hpe, not_false_eq_true, if_true]
        rw [hstep, hdel, hv]
        simp only [ht1, Bool.not_true, Bool.false_and, Bool.false_eq_true, if_false]
        exact hback
    · have hrest : roomId ∈ rest := by
        rcases List.mem_cons.mp hmem with h | h
        · exact absurd h.symm hk
        · exact h
      have hgk : JsObj.get (JsObj.replace rooms roomId
          { room with connections := JsObj.set room.connections p ws }) k = JsObj.get rooms k :=
        JsObj.get_replace_ne rooms roomId k _ hk
      cases hg : JsObj.get rooms k with
      | none =>
        rw [hg] at hgk
        simp only [disconnectLoop, hgk]
        exact ih hrest
      | some room' =>
        rw [hg] at hgk
        have hf := findConn_eq_none room'.connections ws (hfree k room' hg)
        simp only [disconnectLoop, hgk, hf]
        exact ih hrest

/-- C20, as stated, fails. In the room "R1" after `oddBoardEvents` both
slots are occupied and the board is the one row [2,2,2]; "p3" is neither
occupant and has no entry, and connection 3 is registered nowhere: the join
of "p3" on connection 3 raises in `checkWin` (line 104) and is not rejected,
connection 3 is not closed. And in the room "R1" of `seatedRegistry` the
join of "__proto__" on connection 3 is rejected, but `connections` gets no
entry for it, a broadcast to the room in that window is not sent to
connection 3, and the close of connection 3 does not return the registry to
its former state: connection 3 stays the prototype of `connections`. -/
theorem rejected_join_not_undone_counterexample :
    run [] oddBoardEvents = [("R1", oddBoardRoom)]
      ∧ truthy oddBoardRoom.player1 = true ∧ truthy oddBoardRoom.player2 = true
      ∧ oddBoardRoom.player1 ≠ some "p3" ∧ oddBoardRoom.player2 ≠ some "p3"
      ∧ JsObj.get oddBoardRoom.connections "p3" = none
      ∧ (handleJoin [("R1", oddBoardRoom)] 3 "R1" "p3").threw = true
      ∧ (handleJoin [("R1", oddBoardRoom)] 3 "R1" "p3").effects = []
      ∧ seatedRoom.player1 ≠ some "__proto__" ∧ seatedRoom.player2 ≠ some "__proto__"
      ∧ JsObj.get seatedRoom.connections "__proto__" = none
      ∧ (handleJoin seatedRegistry 3 "R1" "__proto__").effects
        = [Effect.send 3 (Msg.error "Room is full. You will be redirected to the homepage."),
            Effect.close 3]
      ∧ (handleJoin seatedRegistry 3 "R1" "__proto__").rooms
        = [("R1", { seatedRoom with connectionsProto := some 3 })]
      ∧ broadcast (handleJoin seatedRegistry 3 "R1" "__proto__").rooms "R1" Msg.reset
        = some [Effect.send 1 Msg.reset, Effect.send 2 Msg.reset]
      ∧ (handleDisconnect (handleJoin seatedRegistry 3 "R1" "__proto__").rooms 3).rooms
        = [("R1", { seatedRoom with connectionsProto := some 3 })]
      ∧ (handleDisconnect (handleJoin seatedRegistry 3 "R1" "__proto__").rooms 3).rooms
        ≠ seatedRegistry := by
  decide

/-- C20, amended. For every room with both slots occupied, on whose board
the win test of `handleJoin` raises nothing (as on every 3x3 grid), every
player id `p` other than "__proto__" that is different from both occupants
and has no entry in the room's `connections`, and every connection `ws`
registered in no room: `handleJoin(ws, room, p)` is rejected, and followed
by `handleDisconnect(ws)` (the close the rejection causes) it returns the
registry to exactly the state it had before the join; between the two steps
the room's `connections` holds the entry of `p`, so any broadcast to the
room in that window is also sent to `ws`. -/
theorem rejected_join_then_close (rooms : Registry) (ws : Conn) (roomId : RoomId) (p : PlayerId)
    (room : Room) (hget : JsObj.get rooms roomId = some room)
    (h1 : truthy room.player1 = true) (h2 : truthy room.player2 = true)
    (hp1 : room.player1 ≠ some p) (hp2 : room.player2 ≠ some p)
    (hnone : JsObj.get room.connections p = none)
    (hfree : ∀ k room', JsObj.get rooms k = some room' → ∀ e ∈ room'.connections, e.2 ≠ ws)
    (hw : winnerOf room.board ≠ none) (hq : p ≠ "__proto__") :
    (handleJoin rooms ws roomId p).effects
        = [Effect.send ws (Msg.error "Room is full. You will be redirected to the homepage."),
            Effect.close ws]
      ∧ (handleDisconnect (handleJoin rooms ws roomId p).rooms ws).rooms = rooms
      ∧ (handleDisconnect (handleJoin rooms ws roomId p).rooms ws).effects = []
      ∧ (∃ room1, JsObj.get (handleJoin rooms ws roomId p).rooms roomId = some room1
          ∧ JsObj.get room1.connections p = some ws)
      ∧ ∀ msg, ∃ sends, broadcast (handleJoin rooms ws roomId p).rooms roomId msg = some sends
          ∧ Effect.send ws msg ∈ sends := by
  have hreg : room.register p ws = { room with connections := JsObj.set room.connections p ws } := by
    simp [Room.register, hq]
  rw [handleJoin_full rooms ws roomId p room hget h1 h2 hw, hreg]
  refine ⟨rfl, ?_, rfl, ?_, ?_⟩
  · show disconnectLoop ws (JsObj.keys (JsObj.replace rooms roomId _)) _ = rooms
    rw [JsObj.keys_replace]
    exact disconnectLoop_restore ws roomId room p rooms hget h1 hp1 hp2 hnone hq hfree
      (JsObj.keys rooms) (mem_keys_of_get rooms roomId room hget)
  · exact ⟨_, get_replace_of_get rooms roomId room _ hget,
      JsObj.get_set_self room.connections p ws hq⟩
  · intro msg
    refine ⟨_, broadcast_replace rooms roomId room _ msg hget, ?_⟩
    apply List.mem_map.mpr
    refine ⟨ws, ?_, rfl⟩
    exact List.mem_map.mpr
      ⟨(p, ws), JsObj.mem_of_get _ p ws (JsObj.get_set_self room.connections p ws hq), rfl⟩

/-- C20, amended, at `seatedRegistry`: "p3" joins the full room "R1" on
connection 3, which then closes. -/
theorem rejected_join_then_close_witness :
    (handleJoin seatedRegistry 3 "R1" "p3").effects
        = [Effect.send 3 (Msg.error "Room is full. You will be redirected to the homepage."),
            Effect.close 3]
      ∧ (handleDisconnect (handleJoin seatedRegistry 3 "R1" "p3").rooms 3).rooms = seatedRegistry
      ∧ (handleDisconnect (handleJoin seatedRegistry 3 "R1" "p3").rooms 3).effects = []
      ∧ (∃ room1, JsObj.get (handleJoin seatedRegistry 3 "R1" "p3").rooms "R1" = some room1
          ∧ JsObj.get room1.connections "p3" = some 3)
      ∧ ∀ msg, ∃ sends,
          broadcast (handleJoin seatedRegistry 3 "R1" "p3").rooms "R1" msg = some sends
          ∧ Effect.send 3 msg ∈ sends :=
  rejected_join_then_close seatedRegistry 3 "R1" "p3" seatedRoom
    (by decide) (by decide) (by decide) (by decide) (by decide) (by decide)
    (fun k room' hg => by
      by_cases hk : "R1" = k
      · simp only [seatedRegistry, JsObj.get, hk, if_true, Option.some.injEq] at hg
        rw [← hg]
        decide
      · simp [seatedRegistry, JsObj.get, hk] at hg)
    (by decide) (by decide)

end TicTacToeBE
